import Mathlib

/-!
# Quadrature rules of dune-geometry: dispatch and closed-form tables

A shallow embedding of `dune/geometry/quadraturerules.hh` and of the rule
tables under `dune/geometry/quadraturerules/`.

* The number type `ct` is read as the exact rationals `ℚ`; every decimal
  literal of the tables denotes its exact decimal value. Where a property
  depends on the rounding of the compiled code, the entries concerned are
  given a second time in `double` arithmetic (`Double.round`).
* `int` orders are `Int`; `unsigned` maximal orders are `Nat`.
* A constructor or factory call that can throw returns `Except DuneError _`.
* The generic builder `TensorProductQuadratureRule` lives in a header that is
  not part of the sources at hand, so the factories take it as a parameter.
-/

namespace Dune

/-! ## Data model -/

/-- The two exception classes the quadrature code throws: the generic
`Dune::Exception` (with its message) and `QuadratureOrderOutOfRange`
(recording the offending order). -/
inductive DuneError where
  | Exception (msg : String)
  | QuadratureOrderOutOfRange (p : Int)
  deriving DecidableEq, Repr

/-- The enumeration `QuadratureType::Enum`, sentinel `size` included. -/
inductive QuadratureType where
  | GaussLegendre
  | GaussJacobi_1_0
  | GaussJacobi_2_0
  | GaussJacobi_n_0
  | GaussLobatto
  | GaussRadauLeft
  | GaussRadauRight
  | size
  deriving DecidableEq, Repr

/-- Modelled from the spec: `GeometryType` (dune/geometry/type.hh) is not among
the sources. The spec describes it as a shape-identity value with a stable
integer id and the classification predicates is-vertex, is-line, is-simplex,
is-cube and is-prism; the dimension of the shape is carried along. Nothing is
assumed about how the predicates relate to one another or to the id. -/
structure GeometryType where
  id : Nat
  dim : Nat
  isVertex : Bool
  isLine : Bool
  isSimplex : Bool
  isCube : Bool
  isPrism : Bool
  deriving DecidableEq, Repr

namespace GeometryTypes

/-- Modelled from the spec: the shape constant `GeometryTypes::vertex`
(dune/geometry/type.hh, not among the sources): the 0-dimensional shape, which
is both the 0-simplex and the 0-cube. -/
def vertex : GeometryType := ⟨0, 0, true, false, true, true, false⟩

/-- Modelled from the spec: the shape constant `GeometryTypes::line`
(dune/geometry/type.hh, not among the sources): the 1-dimensional shape, which
is both the 1-simplex and the 1-cube. -/
def line : GeometryType := ⟨0, 1, false, true, true, true, false⟩

/-- Modelled from the spec: the shape constant `GeometryTypes::triangle`
(dune/geometry/type.hh, not among the sources): the 2-dimensional simplex. -/
def triangle : GeometryType := ⟨0, 2, false, false, true, false, false⟩

/-- Modelled from the spec: the shape constant `GeometryTypes::quadrilateral`
(dune/geometry/type.hh, not among the sources): the 2-dimensional cube. -/
def quadrilateral : GeometryType := ⟨3, 2, false, false, false, true, false⟩

/-- Modelled from the spec: the shape constant `GeometryTypes::tetrahedron`
(dune/geometry/type.hh, not among the sources): the 3-dimensional simplex. -/
def tetrahedron : GeometryType := ⟨0, 3, false, false, true, false, false⟩

/-- Modelled from the spec: the shape constant `GeometryTypes::prism`
(dune/geometry/type.hh, not among the sources): triangle times line. -/
def prism : GeometryType := ⟨5, 3, false, false, false, false, true⟩

/-- Modelled from the spec: the shape constant `GeometryTypes::hexahedron`
(dune/geometry/type.hh, not among the sources): the 3-dimensional cube. -/
def hexahedron : GeometryType := ⟨7, 3, false, false, false, true, false⟩

end GeometryTypes

/-- The class `QuadraturePoint<ct,dim>`: a position `local_` (one coordinate per
dimension) and a weight `weight_`. -/
structure QuadraturePoint where
  local_ : List ℚ
  weight_ : ℚ
  deriving DecidableEq

/-- The accessor `QuadraturePoint::position`. -/
def QuadraturePoint.position (q : QuadraturePoint) : List ℚ := q.local_

/-- The accessor `QuadraturePoint::weight`. -/
def QuadraturePoint.weight (q : QuadraturePoint) : ℚ := q.weight_

/-- The class `QuadratureRule<ct,dim>`: the vector of points it inherits from,
with the members `type_` and `order_`. -/
structure QuadratureRule where
  type_ : GeometryType
  order_ : Int
  points : List QuadraturePoint
  deriving DecidableEq

/-- The accessor `QuadratureRule::order`. -/
def QuadratureRule.order (r : QuadratureRule) : Int := r.order_

/-- The accessor `QuadratureRule::type`. -/
def QuadratureRule.type (r : QuadratureRule) : GeometryType := r.type_

/-- The inherited `std::vector::size`. -/
def QuadratureRule.size (r : QuadratureRule) : Nat := r.points.length

/-- The class `TensorProductQuadratureRule<ctype,dim>` for one fixed `dim`, as
far as the factories use it: the static `maxOrder(topologyId, qt)` and the
constructor `(topologyId, p, qt)`, which may throw. Its header is not among the
sources, so it is a parameter of everything below. -/
structure TensorProductQuadratureRule where
  maxOrder : Nat → QuadratureType → Nat
  rule : Nat → Int → QuadratureType → Except DuneError QuadratureRule

/-! ## Closed-form tables -/

/-- The constant `std::numeric_limits<int>::max()` for the 32-bit `int`. -/
def INT_MAX : Int := 2147483647

/-- The enumerator `PointQuadratureRule::highest_order`. -/
def PointQuadratureRule.highest_order : Int := INT_MAX

/-- The constructor `PointQuadratureRule<ct>::PointQuadratureRule()`: a single
point with the empty position vector and weight `DUNE_NUMBER(ct,1)`. -/
def PointQuadratureRule : QuadratureRule :=
  ⟨GeometryTypes.vertex, PointQuadratureRule.highest_order, [⟨[], 1⟩]⟩

/-- The enumerator `SimplexQuadratureRule<ct,2>::highest_order`. -/
def SimplexQuadratureRule2.highest_order : Int := 12

/-- The enumerator `SimplexQuadratureRule<ct,3>::highest_order`. -/
def SimplexQuadratureRule3.highest_order : Int := 5

/-- The enumerator `PrismQuadratureRule<ct>::highest_order`. -/
def PrismQuadratureRule.highest_order : Int := 2

/-- The constructor `SimplexQuadratureRule<ct,2>::SimplexQuadratureRule(int p)`:
the triangle tables, selected by `switch (p)`; the `default` label throws. -/
def SimplexQuadratureRule2 (p : Int) : Except DuneError QuadratureRule :=
  match p with
  | 0 | 1 =>
    .ok ⟨GeometryTypes.triangle, 1, [
      ⟨[0.333333333333333333333333333333333, 0.333333333333333333333333333333333], 0.5⟩]⟩
  | 2 =>
    .ok ⟨GeometryTypes.triangle, 2, [
      ⟨[4.0/6.0, 1.0/6.0], 0.5/3.0⟩,
      ⟨[1.0/6.0, 4.0/6.0], 0.5/3.0⟩,
      ⟨[1.0/6.0, 1.0/6.0], 0.5/3.0⟩]⟩
  | 3 =>
    .ok ⟨GeometryTypes.triangle, 3, [
      ⟨[10.0/30.0, 10.0/30.0], 0.5 * (-27.0)/48.0⟩,
      ⟨[18.0/30.0, 6.0/30.0], 0.5 * 25.0/48.0⟩,
      ⟨[6.0/30.0, 18.0/30.0], 0.5 * 25.0/48.0⟩,
      ⟨[6.0/30.0, 6.0/30.0], 0.5 * 25.0/48.0⟩]⟩
  | 4 =>
    .ok ⟨GeometryTypes.triangle, 4, [
      ⟨[0.81684757298045851308085707319560, 0.091576213509770743459571463402202], 0.5 * 0.10995174365532186763832632490021⟩,
      ⟨[0.091576213509770743459571463402202, 0.81684757298045851308085707319560], 0.5 * 0.10995174365532186763832632490021⟩,
      ⟨[0.091576213509770743459571463402202, 0.091576213509770743459571463402202], 0.5 * 0.10995174365532186763832632490021⟩,
      ⟨[0.10810301816807022736334149223390, 0.44594849091596488631832925388305], 0.5 * 0.22338158967801146569500700843312⟩,
      ⟨[0.44594849091596488631832925388305, 0.10810301816807022736334149223390], 0.5 * 0.22338158967801146569500700843312⟩,
      ⟨[0.44594849091596488631832925388305, 0.44594849091596488631832925388305], 0.5 * 0.22338158967801146569500700843312⟩]⟩
  | 5 =>
    .ok ⟨GeometryTypes.triangle, 5, [
      ⟨[0.333333333333333333333333333333333, 0.333333333333333333333333333333333], 0.5 * 0.225⟩,
      ⟨[0.79742698535308732239802527616975, 0.1012865073234563388009873619151], 0.5 * 0.12593918054482715259568394550018⟩,
      ⟨[0.10128650732345633880098736191512, 0.79742698535308732239802527616975], 0.5 * 0.12593918054482715259568394550018⟩,
      ⟨[0.10128650732345633880098736191512, 0.10128650732345633880098736191512], 0.5 * 0.12593918054482715259568394550018⟩,
      ⟨[0.05971587178976982045911758097311, 0.47014206410511508977044120951345], 0.5 * 0.13239415278850618073764938783315⟩,
      ⟨[0.47014206410511508977044120951345, 0.05971587178976982045911758097311], 0.5 * 0.13239415278850618073764938783315⟩,
      ⟨[0.47014206410511508977044120951345, 0.47014206410511508977044120951345], 0.5 * 0.13239415278850618073764938783315⟩]⟩
  | 6 =>
    .ok ⟨GeometryTypes.triangle, 6, [
      ⟨[0.063089014491502228340331602870819, 0.063089014491502228340331602870819], 0.5 * 0.050844906370206816920936809106869⟩,
      ⟨[0.063089014491502228340331602870819, 0.87382197101699554331933679425836], 0.5 * 0.050844906370206816920936809106869⟩,
      ⟨[0.87382197101699554331933679425836, 0.063089014491502228340331602870819], 0.5 * 0.050844906370206816920936809106869⟩,
      ⟨[0.24928674517091042129163855310702, 0.24928674517091042129163855310702], 0.5 * 0.11678627572637936602528961138558⟩,
      ⟨[0.24928674517091042129163855310702, 0.50142650965817915741672289378596], 0.5 * 0.11678627572637936602528961138558⟩,
      ⟨[0.50142650965817915741672289378596, 0.24928674517091042129163855310702], 0.5 * 0.11678627572637936602528961138558⟩,
      ⟨[0.053145049844816947353249671631398, 0.31035245103378440541660773395655], 0.5 * 0.082851075618373575193553456420442⟩,
      ⟨[0.053145049844816947353249671631398, 0.63650249912139864723014259441205], 0.5 * 0.082851075618373575193553456420442⟩,
      ⟨[0.31035245103378440541660773395655, 0.053145049844816947353249671631398], 0.5 * 0.082851075618373575193553456420442⟩,
      ⟨[0.31035245103378440541660773395655, 0.63650249912139864723014259441205], 0.5 * 0.082851075618373575193553456420442⟩,
      ⟨[0.63650249912139864723014259441205, 0.053145049844816947353249671631398], 0.5 * 0.082851075618373575193553456420442⟩,
      ⟨[0.63650249912139864723014259441205, 0.31035245103378440541660773395655], 0.5 * 0.082851075618373575193553456420442⟩]⟩
  | 7 =>
    .ok ⟨GeometryTypes.triangle, 7, [
      ⟨[0.0623822650944021181736830009963499, 0.0675178670739160854425571310508685], 0.5 * 0.053034056314872502857508360921478⟩,
      ⟨[0.0675178670739160854425571310508685, 0.870099867831681796383759867952782], 0.5 * 0.053034056314872502857508360921478⟩,
      ⟨[0.870099867831681796383759867952782, 0.0623822650944021181736830009963499], 0.5 * 0.053034056314872502857508360921478⟩,
      ⟨[0.0552254566569266117374791902756449, 0.321502493851981822666307849199202], 0.5 * 0.087762817428892110073539806278575⟩,
      ⟨[0.321502493851981822666307849199202, 0.623272049491091565596212960525153], 0.5 * 0.087762817428892110073539806278575⟩,
      ⟨[0.623272049491091565596212960525153, 0.0552254566569266117374791902756449], 0.5 * 0.087762817428892110073539806278575⟩,
      ⟨[0.0343243029450971464696306424839376, 0.660949196186735657611980310197799], 0.5 * 0.057550085569963171476890993800437⟩,
      ⟨[0.660949196186735657611980310197799, 0.304726500868167195918389047318263], 0.5 * 0.057550085569963171476890993800437⟩,
      ⟨[0.304726500868167195918389047318263, 0.0343243029450971464696306424839376], 0.5 * 0.057550085569963171476890993800437⟩,
      ⟨[0.515842334353591779257463386826430, 0.277716166976391782569581871393723], 0.5 * 0.13498637401960554892539417233284⟩,
      ⟨[0.277716166976391782569581871393723, 0.20644149867001643817295474177985], 0.5 * 0.13498637401960554892539417233284⟩,
      ⟨[0.20644149867001643817295474177985, 0.515842334353591779257463386826430], 0.5 * 0.13498637401960554892539417233284⟩]⟩
  | 8 =>
    .ok ⟨GeometryTypes.triangle, 8, [
      ⟨[0.33333333333333333333333333333333, 0.33333333333333333333333333333333], 0.5 * 0.14431560767778716825109111048906⟩,
      ⟨[0.17056930775176020662229350149146, 0.17056930775176020662229350149146], 0.5 * 0.10321737053471825028179155029213⟩,
      ⟨[0.17056930775176020662229350149146, 0.65886138449647958675541299701707], 0.5 * 0.10321737053471825028179155029213⟩,
      ⟨[0.65886138449647958675541299701707, 0.17056930775176020662229350149146], 0.5 * 0.10321737053471825028179155029213⟩,
      ⟨[0.050547228317030975458423550596599, 0.050547228317030975458423550596599], 0.5 * 0.032458497623198080310925928341780⟩,
      ⟨[0.050547228317030975458423550596599, 0.89890554336593804908315289880680], 0.5 * 0.032458497623198080310925928341780⟩,
      ⟨[0.89890554336593804908315289880680, 0.050547228317030975458423550596599], 0.5 * 0.032458497623198080310925928341780⟩,
      ⟨[0.45929258829272315602881551449417, 0.45929258829272315602881551449417], 0.5 * 0.095091634267284624793896104388584⟩,
      ⟨[0.45929258829272315602881551449417, 0.08141482341455368794236897101166], 0.5 * 0.095091634267284624793896104388584⟩,
      ⟨[0.08141482341455368794236897101166, 0.45929258829272315602881551449417], 0.5 * 0.095091634267284624793896104388584⟩,
      ⟨[0.72849239295540428124100037917606, 0.26311282963463811342178578628464], 0.5 * 0.027230314174434994264844690073909⟩,
      ⟨[0.72849239295540428124100037917606, 0.00839477740995760533721383453930], 0.5 * 0.027230314174434994264844690073909⟩,
      ⟨[0.26311282963463811342178578628464, 0.72849239295540428124100037917606], 0.5 * 0.027230314174434994264844690073909⟩,
      ⟨[0.26311282963463811342178578628464, 0.00839477740995760533721383453930], 0.5 * 0.027230314174434994264844690073909⟩,
      ⟨[0.00839477740995760533721383453930, 0.72849239295540428124100037917606], 0.5 * 0.027230314174434994264844690073909⟩,
      ⟨[0.00839477740995760533721383453930, 0.26311282963463811342178578628464], 0.5 * 0.027230314174434994264844690073909⟩]⟩
  | 9 =>
    .ok ⟨GeometryTypes.triangle, 9, [
      ⟨[0.333333333333333333333333333333333, 0.333333333333333333333333333333333], 0.5 * 0.097135796282798833819241982507289⟩,
      ⟨[0.48968251919873762778370692483619, 0.48968251919873762778370692483619], 0.5 * 0.031334700227139070536854831287209⟩,
      ⟨[0.48968251919873762778370692483619, 0.02063496160252474443258615032762], 0.5 * 0.031334700227139070536854831287209⟩,
      ⟨[0.02063496160252474443258615032762, 0.48968251919873762778370692483619], 0.5 * 0.031334700227139070536854831287209⟩,
      ⟨[0.43708959149293663726993036443535, 0.43708959149293663726993036443535], 0.5 * 0.077827541004774279316739356299404⟩,
      ⟨[0.43708959149293663726993036443535, 0.12582081701412672546013927112929], 0.5 * 0.077827541004774279316739356299404⟩,
      ⟨[0.12582081701412672546013927112929, 0.43708959149293663726993036443535], 0.5 * 0.077827541004774279316739356299404⟩,
      ⟨[0.18820353561903273024096128046733, 0.18820353561903273024096128046733], 0.5 * 0.079647738927210253032891774264045⟩,
      ⟨[0.18820353561903273024096128046733, 0.62359292876193453951807743906533], 0.5 * 0.079647738927210253032891774264045⟩,
      ⟨[0.62359292876193453951807743906533, 0.18820353561903273024096128046733], 0.5 * 0.079647738927210253032891774264045⟩,
      ⟨[0.044729513394452709865106589966276, 0.044729513394452709865106589966276], 0.5 * 0.025577675658698031261678798559000⟩,
      ⟨[0.044729513394452709865106589966276, 0.91054097321109458026978682006745], 0.5 * 0.025577675658698031261678798559000⟩,
      ⟨[0.91054097321109458026978682006745, 0.044729513394452709865106589966276], 0.5 * 0.025577675658698031261678798559000⟩,
      ⟨[0.74119859878449802069007987352342, 0.036838412054736283634817598783385], 0.5 * 0.043283539377289377289377289377289⟩,
      ⟨[0.74119859878449802069007987352342, 0.22196298916076569567510252769319], 0.5 * 0.043283539377289377289377289377289⟩,
      ⟨[0.036838412054736283634817598783385, 0.74119859878449802069007987352342], 0.5 * 0.043283539377289377289377289377289⟩,
      ⟨[0.036838412054736283634817598783385, 0.22196298916076569567510252769319], 0.5 * 0.043283539377289377289377289377289⟩,
      ⟨[0.22196298916076569567510252769319, 0.74119859878449802069007987352342], 0.5 * 0.043283539377289377289377289377289⟩,
      ⟨[0.22196298916076569567510252769319, 0.036838412054736283634817598783385], 0.5 * 0.043283539377289377289377289377289⟩]⟩
  | 10 =>
    .ok ⟨GeometryTypes.triangle, 10, [
      ⟨[0.333333333333333333333333333333333, 0.333333333333333333333333333333333], 0.5 * 0.079894504741239707831247045213386⟩,
      ⟨[0.42508621060209057296952951163804, 0.42508621060209057296952951163804], 0.5 * 0.071123802232377334639291287398658⟩,
      ⟨[0.42508621060209057296952951163804, 0.14982757879581885406094097672391], 0.5 * 0.071123802232377334639291287398658⟩,
      ⟨[0.14982757879581885406094097672391, 0.42508621060209057296952951163804], 0.5 * 0.071123802232377334639291287398658⟩,
      ⟨[0.023308867510000190714466386895980, 0.023308867510000190714466386895980], 0.5 * 0.0082238186904641955186466203624719⟩,
      ⟨[0.023308867510000190714466386895980, 0.95338226497999961857106722620804], 0.5 * 0.0082238186904641955186466203624719⟩,
      ⟨[0.95338226497999961857106722620804, 0.023308867510000190714466386895980], 0.5 * 0.0082238186904641955186466203624719⟩,
      ⟨[0.62830740021349255642083766607883, 0.22376697357697300622568649026820], 0.5 * 0.045430592296170018007073629243933⟩,
      ⟨[0.62830740021349255642083766607883, 0.14792562620953443735347584365296], 0.5 * 0.045430592296170018007073629243933⟩,
      ⟨[0.22376697357697300622568649026820, 0.62830740021349255642083766607883], 0.5 * 0.045430592296170018007073629243933⟩,
      ⟨[0.22376697357697300622568649026820, 0.14792562620953443735347584365296], 0.5 * 0.045430592296170018007073629243933⟩,
      ⟨[0.14792562620953443735347584365296, 0.62830740021349255642083766607883], 0.5 * 0.045430592296170018007073629243933⟩,
      ⟨[0.14792562620953443735347584365296, 0.22376697357697300622568649026820], 0.5 * 0.045430592296170018007073629243933⟩,
      ⟨[0.61131382618139764891875500225390, 0.35874014186443146457815530072385], 0.5 * 0.037359856234305276826236499001975⟩,
      ⟨[0.61131382618139764891875500225390, 0.02994603195417088650308969702225], 0.5 * 0.037359856234305276826236499001975⟩,
      ⟨[0.35874014186443146457815530072385, 0.61131382618139764891875500225390], 0.5 * 0.037359856234305276826236499001975⟩,
      ⟨[0.35874014186443146457815530072385, 0.02994603195417088650308969702225], 0.5 * 0.037359856234305276826236499001975⟩,
      ⟨[0.02994603195417088650308969702225, 0.61131382618139764891875500225390], 0.5 * 0.037359856234305276826236499001975⟩,
      ⟨[0.02994603195417088650308969702225, 0.35874014186443146457815530072385], 0.5 * 0.037359856234305276826236499001975⟩,
      ⟨[0.82107206998562937337354441347218, 0.14329537042686714530585663061732], 0.5 * 0.030886656884563988782513077004629⟩,
      ⟨[0.82107206998562937337354441347218, 0.03563255958750348132059895591050], 0.5 * 0.030886656884563988782513077004629⟩,
      ⟨[0.14329537042686714530585663061732, 0.82107206998562937337354441347218], 0.5 * 0.030886656884563988782513077004629⟩,
      ⟨[0.14329537042686714530585663061732, 0.03563255958750348132059895591050], 0.5 * 0.030886656884563988782513077004629⟩,
      ⟨[0.03563255958750348132059895591050, 0.82107206998562937337354441347218], 0.5 * 0.030886656884563988782513077004629⟩,
      ⟨[0.03563255958750348132059895591050, 0.14329537042686714530585663061732], 0.5 * 0.030886656884563988782513077004629⟩]⟩
  | 11 =>
    .ok ⟨GeometryTypes.triangle, 11, [
      ⟨[0.858870281282636704039173938058347, 0.141129718717363295960826061941652], 0.5 * 0.0073623837833005542642588950473806⟩,
      ⟨[0.858870281282636704039173938058347, 0.0], 0.5 * 0.0073623837833005542642588950473806⟩,
      ⟨[0.141129718717363295960826061941652, 0.858870281282636704039173938058347], 0.5 * 0.0073623837833005542642588950473806⟩,
      ⟨[0.141129718717363295960826061941652, 0.0], 0.5 * 0.0073623837833005542642588950473806⟩,
      ⟨[0.0, 0.858870281282636704039173938058347], 0.5 * 0.0073623837833005542642588950473806⟩,
      ⟨[0.0, 0.141129718717363295960826061941652], 0.5 * 0.0073623837833005542642588950473806⟩,
      ⟨[0.333333333333333333333333333333333, 0.333333333333333333333333333333333], 0.5 * 0.087977301162232238798093169321456⟩,
      ⟨[0.025989140928287395260032485498841, 0.025989140928287395260032485498841], 0.5 * 0.0087443115537360230495164287998252⟩,
      ⟨[0.025989140928287395260032485498841, 0.94802171814342520947993502900232], 0.5 * 0.0087443115537360230495164287998252⟩,
      ⟨[0.94802171814342520947993502900232, 0.025989140928287395260032485498841], 0.5 * 0.0087443115537360230495164287998252⟩,
      ⟨[0.094287502647922495630569776275405, 0.094287502647922495630569776275405], 0.5 * 0.038081571993934937515024339435614⟩,
      ⟨[0.094287502647922495630569776275405, 0.81142499470415500873886044744919], 0.5 * 0.038081571993934937515024339435614⟩,
      ⟨[0.81142499470415500873886044744919, 0.094287502647922495630569776275405], 0.5 * 0.038081571993934937515024339435614⟩,
      ⟨[0.49463677501721381374163260230644, 0.49463677501721381374163260230644], 0.5 * 0.018855448056131292058476782591115⟩,
      ⟨[0.49463677501721381374163260230644, 0.01072644996557237251673479538713], 0.5 * 0.018855448056131292058476782591115⟩,
      ⟨[0.01072644996557237251673479538713, 0.49463677501721381374163260230644], 0.5 * 0.018855448056131292058476782591115⟩,
      ⟨[0.20734338261451133345293402411297, 0.20734338261451133345293402411297], 0.5 * 0.072159697544739526124029988586463⟩,
      ⟨[0.20734338261451133345293402411297, 0.58531323477097733309413195177407], 0.5 * 0.072159697544739526124029988586463⟩,
      ⟨[0.58531323477097733309413195177407, 0.20734338261451133345293402411297], 0.5 * 0.072159697544739526124029988586463⟩,
      ⟨[0.43890780570049209506106538163613, 0.43890780570049209506106538163613], 0.5 * 0.069329138705535899841765650903814⟩,
      ⟨[0.43890780570049209506106538163613, 0.12218438859901580987786923672775], 0.5 * 0.069329138705535899841765650903814⟩,
      ⟨[0.12218438859901580987786923672775, 0.43890780570049209506106538163613], 0.5 * 0.069329138705535899841765650903814⟩,
      ⟨[0.67793765488259040154212614118875, 0.044841677589130443309052391468801], 0.5 * 0.041056315429288566641652314907294⟩,
      ⟨[0.67793765488259040154212614118875, 0.27722066752827915514882146734245], 0.5 * 0.041056315429288566641652314907294⟩,
      ⟨[0.044841677589130443309052391468801, 0.67793765488259040154212614118875], 0.5 * 0.041056315429288566641652314907294⟩,
      ⟨[0.044841677589130443309052391468801, 0.27722066752827915514882146734245], 0.5 * 0.041056315429288566641652314907294⟩,
      ⟨[0.27722066752827915514882146734245, 0.67793765488259040154212614118875], 0.5 * 0.041056315429288566641652314907294⟩,
      ⟨[0.27722066752827915514882146734245, 0.044841677589130443309052391468801], 0.5 * 0.041056315429288566641652314907294⟩]⟩
  | 12 =>
    .ok ⟨GeometryTypes.triangle, 12, [
      ⟨[0.02356522045239, 0.488217389773805], 0.5 * 0.025731066440455⟩,
      ⟨[0.488217389773805, 0.02356522045239], 0.5 * 0.025731066440455⟩,
      ⟨[0.488217389773805, 0.488217389773805], 0.5 * 0.025731066440455⟩,
      ⟨[0.43972439229446, 0.43972439229446], 0.5 * 0.043692544538038⟩,
      ⟨[0.43972439229446, 0.120551215411079], 0.5 * 0.043692544538038⟩,
      ⟨[0.120551215411079, 0.43972439229446], 0.5 * 0.043692544538038⟩,
      ⟨[0.271210385012116, 0.271210385012116], 0.5 * 0.062858224217885⟩,
      ⟨[0.271210385012116, 0.457579229975768], 0.5 * 0.062858224217885⟩,
      ⟨[0.457579229975768, 0.271210385012116], 0.5 * 0.062858224217885⟩,
      ⟨[0.127576145541586, 0.127576145541586], 0.5 * 0.034796112930709⟩,
      ⟨[0.127576145541586, 0.7448477089168279], 0.5 * 0.034796112930709⟩,
      ⟨[0.7448477089168279, 0.127576145541586], 0.5 * 0.034796112930709⟩,
      ⟨[0.02131735045321, 0.02131735045321], 0.5 * 0.006166261051559⟩,
      ⟨[0.02131735045321, 0.9573652990935799], 0.5 * 0.006166261051559⟩,
      ⟨[0.9573652990935799, 0.02131735045321], 0.5 * 0.006166261051559⟩,
      ⟨[0.115343494534698, 0.275713269685514], 0.5 * 0.040371557766381⟩,
      ⟨[0.115343494534698, 0.6089432357797879], 0.5 * 0.040371557766381⟩,
      ⟨[0.275713269685514, 0.115343494534698], 0.5 * 0.040371557766381⟩,
      ⟨[0.275713269685514, 0.6089432357797879], 0.5 * 0.040371557766381⟩,
      ⟨[0.6089432357797879, 0.115343494534698], 0.5 * 0.040371557766381⟩,
      ⟨[0.6089432357797879, 0.275713269685514], 0.5 * 0.040371557766381⟩,
      ⟨[0.022838332222257, 0.28132558098994], 0.5 * 0.022356773202303⟩,
      ⟨[0.022838332222257, 0.6958360867878031], 0.5 * 0.022356773202303⟩,
      ⟨[0.28132558098994, 0.022838332222257], 0.5 * 0.022356773202303⟩,
      ⟨[0.28132558098994, 0.6958360867878031], 0.5 * 0.022356773202303⟩,
      ⟨[0.6958360867878031, 0.022838332222257], 0.5 * 0.022356773202303⟩,
      ⟨[0.6958360867878031, 0.28132558098994], 0.5 * 0.022356773202303⟩,
      ⟨[0.02573405054833, 0.116251915907597], 0.5 * 0.017316231108659⟩,
      ⟨[0.02573405054833, 0.858014033544073], 0.5 * 0.017316231108659⟩,
      ⟨[0.116251915907597, 0.02573405054833], 0.5 * 0.017316231108659⟩,
      ⟨[0.116251915907597, 0.858014033544073], 0.5 * 0.017316231108659⟩,
      ⟨[0.858014033544073, 0.02573405054833], 0.5 * 0.017316231108659⟩,
      ⟨[0.858014033544073, 0.116251915907597], 0.5 * 0.017316231108659⟩]⟩
  | _ => .error (.QuadratureOrderOutOfRange p)

/-- The helper variable `m_4_a` of the tetrahedron constructor. -/
def SimplexQuadratureRule3.m_4_a : ℚ := 0.585410196624968500
/-- The helper variable `m_4_b` of the tetrahedron constructor. -/
def SimplexQuadratureRule3.m_4_b : ℚ := 0.138196601125010500
/-- The helper variable `w_4` of the tetrahedron constructor. -/
def SimplexQuadratureRule3.w_4 : ℚ := 1.0/4.0/6.0
/-- The helper variable `s_1` of the tetrahedron constructor. -/
def SimplexQuadratureRule3.s_1 : ℚ := 0.09197107805272303279
/-- The helper variable `s_2` of the tetrahedron constructor. -/
def SimplexQuadratureRule3.s_2 : ℚ := 0.31979362782962990839
/-- The helper variable `t_1` of the tetrahedron constructor. -/
def SimplexQuadratureRule3.t_1 : ℚ := 0.72408676584183090164
/-- The helper variable `t_2` of the tetrahedron constructor. -/
def SimplexQuadratureRule3.t_2 : ℚ := 0.04061911651111027484
/-- The helper variable `u` of the tetrahedron constructor. -/
def SimplexQuadratureRule3.u : ℚ := 0.05635083268962915574
/-- The helper variable `v` of the tetrahedron constructor. -/
def SimplexQuadratureRule3.v : ℚ := 0.44364916731037084426
/-- The helper variable `A` of the tetrahedron constructor. -/
def SimplexQuadratureRule3.A : ℚ := 0.019753086419753086420
/-- The helper variable `B_1` of the tetrahedron constructor. -/
def SimplexQuadratureRule3.B_1 : ℚ := 0.011989513963169770001
/-- The helper variable `B_2` of the tetrahedron constructor. -/
def SimplexQuadratureRule3.B_2 : ℚ := 0.011511367871045397547
/-- The helper variable `C` of the tetrahedron constructor. -/
def SimplexQuadratureRule3.C : ℚ := 0.0088183421516754850088

/-- The constructor `SimplexQuadratureRule<ct,3>::SimplexQuadratureRule(int p)`:
the tetrahedron tables, selected by `switch (p)`; the `default` label throws. -/
def SimplexQuadratureRule3 (p : Int) : Except DuneError QuadratureRule :=
  match p with
  | 0 | 1 =>
    .ok ⟨GeometryTypes.tetrahedron, 1, [
      ⟨[0.25, 0.25, 0.25], 1.0/6.0⟩]⟩
  | 2 =>
    .ok ⟨GeometryTypes.tetrahedron, 2, [
      ⟨[SimplexQuadratureRule3.m_4_a, SimplexQuadratureRule3.m_4_b, SimplexQuadratureRule3.m_4_b], SimplexQuadratureRule3.w_4⟩,
      ⟨[SimplexQuadratureRule3.m_4_b, SimplexQuadratureRule3.m_4_a, SimplexQuadratureRule3.m_4_b], SimplexQuadratureRule3.w_4⟩,
      ⟨[SimplexQuadratureRule3.m_4_b, SimplexQuadratureRule3.m_4_b, SimplexQuadratureRule3.m_4_a], SimplexQuadratureRule3.w_4⟩,
      ⟨[SimplexQuadratureRule3.m_4_b, SimplexQuadratureRule3.m_4_b, SimplexQuadratureRule3.m_4_b], SimplexQuadratureRule3.w_4⟩]⟩
  | 3 =>
    .ok ⟨GeometryTypes.tetrahedron, 3, [
      ⟨[0.0, 0.0, 0.0], 0.025/6.0⟩,
      ⟨[1.0, 0.0, 0.0], 0.025/6.0⟩,
      ⟨[0.0, 1.0, 0.0], 0.025/6.0⟩,
      ⟨[0.0, 0.0, 1.0], 0.025/6.0⟩,
      ⟨[1.0/3.0, 1.0/3.0, 0.0], 0.225/6.0⟩,
      ⟨[1.0/3.0, 0.0, 1.0/3.0], 0.225/6.0⟩,
      ⟨[0.0, 1.0/3.0, 1.0/3.0], 0.225/6.0⟩,
      ⟨[1.0/3.0, 1.0/3.0, 1.0/3.0], 0.225/6.0⟩]⟩
  | 4 | 5 =>
    .ok ⟨GeometryTypes.tetrahedron, 5, [
      ⟨[0.25, 0.25, 0.25], SimplexQuadratureRule3.A⟩,
      ⟨[SimplexQuadratureRule3.s_1, SimplexQuadratureRule3.s_1, SimplexQuadratureRule3.s_1], SimplexQuadratureRule3.B_1⟩,
      ⟨[SimplexQuadratureRule3.t_1, SimplexQuadratureRule3.s_1, SimplexQuadratureRule3.s_1], SimplexQuadratureRule3.B_1⟩,
      ⟨[SimplexQuadratureRule3.s_1, SimplexQuadratureRule3.t_1, SimplexQuadratureRule3.s_1], SimplexQuadratureRule3.B_1⟩,
      ⟨[SimplexQuadratureRule3.s_1, SimplexQuadratureRule3.s_1, SimplexQuadratureRule3.t_1], SimplexQuadratureRule3.B_1⟩,
      ⟨[SimplexQuadratureRule3.s_2, SimplexQuadratureRule3.s_2, SimplexQuadratureRule3.s_2], SimplexQuadratureRule3.B_2⟩,
      ⟨[SimplexQuadratureRule3.t_2, SimplexQuadratureRule3.s_2, SimplexQuadratureRule3.s_2], SimplexQuadratureRule3.B_2⟩,
      ⟨[SimplexQuadratureRule3.s_2, SimplexQuadratureRule3.t_2, SimplexQuadratureRule3.s_2], SimplexQuadratureRule3.B_2⟩,
      ⟨[SimplexQuadratureRule3.s_2, SimplexQuadratureRule3.s_2, SimplexQuadratureRule3.t_2], SimplexQuadratureRule3.B_2⟩,
      ⟨[SimplexQuadratureRule3.v, SimplexQuadratureRule3.u, SimplexQuadratureRule3.u], SimplexQuadratureRule3.C⟩,
      ⟨[SimplexQuadratureRule3.u, SimplexQuadratureRule3.v, SimplexQuadratureRule3.u], SimplexQuadratureRule3.C⟩,
      ⟨[SimplexQuadratureRule3.u, SimplexQuadratureRule3.u, SimplexQuadratureRule3.v], SimplexQuadratureRule3.C⟩,
      ⟨[SimplexQuadratureRule3.v, SimplexQuadratureRule3.v, SimplexQuadratureRule3.u], SimplexQuadratureRule3.C⟩,
      ⟨[SimplexQuadratureRule3.v, SimplexQuadratureRule3.u, SimplexQuadratureRule3.v], SimplexQuadratureRule3.C⟩,
      ⟨[SimplexQuadratureRule3.u, SimplexQuadratureRule3.v, SimplexQuadratureRule3.v], SimplexQuadratureRule3.C⟩]⟩
  | _ => .error (.QuadratureOrderOutOfRange p)

/-- The local `w` of the prism constructor. -/
def PrismQuadratureRule.w : ℚ := 0.166666666666666666666 / 2.0

/-- The constructor `PrismQuadratureRule<ct>::PrismQuadratureRule(int p)`: the
base class is initialised with type prism and order 2; the `switch (p)` has the
labels 0, 1, 2 only and no `default`, so any other `p` leaves the rule with no
points. -/
def PrismQuadratureRule (p : Int) : QuadratureRule :=
  match p with
  | 0 | 1 | 2 =>
    ⟨GeometryTypes.prism, 2, [
      ⟨[0.666666666666666666666, 0.166666666666666666666, 0.211324865405187117745], PrismQuadratureRule.w⟩,
      ⟨[0.166666666666666666666, 0.666666666666666666666, 0.211324865405187117745], PrismQuadratureRule.w⟩,
      ⟨[0.166666666666666666666, 0.166666666666666666666, 0.211324865405187117745], PrismQuadratureRule.w⟩,
      ⟨[0.666666666666666666666, 0.166666666666666666666, 0.788675134594812882255], PrismQuadratureRule.w⟩,
      ⟨[0.166666666666666666666, 0.666666666666666666666, 0.788675134594812882255], PrismQuadratureRule.w⟩,
      ⟨[0.166666666666666666666, 0.166666666666666666666, 0.788675134594812882255], PrismQuadratureRule.w⟩]⟩
  | _ => ⟨GeometryTypes.prism, 2, []⟩

/-! ## Per-dimension factories -/

/-- The static `QuadratureRuleFactory<ctype,2>::maxOrder`. -/
def QuadratureRuleFactory2.maxOrder (tp : TensorProductQuadratureRule)
    (t : GeometryType) (qt : QuadratureType) : Nat :=
  let order := tp.maxOrder t.id qt
  let order :=
    if t.isSimplex = true then max order SimplexQuadratureRule2.highest_order.toNat else order
  order

/-- The static `QuadratureRuleFactory<ctype,2>::rule`. -/
def QuadratureRuleFactory2.rule (tp : TensorProductQuadratureRule)
    (t : GeometryType) (p : Int) (qt : QuadratureType) : Except DuneError QuadratureRule :=
  if t.isSimplex = true
      ∧ (qt = QuadratureType.GaussLegendre ∨ qt = QuadratureType.GaussJacobi_n_0)
      ∧ p ≤ SimplexQuadratureRule2.highest_order then
    SimplexQuadratureRule2 p
  else
    tp.rule t.id p qt

/-- The static `QuadratureRuleFactory<ctype,3>::maxOrder`. -/
def QuadratureRuleFactory3.maxOrder (tp : TensorProductQuadratureRule)
    (t : GeometryType) (qt : QuadratureType) : Nat :=
  let order := tp.maxOrder t.id qt
  let order :=
    if t.isSimplex = true then max order SimplexQuadratureRule3.highest_order.toNat else order
  let order :=
    if t.isPrism = true then max order PrismQuadratureRule.highest_order.toNat else order
  order

/-- The static `QuadratureRuleFactory<ctype,3>::rule`. -/
def QuadratureRuleFactory3.rule (tp : TensorProductQuadratureRule)
    (t : GeometryType) (p : Int) (qt : QuadratureType) : Except DuneError QuadratureRule :=
  if t.isSimplex = true
      ∧ (qt = QuadratureType.GaussLegendre ∨ qt = QuadratureType.GaussJacobi_n_0)
      ∧ p ≤ SimplexQuadratureRule3.highest_order then
    SimplexQuadratureRule3 p
  else if t.isPrism = true
      ∧ qt = QuadratureType.GaussLegendre
      ∧ p ≤ PrismQuadratureRule.highest_order then
    .ok (PrismQuadratureRule p)
  else
    tp.rule t.id p qt

/-! ## Builder instances and measurements used to state the properties -/

/-- A tensor-product builder to evaluate the factories with: its `maxOrder` is
`m` for every shape and family, and its constructor returns `r` for every order
up to `m` and throws `QuadratureOrderOutOfRange` above. -/
def TensorProductQuadratureRule.bounded (m : Nat) (r : QuadratureRule) :
    TensorProductQuadratureRule where
  maxOrder := fun _ _ => m
  rule := fun _ p _ => if p ≤ (m : Int) then .ok r else .error (.QuadratureOrderOutOfRange p)

/-- The value `x^e` of a monomial at a position: the product of the coordinates
raised to the matching exponents. -/
def monomial (x : List ℚ) (e : List ℕ) : ℚ :=
  (List.zipWith (fun c k => c ^ k) x e).prod

/-- The quadrature sum of a rule for the monomial with exponents `e`: the sum
over the points of weight times monomial value. -/
def QuadratureRule.integrate (r : QuadratureRule) (e : List ℕ) : ℚ :=
  (r.points.map (fun q => q.weight * monomial q.position e)).sum

/-- The sum of the weights of a rule. -/
def QuadratureRule.weightSum (r : QuadratureRule) : ℚ :=
  (r.points.map QuadraturePoint.weight).sum

/-- The check that a constructor call returned a rule, and that the returned
rule passes the test `P`; a call that threw fails the check. -/
def holdsOn (x : Except DuneError QuadratureRule) (P : QuadratureRule → Bool) : Bool :=
  match x with
  | .ok r => P r
  | .error _ => false

/-- The exact integral of `x^a y^b` over the reference triangle. -/
def triangleIntegral (a b : ℕ) : ℚ :=
  (a.factorial * b.factorial : ℚ) / (a + b + 2).factorial

/-- The exact integral of `x^a y^b z^c` over the reference tetrahedron. -/
def tetrahedronIntegral (a b c : ℕ) : ℚ :=
  (a.factorial * b.factorial * c.factorial : ℚ) / (a + b + c + 3).factorial

/-- The exact integral of `x^a y^b z^c` over the reference prism (reference
triangle in x, y times the unit interval in z). -/
def prismIntegral (a b c : ℕ) : ℚ :=
  (a.factorial * b.factorial : ℚ) / ((a + b + 2).factorial * (c + 1))

/-! ## Factories of dimension 0 and 1 -/

/-- The static `QuadratureRuleFactory<ctype,0>::maxOrder`: the `int` maximum
converted to the `unsigned` return type, or the exception of `DUNE_THROW`. -/
def QuadratureRuleFactory0.maxOrder (t : GeometryType) (_qt : QuadratureType) :
    Except DuneError Nat :=
  if t.isVertex = true then
    .ok INT_MAX.toNat
  else
    .error (DuneError.Exception "Unknown GeometryType")

/-- The static `QuadratureRuleFactory<ctype,0>::rule`. -/
def QuadratureRuleFactory0.rule (t : GeometryType) (_p : Int) (_qt : QuadratureType) :
    Except DuneError QuadratureRule :=
  if t.isVertex = true then
    .ok PointQuadratureRule
  else
    .error (DuneError.Exception "Unknown GeometryType")

/-- The seven one-dimensional rule classes, as far as the dimension-1 factory
uses them: each constructor `(int p)`, which may throw, and each maximal order
(`highest_order`, for `JacobiNQuadratureRule1D` the static `maxOrder()`). Their
headers are not among the sources, so they are a parameter of the factory. -/
structure OneDimensionalRules where
  GaussQuadratureRule : Int → Except DuneError QuadratureRule
  Jacobi1QuadratureRule : Int → Except DuneError QuadratureRule
  Jacobi2QuadratureRule : Int → Except DuneError QuadratureRule
  GaussLobattoQuadratureRule1D : Int → Except DuneError QuadratureRule
  JacobiNQuadratureRule1D : Int → Except DuneError QuadratureRule
  GaussRadauLeftQuadratureRule1D : Int → Except DuneError QuadratureRule
  GaussRadauRightQuadratureRule1D : Int → Except DuneError QuadratureRule
  GaussQuadratureRule_highest_order : Nat
  Jacobi1QuadratureRule_highest_order : Nat
  Jacobi2QuadratureRule_highest_order : Nat
  GaussLobattoQuadratureRule1D_highest_order : Nat
  JacobiNQuadratureRule1D_maxOrder : Nat
  GaussRadauLeftQuadratureRule1D_highest_order : Nat
  GaussRadauRightQuadratureRule1D_highest_order : Nat

/-- The static `QuadratureRuleFactory<ctype,1>::maxOrder`. -/
def QuadratureRuleFactory1.maxOrder (g : OneDimensionalRules)
    (t : GeometryType) (qt : QuadratureType) : Except DuneError Nat :=
  if t.isLine = true then
    match qt with
    | .GaussLegendre => .ok g.GaussQuadratureRule_highest_order
    | .GaussJacobi_1_0 => .ok g.Jacobi1QuadratureRule_highest_order
    | .GaussJacobi_2_0 => .ok g.Jacobi2QuadratureRule_highest_order
    | .GaussLobatto => .ok g.GaussLobattoQuadratureRule1D_highest_order
    | .GaussJacobi_n_0 => .ok g.JacobiNQuadratureRule1D_maxOrder
    | .GaussRadauLeft => .ok g.GaussRadauLeftQuadratureRule1D_highest_order
    | .GaussRadauRight => .ok g.GaussRadauRightQuadratureRule1D_highest_order
    | _ => .error (DuneError.Exception "Unknown QuadratureType")
  else
    .error (DuneError.Exception "Unknown GeometryType")

/-- The static `QuadratureRuleFactory<ctype,1>::rule`. -/
def QuadratureRuleFactory1.rule (g : OneDimensionalRules)
    (t : GeometryType) (p : Int) (qt : QuadratureType) : Except DuneError QuadratureRule :=
  if t.isLine = true then
    match qt with
    | .GaussLegendre => g.GaussQuadratureRule p
    | .GaussJacobi_1_0 => g.Jacobi1QuadratureRule p
    | .GaussJacobi_2_0 => g.Jacobi2QuadratureRule p
    | .GaussLobatto => g.GaussLobattoQuadratureRule1D p
    | .GaussJacobi_n_0 => g.JacobiNQuadratureRule1D p
    | .GaussRadauLeft => g.GaussRadauLeftQuadratureRule1D p
    | .GaussRadauRight => g.GaussRadauRightQuadratureRule1D p
    | _ => .error (DuneError.Exception "Unknown QuadratureType")
  else
    .error (DuneError.Exception "Unknown GeometryType")

/-- One-dimensional rule classes to evaluate the dimension-1 factory with: the
class number k (in the order of the factory's `switch`) returns, for every
order, the one-point rule on the line at position k with the requested order as
declared order, and has maximal order 10 (k + 1). -/
def OneDimensionalRules.numbered : OneDimensionalRules where
  GaussQuadratureRule := fun p => .ok ⟨GeometryTypes.line, p, [⟨[0], 1⟩]⟩
  Jacobi1QuadratureRule := fun p => .ok ⟨GeometryTypes.line, p, [⟨[1], 1⟩]⟩
  Jacobi2QuadratureRule := fun p => .ok ⟨GeometryTypes.line, p, [⟨[2], 1⟩]⟩
  GaussLobattoQuadratureRule1D := fun p => .ok ⟨GeometryTypes.line, p, [⟨[3], 1⟩]⟩
  JacobiNQuadratureRule1D := fun p => .ok ⟨GeometryTypes.line, p, [⟨[4], 1⟩]⟩
  GaussRadauLeftQuadratureRule1D := fun p => .ok ⟨GeometryTypes.line, p, [⟨[5], 1⟩]⟩
  GaussRadauRightQuadratureRule1D := fun p => .ok ⟨GeometryTypes.line, p, [⟨[6], 1⟩]⟩
  GaussQuadratureRule_highest_order := 10
  Jacobi1QuadratureRule_highest_order := 20
  Jacobi2QuadratureRule_highest_order := 30
  GaussLobattoQuadratureRule1D_highest_order := 40
  JacobiNQuadratureRule1D_maxOrder := 50
  GaussRadauLeftQuadratureRule1D_highest_order := 60
  GaussRadauRightQuadratureRule1D_highest_order := 70

/-! ## Cache key and rule cache -/

/-- The numeric value of an enumerator of `QuadratureType::Enum`. -/
def QuadratureType.toNat : QuadratureType → Nat
  | .GaussLegendre => 0
  | .GaussJacobi_1_0 => 1
  | .GaussJacobi_2_0 => 2
  | .GaussJacobi_n_0 => 3
  | .GaussLobatto => 4
  | .GaussRadauLeft => 5
  | .GaussRadauRight => 6
  | .size => 7

/-- The struct `QuadratureRules::QuadratureKey`. -/
structure QuadratureKey where
  id : Nat
  p : Int
  qt : QuadratureType
  deriving DecidableEq, Repr

/-- The friend `operator<` of `QuadratureKey`: `std::tie(lhs.id,lhs.p,lhs.qt) <
std::tie(rhs.id,rhs.p,rhs.qt)`, spelled out the way `std::tuple` compares, with
`<` on the components only (the enumeration compares by value). -/
def QuadratureKey.lt (lhs rhs : QuadratureKey) : Bool :=
  decide (lhs.id < rhs.id) ||
    (!decide (rhs.id < lhs.id) &&
      (decide (lhs.p < rhs.p) ||
        (!decide (rhs.p < lhs.p) &&
          (decide (lhs.qt.toNat < rhs.qt.toNat) ||
            (!decide (rhs.qt.toNat < lhs.qt.toNat) && false)))))

/-- The equivalence of keys that `std::map` works with: neither key is less
than the other. -/
def QuadratureKey.equiv (a b : QuadratureKey) : Bool :=
  !a.lt b && !b.lt a

/-- Modelled from the spec: the container behind `ConcurrentCache`
(dune/common/concurrentcache.hh, not among the sources), here
`std::map<QuadratureKey, QuadratureRule>`, as the list of its entries. -/
abbrev QuadratureRuleCache : Type := List (QuadratureKey × QuadratureRule)

/-- Modelled from the spec: the lookup of `ConcurrentCache`
(dune/common/concurrentcache.hh, not among the sources): the entry stored under
a key equivalent to `key`, if there is one. -/
def QuadratureRuleCache.find (cache : QuadratureRuleCache) (key : QuadratureKey) :
    Option QuadratureRule :=
  match cache with
  | [] => none
  | (k, r) :: rest => if k.equiv key = true then some r else QuadratureRuleCache.find rest key

/-- Modelled from the spec: `ConcurrentCache::get` (dune/common/concurrentcache.hh,
not among the sources). The spec: if an entry for the key exists, return it;
otherwise invoke the builder on the key, store the result and return the stored
value; if the builder raises, store nothing and let the failure propagate
unchanged; entries are never removed and never mutated. The result is what
the call returns or throws, together with the cache after the call. -/
def QuadratureRuleCache.get (cache : QuadratureRuleCache) (key : QuadratureKey)
    (f : QuadratureKey → Except DuneError QuadratureRule) :
    Except DuneError QuadratureRule × QuadratureRuleCache :=
  match cache.find key with
  | some r => (.ok r, cache)
  | none =>
    match f key with
    | .ok r => (.ok r, (key, r) :: cache)
    | .error e => (.error e, cache)

/-- The static `QuadratureRules<ctype,dim>::rule` over the factory of its
dimension: the cache is asked for the key `(t.id(), p, qt)` with a builder that
ignores the key it is handed and calls the factory on `t`, `p`, `qt`. -/
def QuadratureRules.rule
    (factory : GeometryType → Int → QuadratureType → Except DuneError QuadratureRule)
    (cache : QuadratureRuleCache) (t : GeometryType) (p : Int) (qt : QuadratureType) :
    Except DuneError QuadratureRule × QuadratureRuleCache :=
  QuadratureRuleCache.get cache ⟨t.id, p, qt⟩ (fun _ => factory t p qt)

/-- Modelled from the spec: the spec lets the id and the classification
predicates of a shape vary independently; this is the shape of dimension 2 with
the id 0 of the triangle that no predicate accepts (`GeometryTypes::none(2)` of
dune/geometry/type.hh, which is not among the sources). -/
def GeometryTypes.none2 : GeometryType := ⟨0, 2, false, false, false, false, false⟩

/-- Modelled from the spec: the shape of dimension 3 with the id 0 of the
tetrahedron that no predicate accepts (`GeometryTypes::none(3)` of
dune/geometry/type.hh, which is not among the sources). -/
def GeometryTypes.none3 : GeometryType := ⟨0, 3, false, false, false, false, false⟩

/-! ## Default rule, write indices of the tables, coordinate permutations -/

/-- The default constructor `QuadratureRule()`: no points, and `order_` keeps its
member initialiser -1. The member `type_` is the default-constructed
`GeometryType`, passed as `t0` since its header is not among the sources. -/
def QuadratureRule.defaultConstructed (t0 : GeometryType) : QuadratureRule :=
  ⟨t0, -1, []⟩

/-- The component `position()[i]` of a point (0 beyond the dimension). -/
def QuadraturePoint.coord (q : QuadraturePoint) (i : Nat) : ℚ :=
  q.position.getD i 0

/-- The point with the coordinates of its position rearranged: component k of
the result is component `σ[k]` of the original; the weight is kept. -/
def QuadraturePoint.permute (σ : List Nat) (q : QuadraturePoint) : QuadraturePoint :=
  ⟨σ.map (fun i => q.coord i), q.weight⟩

/-- The argument of `this->resize(n)` under the case label of `p` in the triangle
constructor (0 under the `default` label, which resizes nothing). -/
def SimplexQuadratureRule2.resized (p : Int) : Nat :=
  match p with
  | 0 | 1 => 1
  | 2 => 3
  | 3 => 4
  | 4 => 6
  | 5 => 7
  | 6 => 12
  | 7 => 12
  | 8 => 16
  | 9 => 19
  | 10 => 25
  | 11 => 28
  | 12 => 33
  | _ => 0

/-- The indices `i` of the assignments `(*this)[i] = ...` under the case label of
`p` in the triangle constructor, in the order of the source. -/
def SimplexQuadratureRule2.written (p : Int) : List Nat :=
  match p with
  | 0 | 1 => [0]
  | 2 => [0, 1, 2]
  | 3 => [0, 1, 2, 3]
  | 4 => [0, 1, 2, 3, 4, 5]
  | 5 => [0, 1, 2, 3, 4, 5, 6]
  | 6 => [0, 1, 2, 3, 4, 5, 6, 7, 8, 9, 10, 11]
  | 7 => [0, 1, 2, 3, 4, 5, 6, 7, 8, 9, 10, 11]
  | 8 => [0, 1, 2, 3, 4, 5, 6, 7, 8, 9, 10, 11, 12, 13, 14, 15]
  | 9 => [0, 1, 2, 3, 4, 5, 6, 7, 8, 9, 10, 11, 12, 13, 14, 15, 16, 17, 18]
  | 10 => [0, 1, 2, 3, 4, 5, 6, 7, 8, 9, 10, 11, 12, 13, 14, 15, 16, 17, 18, 19, 20, 21, 22,
      23, 24]
  | 11 => [0, 1, 2, 3, 4, 5, 6, 7, 8, 9, 10, 11, 12, 13, 14, 15, 16, 17, 18, 19, 20, 21, 22,
      23, 24, 25, 26, 27]
  | 12 => [0, 1, 2, 3, 4, 5, 6, 7, 8, 9, 10, 11, 12, 13, 14, 15, 16, 17, 18, 19, 20, 21, 22,
      23, 24, 25, 26, 27, 28, 29, 30, 31, 32]
  | _ => []

/-- The argument of `this->resize(n)` under the case label of `p` in the
tetrahedron constructor (0 under the `default` label). -/
def SimplexQuadratureRule3.resized (p : Int) : Nat :=
  match p with
  | 0 | 1 => 1
  | 2 => 4
  | 3 => 8
  | 4 | 5 => 15
  | _ => 0

/-- The indices `i` of the assignments `(*this)[i] = ...` under the case label of
`p` in the tetrahedron constructor, in the order of the source. -/
def SimplexQuadratureRule3.written (p : Int) : List Nat :=
  match p with
  | 0 | 1 => [0]
  | 2 => [0, 1, 2, 3]
  | 3 => [0, 1, 2, 3, 4, 5, 6, 7]
  | 4 | 5 => [0, 1, 2, 3, 4, 5, 6, 7, 8, 9, 10, 11, 12, 13, 14]
  | _ => []

/-- The argument of `this->resize(n)` under the labels 0, 1, 2 of the prism
constructor (0 for any other `p`, where no label matches). -/
def PrismQuadratureRule.resized (p : Int) : Nat :=
  match p with
  | 0 | 1 | 2 => 6
  | _ => 0

/-- The indices `i` of the assignments `(*this)[i] = ...` under the labels 0, 1, 2
of the prism constructor, in the order of the source. -/
def PrismQuadratureRule.written (p : Int) : List Nat :=
  match p with
  | 0 | 1 | 2 => [0, 1, 2, 3, 4, 5]
  | _ => []

/-! ## Hypercube refinement (`refinement/hcube.cc`)

`unsigned` values are natural numbers below `UINT_RANGE`, and every `unsigned`
operation that can wrap is reduced modulo `UINT_RANGE`. The `double`
arithmetic of `coords`, `geometry` and `vertexIndices` is read over the exact
rationals and integers. -/

/-- The number of values of the 32-bit type `unsigned int`. -/
def UINT_RANGE : Nat := 4294967296

/-- Modelled from the spec: `Power<dimension>::eval` (dune/common/power.hh) is not
among the sources. Following the comments at its two call sites ("return
(nhypercubes + 1)^dim", "return nhypercubes^dim") it is the power with the
dimension as exponent, computed by repeated multiplication in the `unsigned`
type of its argument. -/
def Power.eval (dimension : Nat) (a : Nat) : Nat :=
  match dimension with
  | 0 => 1
  | d + 1 => (a * Power.eval d a) % UINT_RANGE

namespace HCubeArbitraryRefinement

/-- The data members `_index` and `_nhypercubes` of
`RefinementImp<dimension,CoordType>::Codim<codimension>::SubEntityIterator`, as
set by its constructor. -/
structure SubEntityIterator where
  _index : Nat
  _nhypercubes : Nat
  deriving DecidableEq, Repr

/-- The method `SubEntityIterator::equals`. -/
def SubEntityIterator.equals (it other : SubEntityIterator) : Bool :=
  it._index == other._index && it._nhypercubes == other._nhypercubes

/-- The method `SubEntityIterator::increment`: `++_index` on an `unsigned`. -/
def SubEntityIterator.increment (it : SubEntityIterator) : SubEntityIterator :=
  ⟨(it._index + 1) % UINT_RANGE, it._nhypercubes⟩

/-- The static `RefinementImp::nVertices`. -/
def RefinementImp.nVertices (dimension : Nat) (nhypercubes : Nat) : Nat :=
  Power.eval dimension ((nhypercubes + 1) % UINT_RANGE)

/-- The static `RefinementImp::vBegin`. -/
def RefinementImp.vBegin (nhypercubes : Nat) : SubEntityIterator :=
  ⟨0, nhypercubes⟩

/-- The static `RefinementImp::vEnd`. -/
def RefinementImp.vEnd (dimension : Nat) (nhypercubes : Nat) : SubEntityIterator :=
  ⟨RefinementImp.nVertices dimension nhypercubes, nhypercubes⟩

/-- The static `RefinementImp::nElements`. -/
def RefinementImp.nElements (dimension : Nat) (nhypercubes : Nat) : Nat :=
  Power.eval dimension nhypercubes

/-- The static `RefinementImp::eBegin`. -/
def RefinementImp.eBegin (nhypercubes : Nat) : SubEntityIterator :=
  ⟨0, nhypercubes⟩

/-- The static `RefinementImp::eEnd`. -/
def RefinementImp.eEnd (dimension : Nat) (nhypercubes : Nat) : SubEntityIterator :=
  ⟨RefinementImp.nElements dimension nhypercubes, nhypercubes⟩

/-- The method `SubEntityIterator::idx2coord`: component `d` is `idx % w`, then
`idx` becomes `idx / w`. A division by `w = 0` is undefined and gives `none`. -/
def SubEntityIterator.idx2coord (dimension : Nat) (idx w : Nat) : Option (List Nat) :=
  match dimension with
  | 0 => some []
  | d + 1 =>
    if w = 0 then none
    else (SubEntityIterator.idx2coord d (idx / w) w).map (fun c => idx % w :: c)

/-- The method `SubEntityIterator::coord2idx`: starting from `i = 0`, for the
components from the last to the first, `i *= w; i += c[d-1]` on `unsigned`. -/
def SubEntityIterator.coord2idx (c : List Nat) (w : Nat) : Nat :=
  match c with
  | [] => 0
  | x :: rest => ((SubEntityIterator.coord2idx rest w * w) % UINT_RANGE + x) % UINT_RANGE

/-- The method `SubEntityIterator::idx2multiidx`: component `i` is
`(idx & (1u<<i))>>i`. The shift `1u<<i` is the power 2^i, as it is in the
source for every `i` below the 32 bits of `unsigned`. -/
def SubEntityIterator.idx2multiidx (dimension : Nat) (idx : Nat) : List Nat :=
  (List.range dimension).map (fun i => (idx &&& (1 <<< i)) >>> i)

/-- The method `SubEntityIterator::cellCoord()`. -/
def SubEntityIterator.cellCoord (dimension : Nat) (it : SubEntityIterator) :
    Option (List Nat) :=
  SubEntityIterator.idx2coord dimension it._index it._nhypercubes

/-- The method `SubEntityIterator::vertexCoord()`. -/
def SubEntityIterator.vertexCoord (dimension : Nat) (it : SubEntityIterator) :
    Option (List Nat) :=
  SubEntityIterator.idx2coord dimension it._index ((it._nhypercubes + 1) % UINT_RANGE)

/-- The method `SubEntityIterator::vertexIdx`. -/
def SubEntityIterator.vertexIdx (it : SubEntityIterator) (c : List Nat) : Nat :=
  SubEntityIterator.coord2idx c ((it._nhypercubes + 1) % UINT_RANGE)

/-- The method `coords()` of the vertex iterator (codimension = dimension):
`c[d] = v[d]*1.0 / _nhypercubes`. A division by `_nhypercubes = 0`, which
takes place when the dimension is not 0, leaves the rationals and gives
`none`. -/
def SubEntityIterator.vertexCoords (dimension : Nat) (it : SubEntityIterator) :
    Option (List ℚ) :=
  if it._nhypercubes = 0 ∧ 0 < dimension then none
  else (SubEntityIterator.vertexCoord dimension it).map
    (fun v => v.map (fun x : ℕ => (x : ℚ) * 1.0 / (it._nhypercubes : ℚ)))

/-- The method `coords()` of the element iterator (codimension 0):
`c[d] = (v[d]*1.0 + 0.5) / _nhypercubes`. -/
def SubEntityIterator.elementCoords (dimension : Nat) (it : SubEntityIterator) :
    Option (List ℚ) :=
  if it._nhypercubes = 0 ∧ 0 < dimension then none
  else (SubEntityIterator.cellCoord dimension it).map
    (fun v => v.map (fun x : ℕ => ((x : ℚ) * 1.0 + 0.5) / (it._nhypercubes : ℚ)))

/-- The method `SubEntityIterator::geometry` for the iterator of codimension
`codimension`: the corners `lower` and `upper` handed to the geometry's
constructor. The `assert` admits codimension 0 and codimension = dimension
only. -/
def SubEntityIterator.geometry (dimension codimension : Nat) (it : SubEntityIterator) :
    Option (List ℚ × List ℚ) :=
  match SubEntityIterator.idx2coord dimension it._index it._nhypercubes with
  | none => none
  | some intCoords =>
    if it._nhypercubes = 0 ∧ 0 < dimension then none
    else if codimension = 0 ∨ codimension = dimension then
      if codimension = 0 then
        some (intCoords.map (fun x : ℕ => (x : ℚ) / (it._nhypercubes : ℚ)),
              intCoords.map (fun x : ℕ => (((x + 1) % UINT_RANGE : ℕ) : ℚ) / (it._nhypercubes : ℚ)))
      else
        some (intCoords.map (fun x : ℕ => (x : ℚ) / (it._nhypercubes : ℚ)),
              intCoords.map (fun x : ℕ => (x : ℚ) / (it._nhypercubes : ℚ)))
    else none

/-- The inner loop of `vertexIndices`, `vec[i] += (alpha[d]+e[d]) * std::pow(w, d)`
for `d` from `j` on, over the remaining components (already added as
`unsigned`) in `c`, starting from a zero entry. -/
def weightedSum (c : List Nat) (w : Nat) (j : Nat) : Nat :=
  match c with
  | [] => 0
  | x :: rest => x * w ^ j + weightedSum rest w (j + 1)

/-- The method `vertexIndices()` of the element iterator: entry `i` of the
`1 << dimension` entries accumulates `(alpha[d]+e[d]) * std::pow(_nhypercubes+1, d)`
over `d`, with `alpha = idx2multiidx(i)` and `e = cellCoord()`. The entries are
`int`: a sum from 2^31 on has no defined conversion and gives `none`. -/
def SubEntityIterator.vertexIndices (dimension : Nat) (it : SubEntityIterator) :
    Option (List Nat) :=
  match SubEntityIterator.cellCoord dimension it with
  | none => none
  | some e =>
    let vec := (List.range (1 <<< dimension)).map (fun i =>
      weightedSum
        (List.zipWith (fun a b => (a + b) % UINT_RANGE)
          (SubEntityIterator.idx2multiidx dimension i) e)
        ((it._nhypercubes + 1) % UINT_RANGE) 0)
    if ∀ x ∈ vec, x < 2147483648 then some vec else none

/-- The first `d` digits of `idx` in base `w`, least significant first: what
`idx2coord` computes when `w` is not 0. -/
def digits (d : Nat) (idx w : Nat) : List Nat :=
  match d with
  | 0 => []
  | k + 1 => idx % w :: digits k (idx / w) w

/-- The number with the digits `c` in base `w`, least significant first, without
any wrap-around: what `coord2idx` computes while nothing overflows. -/
def horner (c : List Nat) (w : Nat) : Nat :=
  match c with
  | [] => 0
  | x :: rest => horner rest w * w + x

end HCubeArbitraryRefinement

/-! ## The `double` reading of the table entries

The literals of the tables carry no suffix, so the compiled code evaluates
every entry in `double` before it is stored as a `ct`. A `double` is an IEEE 754
binary64 number: a rational `m * 2^e` with `|m| < 2^53` and `-1074 ≤ e`, and
every operation returns the representable number nearest to the exact result,
ties to the even significand. Only finite results (magnitude below 2^1024) are
modelled: no entry of the tables comes near the overflow. -/

/-- The exponent `k` with `2^k ≤ a < 2^(k+1)` of a positive rational, found by
halving or doubling at most `fuel` times. -/
def Double.binade (fuel : Nat) (a : ℚ) : Int :=
  match fuel with
  | 0 => 0
  | n + 1 =>
    if 2 ≤ a then Double.binade n (a / 2) + 1
    else if a < 1 then Double.binade n (a * 2) - 1
    else 0

/-- The rational `a * 2^(-e)`. -/
def Double.scale (a : ℚ) (e : Int) : ℚ :=
  if 0 ≤ e then a / ((2 ^ e.toNat : ℕ) : ℚ) else a * ((2 ^ (-e).toNat : ℕ) : ℚ)

/-- Rounding of a non-negative rational to the nearest integer, ties to even. -/
def Double.roundHalfEven (s : ℚ) : Int :=
  let f := ⌊s⌋
  let r := s - (f : ℚ)
  if r < 1 / 2 then f
  else if 1 / 2 < r then f + 1
  else if f % 2 = 0 then f else f + 1

/-- Rounding to `double` with the default rounding mode (nearest, ties to
even): the significand of a normal number has 53 bits, and below 2^(-1022) the
spacing stays at 2^(-1074). -/
def Double.round (q : ℚ) : ℚ :=
  if q = 0 then 0
  else
    let a := |q|
    let e := max (Double.binade 1100 a - 52) (-1074)
    let m := Double.roundHalfEven (Double.scale a e)
    let v := Double.scale (m : ℚ) (-e)
    if 0 ≤ q then v else -v

/-- The `double` a decimal literal without suffix denotes. -/
def Double.lit (q : ℚ) : ℚ := Double.round q

/-- The expression `a / b` of two literals, evaluated in `double`. -/
def Double.div (a b : ℚ) : ℚ := Double.round (Double.lit a / Double.lit b)

/-- The expression `a * b` of two literals, evaluated in `double`. -/
def Double.mul (a b : ℚ) : ℚ := Double.round (Double.lit a * Double.lit b)

/-- Case 2 of the `switch` of `SimplexQuadratureRule<ct,2>` as the compiled code
evaluates it: order 2, three points, each entry a quotient of two `double`
literals. -/
def SimplexQuadratureRule2.case2_double : QuadratureRule :=
  ⟨GeometryTypes.triangle, 2, [
    ⟨[Double.div 4.0 6.0, Double.div 1.0 6.0], Double.div 0.5 3.0⟩,
    ⟨[Double.div 1.0 6.0, Double.div 4.0 6.0], Double.div 0.5 3.0⟩,
    ⟨[Double.div 1.0 6.0, Double.div 1.0 6.0], Double.div 0.5 3.0⟩]⟩

/-- Case 5 of the `switch` of `SimplexQuadratureRule<ct,2>` as the compiled code
evaluates it: order 5, seven points, the coordinates `double` literals and the
weights products of two `double` literals. -/
def SimplexQuadratureRule2.case5_double : QuadratureRule :=
  ⟨GeometryTypes.triangle, 5, [
    ⟨[Double.lit 0.333333333333333333333333333333333, Double.lit 0.333333333333333333333333333333333],
      Double.mul 0.5 0.225⟩,
    ⟨[Double.lit 0.79742698535308732239802527616975, Double.lit 0.1012865073234563388009873619151],
      Double.mul 0.5 0.12593918054482715259568394550018⟩,
    ⟨[Double.lit 0.10128650732345633880098736191512, Double.lit 0.79742698535308732239802527616975],
      Double.mul 0.5 0.12593918054482715259568394550018⟩,
    ⟨[Double.lit 0.10128650732345633880098736191512, Double.lit 0.10128650732345633880098736191512],
      Double.mul 0.5 0.12593918054482715259568394550018⟩,
    ⟨[Double.lit 0.05971587178976982045911758097311, Double.lit 0.47014206410511508977044120951345],
      Double.mul 0.5 0.13239415278850618073764938783315⟩,
    ⟨[Double.lit 0.47014206410511508977044120951345, Double.lit 0.05971587178976982045911758097311],
      Double.mul 0.5 0.13239415278850618073764938783315⟩,
    ⟨[Double.lit 0.47014206410511508977044120951345, Double.lit 0.47014206410511508977044120951345],
      Double.mul 0.5 0.13239415278850618073764938783315⟩]⟩

/-! ## Helper lemmas -/

theorem holdsOn_iff (x : Except DuneError QuadratureRule) (P : QuadratureRule → Bool) :
    holdsOn x P = true ↔ ∃ r, x = .ok r ∧ P r = true := by
  cases x with
  | error e => simp [holdsOn]
  | ok r => simp [holdsOn]

theorem TensorProductQuadratureRule.bounded_ok_le (m : Nat) (r0 : QuadratureRule)
    (id : Nat) (p : Int) (qt : QuadratureType) (r : QuadratureRule)
    (h : (TensorProductQuadratureRule.bounded m r0).rule id p qt = .ok r) :
    p ≤ ((TensorProductQuadratureRule.bounded m r0).maxOrder id qt : Int) := by
  simp only [TensorProductQuadratureRule.bounded] at h ⊢
  by_cases c : p ≤ (m : Int)
  · exact c
  · rw [if_neg c] at h
    exact Except.noConfusion h

theorem holdsOn_dec {x : Except DuneError QuadratureRule} {P : QuadratureRule → Prop}
    [DecidablePred P] (h : holdsOn x (fun r => decide (P r)) = true) :
    ∃ r, x = .ok r ∧ P r := by
  obtain ⟨r, hr, hP⟩ := (holdsOn_iff x _).1 h
  exact ⟨r, hr, of_decide_eq_true hP⟩

set_option maxRecDepth 100000 in
theorem SimplexQuadratureRule2.triangle_exact_aux : ∀ p : Fin 2, ∀ a : Fin 4, ∀ b : Fin 4,
    (a : ℕ) + b ≤ (p : ℕ) + 2 →
    holdsOn (SimplexQuadratureRule2 (((p : ℕ) : Int) + 2)) (fun r =>
      decide (r.order = ((p : ℕ) : Int) + 2 ∧ r.integrate [a, b] = triangleIntegral a b)) = true := by
  decide!

set_option maxRecDepth 100000 in
theorem SimplexQuadratureRule3.tetrahedron_exact_aux1 : ∀ p : Fin 2, ∀ a : Fin 2, ∀ b : Fin 2, ∀ c : Fin 2,
    (a : ℕ) + b + c ≤ 1 →
    holdsOn (SimplexQuadratureRule3 ((p : ℕ) : Int)) (fun r =>
      decide (r.order = 1 ∧ r.integrate [a, b, c] = tetrahedronIntegral a b c)) = true := by
  decide!

set_option maxRecDepth 100000 in
theorem SimplexQuadratureRule3.tetrahedron_exact_aux3 : ∀ a : Fin 4, ∀ b : Fin 4, ∀ c : Fin 4,
    (a : ℕ) + b + c ≤ 3 →
    holdsOn (SimplexQuadratureRule3 3) (fun r =>
      decide (r.order = 3 ∧ r.integrate [a, b, c] = tetrahedronIntegral a b c)) = true := by
  decide!

set_option maxRecDepth 100000 in
theorem SimplexQuadratureRule2.triangle_approx_aux : ∀ p : Fin 13, ∀ a : Fin 13, ∀ b : Fin 13,
    holdsOn (SimplexQuadratureRule2 ((p : ℕ) : Int)) (fun r =>
      decide (r.order ≤ 12 ∧ ((((a : ℕ) + (b : ℕ) : ℕ) : Int) ≤ r.order →
        |r.integrate [a, b] - triangleIntegral a b| < 1 / 10 ^ 10))) = true := by
  decide!

set_option maxRecDepth 100000 in
theorem SimplexQuadratureRule3.tetrahedron_approx_aux : ∀ p : Fin 6, ∀ a : Fin 6, ∀ b : Fin 6, ∀ c : Fin 6,
    holdsOn (SimplexQuadratureRule3 ((p : ℕ) : Int)) (fun r =>
      decide (r.order ≤ 5 ∧ ((((a : ℕ) + (b : ℕ) + (c : ℕ) : ℕ) : Int) ≤ r.order →
        |r.integrate [a, b, c] - tetrahedronIntegral a b c| < 1 / 10 ^ 10))) = true := by
  decide!

set_option maxRecDepth 100000 in
theorem PrismQuadratureRule.prism_approx_aux : ∀ p : Fin 3, ∀ a : Fin 3, ∀ b : Fin 3, ∀ c : Fin 3,
    (PrismQuadratureRule ((p : ℕ) : Int)).order ≤ 2 ∧
    ((((a : ℕ) + (b : ℕ) + (c : ℕ) : ℕ) : Int) ≤ (PrismQuadratureRule ((p : ℕ) : Int)).order →
      |(PrismQuadratureRule ((p : ℕ) : Int)).integrate [a, b, c] - prismIntegral a b c|
        < 1 / 10 ^ 10) := by
  decide!

set_option maxRecDepth 100000 in
theorem SimplexQuadratureRule2.triangle_weightSum_aux : ∀ p : Fin 13,
    holdsOn (SimplexQuadratureRule2 ((p : ℕ) : Int)) (fun r =>
      decide (|r.weightSum - 1 / 2| < 1 / 10 ^ 12)) = true := by
  decide!

set_option maxRecDepth 100000 in
theorem SimplexQuadratureRule3.tetrahedron_weightSum_aux : ∀ p : Fin 6,
    holdsOn (SimplexQuadratureRule3 ((p : ℕ) : Int)) (fun r =>
      decide (|r.weightSum - 1 / 6| < 1 / 10 ^ 12)) = true := by
  decide!

set_option maxRecDepth 100000 in
theorem PrismQuadratureRule.prism_weightSum_aux : ∀ p : Fin 3,
    |(PrismQuadratureRule ((p : ℕ) : Int)).weightSum - 1 / 2| < 1 / 10 ^ 12 := by
  decide!

set_option maxRecDepth 100000 in
theorem SimplexQuadratureRule2.order2_points_aux :
    holdsOn (SimplexQuadratureRule2 2) (fun r => decide (r =
      ⟨GeometryTypes.triangle, 2,
        [⟨[2 / 3, 1 / 6], 1 / 6⟩, ⟨[1 / 6, 2 / 3], 1 / 6⟩, ⟨[1 / 6, 1 / 6], 1 / 6⟩]⟩)) = true := by
  decide!

theorem SimplexQuadratureRule2.error_of_outside (p : Int) (h : p < 0 ∨ 12 < p) :
    SimplexQuadratureRule2 p = .error (.QuadratureOrderOutOfRange p) := by
  unfold SimplexQuadratureRule2
  split <;> first | rfl | (exfalso; omega)

theorem SimplexQuadratureRule3.error_of_outside3 (p : Int) (h : p < 0 ∨ 5 < p) :
    SimplexQuadratureRule3 p = .error (.QuadratureOrderOutOfRange p) := by
  unfold SimplexQuadratureRule3
  split <;> first | rfl | (exfalso; omega)

theorem SimplexQuadratureRule2.ok_of_inside (p : Int) (h0 : 0 ≤ p) (h1 : p ≤ 12) :
    ∃ r, SimplexQuadratureRule2 p = .ok r := by
  interval_cases p <;> exact ⟨_, rfl⟩

theorem SimplexQuadratureRule3.ok_of_inside3 (p : Int) (h0 : 0 ≤ p) (h1 : p ≤ 5) :
    ∃ r, SimplexQuadratureRule3 p = .ok r := by
  interval_cases p <;> exact ⟨_, rfl⟩

theorem QuadratureType.toNat_injective (a b : QuadratureType) (h : a.toNat = b.toNat) :
    a = b := by
  cases a <;> cases b <;> first | rfl | exact absurd h (by decide)

theorem QuadratureKey.lt_iff (a b : QuadratureKey) :
    a.lt b = true ↔
      (a.id < b.id ∨ (a.id = b.id ∧ a.p < b.p) ∨
        (a.id = b.id ∧ a.p = b.p ∧ a.qt.toNat < b.qt.toNat)) := by
  simp only [QuadratureKey.lt, Bool.or_eq_true, Bool.and_eq_true, Bool.not_eq_true',
    decide_eq_true_eq, decide_eq_false_iff_not, Bool.and_false, Bool.or_false]
  omega

theorem QuadratureKey.equiv_iff_eq (a b : QuadratureKey) : a.equiv b = true ↔ a = b := by
  have hab := QuadratureKey.lt_iff a b
  have hba := QuadratureKey.lt_iff b a
  simp only [QuadratureKey.equiv, Bool.and_eq_true, Bool.not_eq_true']
  constructor
  · rintro ⟨h1, h2⟩
    have n1 : ¬ a.lt b = true := by simp [h1]
    have n2 : ¬ b.lt a = true := by simp [h2]
    rw [hab] at n1
    rw [hba] at n2
    have e1 : a.id = b.id := by omega
    have e2 : a.p = b.p := by omega
    have e3 : a.qt = b.qt := QuadratureType.toNat_injective _ _ (by omega)
    cases a
    cases b
    simp only at e1 e2 e3
    subst e1 e2 e3
    rfl
  · rintro rfl
    have n : ¬ a.lt a = true := by
      rw [QuadratureKey.lt_iff]
      omega
    simp at n
    exact ⟨n, n⟩

theorem QuadratureRuleCache.find_cons_self (c : QuadratureRuleCache) (k : QuadratureKey)
    (r : QuadratureRule) : QuadratureRuleCache.find ((k, r) :: c) k = some r := by
  have h : k.equiv k = true := (QuadratureKey.equiv_iff_eq k k).2 rfl
  simp [QuadratureRuleCache.find, h]

theorem QuadratureRuleCache.find_cons_ne (c : QuadratureRuleCache) (k k' : QuadratureKey)
    (r : QuadratureRule) (hne : k' ≠ k) :
    QuadratureRuleCache.find ((k, r) :: c) k' = QuadratureRuleCache.find c k' := by
  have h : ¬ k.equiv k' = true := fun hc => hne ((QuadratureKey.equiv_iff_eq k k').1 hc).symm
  simp [QuadratureRuleCache.find, h]

theorem QuadratureRuleCache.get_hit (c : QuadratureRuleCache) (k : QuadratureKey)
    (f : QuadratureKey → Except DuneError QuadratureRule) (r : QuadratureRule)
    (h : QuadratureRuleCache.find c k = some r) :
    QuadratureRuleCache.get c k f = (.ok r, c) := by
  simp [QuadratureRuleCache.get, h]

theorem QuadratureRuleCache.get_miss_ok (c : QuadratureRuleCache) (k : QuadratureKey)
    (f : QuadratureKey → Except DuneError QuadratureRule) (r : QuadratureRule)
    (h : QuadratureRuleCache.find c k = none) (hf : f k = .ok r) :
    QuadratureRuleCache.get c k f = (.ok r, (k, r) :: c) := by
  simp [QuadratureRuleCache.get, h, hf]

theorem QuadratureRuleCache.get_miss_error (c : QuadratureRuleCache) (k : QuadratureKey)
    (f : QuadratureKey → Except DuneError QuadratureRule) (e : DuneError)
    (h : QuadratureRuleCache.find c k = none) (hf : f k = .error e) :
    QuadratureRuleCache.get c k f = (.error e, c) := by
  simp [QuadratureRuleCache.get, h, hf]

theorem SimplexQuadratureRule2.triangle_shape_aux : ∀ p : Fin 13,
    holdsOn (SimplexQuadratureRule2 ((p : ℕ) : Int)) (fun r =>
      decide (r.size = ([1, 1, 3, 4, 6, 7, 12, 12, 16, 19, 25, 28, 33] : List ℕ).getD p 0 ∧
        r.order = ([1, 1, 2, 3, 4, 5, 6, 7, 8, 9, 10, 11, 12] : List Int).getD p 0 ∧
        SimplexQuadratureRule2.resized ((p : ℕ) : Int) = r.size ∧
        SimplexQuadratureRule2.written ((p : ℕ) : Int) = List.range r.size)) = true := by
  decide

theorem SimplexQuadratureRule3.tetrahedron_shape_aux : ∀ p : Fin 6,
    holdsOn (SimplexQuadratureRule3 ((p : ℕ) : Int)) (fun r =>
      decide (r.size = ([1, 1, 4, 8, 15, 15] : List ℕ).getD p 0 ∧
        r.order = ([1, 1, 2, 3, 5, 5] : List Int).getD p 0 ∧
        SimplexQuadratureRule3.resized ((p : ℕ) : Int) = r.size ∧
        SimplexQuadratureRule3.written ((p : ℕ) : Int) = List.range r.size)) = true := by
  decide

theorem PrismQuadratureRule.prism_shape_aux : ∀ p : Fin 3,
    (PrismQuadratureRule ((p : ℕ) : Int)).size = 6 ∧
    (PrismQuadratureRule ((p : ℕ) : Int)).order = 2 ∧
    PrismQuadratureRule.resized ((p : ℕ) : Int) = 6 ∧
    PrismQuadratureRule.written ((p : ℕ) : Int) = List.range 6 := by
  decide

theorem SimplexQuadratureRule2.triangle_order_pos_aux : ∀ p : Fin 13,
    holdsOn (SimplexQuadratureRule2 ((p : ℕ) : Int)) (fun r => decide (1 ≤ r.order)) = true := by
  decide

theorem SimplexQuadratureRule3.tetrahedron_order_pos_aux : ∀ p : Fin 6,
    holdsOn (SimplexQuadratureRule3 ((p : ℕ) : Int)) (fun r => decide (1 ≤ r.order)) = true := by
  decide

set_option maxRecDepth 100000 in
theorem SimplexQuadratureRule2.triangle_inexact_aux :
    holdsOn (SimplexQuadratureRule2 2) (fun r =>
      decide (r.order = 2 ∧ r.integrate [3, 0] - triangleIntegral 3 0 = 1 / 1080)) = true ∧
    holdsOn (SimplexQuadratureRule2 3) (fun r =>
      decide (r.order = 3 ∧ r.integrate [4, 0] - triangleIntegral 4 0 = -1 / 450)) = true := by
  decide!

set_option maxRecDepth 100000 in
theorem SimplexQuadratureRule3.tetrahedron_inexact_aux :
    (∀ p : Fin 2, holdsOn (SimplexQuadratureRule3 ((p : ℕ) : Int)) (fun r =>
      decide (r.order = 1 ∧
        r.integrate [2, 0, 0] - tetrahedronIntegral 2 0 0 = -1 / 160)) = true) ∧
    holdsOn (SimplexQuadratureRule3 3) (fun r =>
      decide (r.order = 3 ∧
        r.integrate [4, 0, 0] - tetrahedronIntegral 4 0 0 = 1 / 1260)) = true := by
  decide!

set_option maxRecDepth 100000 in
theorem SimplexQuadratureRule2.triangle_closed_aux : ∀ p : Fin 13,
    holdsOn (SimplexQuadratureRule2 ((p : ℕ) : Int)) (fun r =>
      decide (∀ q ∈ r.points, q.position.length = 2 ∧
        0 ≤ q.coord 0 ∧ 0 ≤ q.coord 1 ∧ q.coord 0 + q.coord 1 ≤ 1)) = true := by
  decide!

set_option maxRecDepth 100000 in
theorem SimplexQuadratureRule3.tetrahedron_closed_aux : ∀ p : Fin 6,
    holdsOn (SimplexQuadratureRule3 ((p : ℕ) : Int)) (fun r =>
      decide (∀ q ∈ r.points, q.position.length = 3 ∧
        0 ≤ q.coord 0 ∧ 0 ≤ q.coord 1 ∧ 0 ≤ q.coord 2 ∧
        q.coord 0 + q.coord 1 + q.coord 2 ≤ 1)) = true := by
  decide!

set_option maxRecDepth 100000 in
theorem PrismQuadratureRule.prism_closed_aux : ∀ p : Fin 3,
    ∀ q ∈ (PrismQuadratureRule ((p : ℕ) : Int)).points, q.position.length = 3 ∧
      0 ≤ q.coord 0 ∧ 0 ≤ q.coord 1 ∧ q.coord 0 + q.coord 1 ≤ 1 ∧
      0 ≤ q.coord 2 ∧ q.coord 2 ≤ 1 := by
  decide!

set_option maxRecDepth 100000 in
theorem SimplexQuadratureRule2.triangle_inner_aux : ∀ p : Fin 7, (p : ℕ) + 6 ≠ 11 →
    holdsOn (SimplexQuadratureRule2 (((p : ℕ) : Int) + 6)) (fun r =>
      decide (r.order = ((p : ℕ) : Int) + 6 ∧ ∀ q ∈ r.points,
        0 < q.coord 0 ∧ 0 < q.coord 1 ∧ q.coord 0 + q.coord 1 < 1)) = true := by
  decide!

set_option maxRecDepth 100000 in
theorem SimplexQuadratureRule2.triangle_boundary_aux :
    holdsOn (SimplexQuadratureRule2 11) (fun r =>
      decide (r.order = 11 ∧
        (r.points.filter (fun q => decide (q.coord 0 = 0 ∨ q.coord 1 = 0))).map
            QuadraturePoint.position
          = [[0.858870281282636704039173938058347, 0], [0.141129718717363295960826061941652, 0],
             [0, 0.858870281282636704039173938058347],
             [0, 0.141129718717363295960826061941652]])) = true := by
  decide!

set_option maxRecDepth 100000 in
theorem SimplexQuadratureRule2.triangle_weights_aux :
    (∀ p : Fin 7, holdsOn (SimplexQuadratureRule2 (((p : ℕ) : Int) + 6)) (fun r =>
      decide (r.order = ((p : ℕ) : Int) + 6 ∧ ∀ q ∈ r.points, 0 < q.weight)) = true) ∧
    holdsOn (SimplexQuadratureRule2 3) (fun r =>
      decide (r.order = 3 ∧ (r.points.map QuadraturePoint.weight).head? = some (-9 / 32)))
      = true := by
  decide!

set_option maxRecDepth 100000 in
theorem SimplexQuadratureRule2.triangle_symmetric_aux : ∀ p : Fin 3,
    holdsOn (SimplexQuadratureRule2 (((p : ℕ) : Int) + 2)) (fun r =>
      decide (r.order = ((p : ℕ) : Int) + 2 ∧
        List.Perm (r.points.map (QuadraturePoint.permute [1, 0])) r.points)) = true := by
  decide!

set_option maxRecDepth 100000 in
theorem SimplexQuadratureRule2.triangle_asymmetric_aux :
    holdsOn (SimplexQuadratureRule2 5) (fun r =>
      decide (r.order = 5 ∧
        ¬ List.Perm (r.points.map (QuadraturePoint.permute [1, 0])) r.points ∧
        (r.points.map QuadraturePoint.position).getD 1 []
          = [0.79742698535308732239802527616975, 0.1012865073234563388009873619151] ∧
        (r.points.map QuadraturePoint.position).getD 2 []
          = [0.10128650732345633880098736191512, 0.79742698535308732239802527616975] ∧
        [0.1012865073234563388009873619151, 0.79742698535308732239802527616975]
          ∉ r.points.map QuadraturePoint.position)) = true := by
  decide!

set_option maxRecDepth 100000 in
theorem SimplexQuadratureRule3.tetrahedron_symmetric_aux : ∀ p : Fin 4,
    holdsOn (SimplexQuadratureRule3 (((p : ℕ) : Int) + 2)) (fun r =>
      decide (r.order = ([2, 3, 5, 5] : List Int).getD p 0 ∧
        ∀ σ ∈ ([[0, 1, 2], [0, 2, 1], [1, 0, 2], [1, 2, 0], [2, 0, 1], [2, 1, 0]] : List (List ℕ)),
          List.Perm (r.points.map (QuadraturePoint.permute σ)) r.points)) = true := by
  decide!

theorem PrismQuadratureRule.empty_of_outside (p : Int) (h : p < 0 ∨ 2 < p) :
    PrismQuadratureRule p = ⟨GeometryTypes.prism, 2, []⟩ := by
  unfold PrismQuadratureRule
  split <;> first | rfl | (exfalso; omega)

/-! ### Hypercube refinement -/

theorem Power.eval_eq (d a : Nat) : Power.eval d a = a ^ d % UINT_RANGE := by
  induction d with
  | zero => rfl
  | succ k ih =>
    show (a * Power.eval k a) % UINT_RANGE = a ^ (k + 1) % UINT_RANGE
    rw [ih, Nat.mul_mod_mod, pow_succ, Nat.mul_comm]

namespace HCubeArbitraryRefinement

theorem SubEntityIterator.iterate_increment (k i n : Nat) (hi : i < UINT_RANGE) :
    (SubEntityIterator.increment^[k] ⟨i, n⟩) = ⟨(i + k) % UINT_RANGE, n⟩ := by
  induction k with
  | zero => simp [Nat.mod_eq_of_lt hi]
  | succ j ih =>
    rw [Function.iterate_succ_apply', ih]
    simp only [SubEntityIterator.increment, SubEntityIterator.mk.injEq, and_true]
    rw [Nat.mod_add_mod]
    rfl

theorem SubEntityIterator.iterate_increment_begin (k n : Nat) (hk : k < UINT_RANGE) :
    (SubEntityIterator.increment^[k] ⟨0, n⟩) = ⟨k, n⟩ := by
  rw [SubEntityIterator.iterate_increment k 0 n (by decide), Nat.zero_add,
    Nat.mod_eq_of_lt hk]

theorem SubEntityIterator.idx2coord_eq_digits (d idx w : Nat) (hw : 0 < w) :
    SubEntityIterator.idx2coord d idx w = some (digits d idx w) := by
  induction d generalizing idx with
  | zero => rfl
  | succ k ih =>
    show (if w = 0 then none
      else (SubEntityIterator.idx2coord k (idx / w) w).map (fun c => idx % w :: c)) = _
    rw [if_neg (by omega), ih]
    rfl

theorem digits_length (d idx w : Nat) : (digits d idx w).length = d := by
  induction d generalizing idx with
  | zero => rfl
  | succ k ih => simp [digits, ih]

theorem digits_lt (d idx w : Nat) (hw : 0 < w) : ∀ x ∈ digits d idx w, x < w := by
  induction d generalizing idx with
  | zero => intro x hx; simp [digits] at hx
  | succ k ih =>
    intro x hx
    simp only [digits, List.mem_cons] at hx
    rcases hx with rfl | hx
    · exact Nat.mod_lt _ hw
    · exact ih _ x hx

theorem digits_eq_map (d idx w : Nat) :
    digits d idx w = (List.range d).map (fun j => idx / w ^ j % w) := by
  induction d generalizing idx with
  | zero => rfl
  | succ k ih =>
    rw [List.range_succ_eq_map]
    simp only [digits, List.map_cons, List.map_map, pow_zero, Nat.div_one]
    rw [ih]
    congr 1
    apply List.map_congr_left
    intro j _
    simp only [Function.comp, pow_succ, Nat.div_div_eq_div_mul]
    rw [Nat.mul_comm]

theorem SubEntityIterator.coord2idx_eq_horner_mod (c : List Nat) (w : Nat) :
    SubEntityIterator.coord2idx c w = horner c w % UINT_RANGE := by
  induction c with
  | nil => rfl
  | cons x rest ih =>
    show ((SubEntityIterator.coord2idx rest w * w) % UINT_RANGE + x) % UINT_RANGE
      = (horner rest w * w + x) % UINT_RANGE
    rw [ih, Nat.mod_mul_mod, Nat.mod_add_mod]

theorem horner_digits (d idx w : Nat) : horner (digits d idx w) w = idx % w ^ d := by
  induction d generalizing idx with
  | zero => simp [digits, horner, Nat.mod_one]
  | succ k ih =>
    show horner (digits k (idx / w) w) w * w + idx % w = idx % w ^ (k + 1)
    rw [ih, pow_succ, Nat.mul_comm (w ^ k) w, Nat.mod_mul, Nat.add_comm, Nat.mul_comm]

theorem horner_lt (c : List Nat) (w : Nat) (hc : ∀ x ∈ c, x < w) :
    horner c w < w ^ c.length ∨ c = [] := by
  induction c with
  | nil => exact Or.inr rfl
  | cons x rest ih =>
    left
    have hx : x < w := hc x (List.mem_cons_self _ _)
    have hrest : ∀ y ∈ rest, y < w := fun y hy => hc y (List.mem_cons_of_mem _ hy)
    have h : horner rest w + 1 ≤ w ^ rest.length := by
      rcases ih hrest with h | h
      · exact h
      · subst h
        simp [horner]
    show horner rest w * w + x < w ^ (rest.length + 1)
    rw [pow_succ]
    calc horner rest w * w + x < horner rest w * w + w := by omega
      _ = (horner rest w + 1) * w := by ring
      _ ≤ w ^ rest.length * w := Nat.mul_le_mul_right _ h

theorem horner_lt_pow (c : List Nat) (w : Nat) (hc : ∀ x ∈ c, x < w) :
    horner c w < w ^ c.length := by
  rcases horner_lt c w hc with h | h
  · exact h
  · subst h
    simp [horner]

theorem digits_horner (c : List Nat) (w : Nat) (hc : ∀ x ∈ c, x < w) :
    digits c.length (horner c w) w = c := by
  induction c with
  | nil => rfl
  | cons x rest ih =>
    have hx : x < w := hc x (List.mem_cons_self _ _)
    have hrest : ∀ y ∈ rest, y < w := fun y hy => hc y (List.mem_cons_of_mem _ hy)
    have hw : 0 < w := by omega
    show (horner rest w * w + x) % w :: digits rest.length ((horner rest w * w + x) / w) w
      = x :: rest
    have h1 : (horner rest w * w + x) % w = x := by
      rw [Nat.mul_comm, Nat.mul_add_mod, Nat.mod_eq_of_lt hx]
    have h2 : (horner rest w * w + x) / w = horner rest w := by
      rw [Nat.mul_comm, Nat.mul_add_div hw, Nat.div_eq_of_lt hx, Nat.add_zero]
    rw [h1, h2, ih hrest]

theorem weightedSum_eq (c : List Nat) (w j : Nat) :
    weightedSum c w j = w ^ j * horner c w := by
  induction c generalizing j with
  | nil => simp [weightedSum, horner]
  | cons x rest ih =>
    show x * w ^ j + weightedSum rest w (j + 1) = w ^ j * (horner rest w * w + x)
    rw [ih, pow_succ]
    ring

theorem and_shift (x i : Nat) : (x &&& (1 <<< i)) >>> i = x / 2 ^ i % 2 := by
  rw [Nat.one_shiftLeft]
  apply Nat.eq_of_testBit_eq
  intro j
  have h : x / 2 ^ i % 2 = (x >>> i) % 2 ^ 1 := by simp [Nat.shiftRight_eq_div_pow]
  rw [h, Nat.testBit_mod_two_pow, Nat.testBit_shiftRight, Nat.testBit_shiftRight,
    Nat.testBit_and, Nat.testBit_two_pow]
  cases j with
  | zero => simp
  | succ k => simp

theorem SubEntityIterator.idx2multiidx_eq_digits (d idx : Nat) :
    SubEntityIterator.idx2multiidx d idx = digits d idx 2 := by
  rw [digits_eq_map]
  unfold SubEntityIterator.idx2multiidx
  apply List.map_congr_left
  intro i _
  exact and_shift idx i

theorem digits_zero (d w : Nat) : digits d 0 w = List.replicate d 0 := by
  induction d with
  | zero => rfl
  | succ k ih =>
    show 0 % w :: digits k (0 / w) w = List.replicate (k + 1) 0
    rw [Nat.zero_mod, Nat.zero_div, ih]
    rfl

theorem digits_all_ones (d : Nat) : digits d (2 ^ d - 1) 2 = List.replicate d 1 := by
  induction d with
  | zero => rfl
  | succ k ih =>
    have hp : 0 < 2 ^ k := Nat.two_pow_pos k
    have h1 : (2 ^ (k + 1) - 1) % 2 = 1 := by
      rw [pow_succ]
      omega
    have h2 : (2 ^ (k + 1) - 1) / 2 = 2 ^ k - 1 := by
      rw [pow_succ]
      omega
    show (2 ^ (k + 1) - 1) % 2 :: digits k ((2 ^ (k + 1) - 1) / 2) 2 = List.replicate (k + 1) 1
    rw [h1, h2, ih]
    rfl

theorem zipWith_add_mod (a e : List Nat) (n : Nat) (hn : n + 1 < UINT_RANGE)
    (ha : ∀ x ∈ a, x < 2) (he : ∀ x ∈ e, x < n) :
    List.zipWith (fun x y => (x + y) % UINT_RANGE) a e = List.zipWith (fun x y => x + y) a e ∧
    ∀ z ∈ List.zipWith (fun x y => x + y) a e, z < n + 1 := by
  induction a generalizing e with
  | nil => simp
  | cons x xs ih =>
    cases e with
    | nil => simp
    | cons y ys =>
      have hx : x < 2 := ha x (List.mem_cons_self _ _)
      have hy : y < n := he y (List.mem_cons_self _ _)
      obtain ⟨h1, h2⟩ := ih ys (fun z hz => ha z (List.mem_cons_of_mem _ hz))
        (fun z hz => he z (List.mem_cons_of_mem _ hz))
      constructor
      · simp only [List.zipWith_cons_cons, h1]
        rw [Nat.mod_eq_of_lt (by omega)]
      · intro z hz
        simp only [List.zipWith_cons_cons, List.mem_cons] at hz
        rcases hz with rfl | hz
        · omega
        · exact h2 z hz

theorem zipWith_add_cancel (e a b : List Nat) (ha : a.length = e.length)
    (hb : b.length = e.length)
    (h : List.zipWith (fun x y => x + y) a e = List.zipWith (fun x y => x + y) b e) :
    a = b := by
  induction e generalizing a b with
  | nil =>
    cases a with
    | nil =>
      cases b with
      | nil => rfl
      | cons _ _ => simp at hb
    | cons _ _ => simp at ha
  | cons y ys ih =>
    cases a with
    | nil => simp at ha
    | cons x xs =>
      cases b with
      | nil => simp at hb
      | cons z zs =>
        simp only [List.zipWith_cons_cons, List.cons.injEq] at h
        simp only [List.length_cons, Nat.add_right_cancel_iff] at ha hb
        have hxz : x = z := by omega
        rw [hxz, ih xs zs ha hb h.2]

theorem zipWith_zeros (e : List Nat) :
    List.zipWith (fun x y => x + y) (List.replicate e.length 0) e = e := by
  induction e with
  | nil => rfl
  | cons y ys ih =>
    simp only [List.length_cons, List.replicate_succ, List.zipWith_cons_cons, ih, Nat.zero_add]

theorem zipWith_ones (e : List Nat) :
    List.zipWith (fun x y => x + y) (List.replicate e.length 1) e = e.map (fun y => y + 1) := by
  induction e with
  | nil => rfl
  | cons y ys ih =>
    simp only [List.length_cons, List.replicate_succ, List.zipWith_cons_cons, ih, List.map_cons]
    rw [Nat.add_comm]

theorem SubEntityIterator.geometry_element (d n k : Nat) (hn : 1 ≤ n) (hnM : n < UINT_RANGE) :
    SubEntityIterator.geometry d 0 ⟨k, n⟩
      = some ((digits d k n).map (fun x : ℕ => (x : ℚ) / (n : ℚ)),
          (digits d k n).map (fun x : ℕ => ((x : ℚ) + 1) / (n : ℚ))) := by
  have hn0 : ¬ (n = 0 ∧ 0 < d) := by omega
  have hup : (digits d k n).map (fun x : ℕ => (((x + 1) % UINT_RANGE : ℕ) : ℚ) / (n : ℚ))
      = (digits d k n).map (fun x : ℕ => ((x : ℚ) + 1) / (n : ℚ)) := by
    apply List.map_congr_left
    intro x hx
    have hx' : x < n := digits_lt d k n hn x hx
    rw [Nat.mod_eq_of_lt (by omega)]
    push_cast
    rfl
  simp only [SubEntityIterator.geometry, SubEntityIterator.idx2coord_eq_digits d k n hn,
    if_neg hn0, true_or, if_true, hup]

theorem SubEntityIterator.elementCoords_eq (d n k : Nat) (hn : 1 ≤ n) :
    SubEntityIterator.elementCoords d ⟨k, n⟩
      = some ((digits d k n).map (fun x : ℕ => ((x : ℚ) + 1 / 2) / (n : ℚ))) := by
  unfold SubEntityIterator.elementCoords SubEntityIterator.cellCoord
  simp only [SubEntityIterator.idx2coord_eq_digits d k n hn]
  rw [if_neg (by omega)]
  simp only [Option.map_some']
  congr 1
  apply List.map_congr_left
  intro x _
  norm_num

theorem SubEntityIterator.vertexCoords_eq (d n k : Nat) (hn : 1 ≤ n)
    (hnM : n + 1 < UINT_RANGE) :
    SubEntityIterator.vertexCoords d ⟨k, n⟩
      = some ((digits d k (n + 1)).map (fun x : ℕ => (x : ℚ) / (n : ℚ))) := by
  unfold SubEntityIterator.vertexCoords SubEntityIterator.vertexCoord
  simp only [Nat.mod_eq_of_lt hnM,
    SubEntityIterator.idx2coord_eq_digits d k (n + 1) (Nat.succ_pos n)]
  rw [if_neg (by omega)]
  simp only [Option.map_some']
  congr 1
  apply List.map_congr_left
  intro x _
  norm_num

theorem digits_injective (d n k₁ k₂ : Nat) (h1 : k₁ < n ^ d) (h2 : k₂ < n ^ d)
    (h : digits d k₁ n = digits d k₂ n) : k₁ = k₂ := by
  have e1 := horner_digits d k₁ n
  have e2 := horner_digits d k₂ n
  rw [Nat.mod_eq_of_lt h1] at e1
  rw [Nat.mod_eq_of_lt h2] at e2
  rw [← e1, ← e2, h]

theorem getD_map_range (f : Nat → Nat) (m i : Nat) (h : i < m) :
    ((List.range m).map f).getD i 0 = f i := by
  rw [List.getD_eq_getElem?_getD, List.getElem?_map, List.getElem?_range h]
  rfl

theorem corner_tuple (d n k i : Nat) (hn : 1 ≤ n) (hnM : n + 1 < UINT_RANGE) :
    List.zipWith (fun a b => (a + b) % UINT_RANGE) (SubEntityIterator.idx2multiidx d i)
        (digits d k n)
      = List.zipWith (fun a b => a + b) (digits d i 2) (digits d k n) ∧
    (List.zipWith (fun a b => a + b) (digits d i 2) (digits d k n)).length = d ∧
    ∀ z ∈ List.zipWith (fun a b => a + b) (digits d i 2) (digits d k n), z < n + 1 := by
  rw [SubEntityIterator.idx2multiidx_eq_digits]
  obtain ⟨h1, h2⟩ := zipWith_add_mod (digits d i 2) (digits d k n) n hnM
    (digits_lt d i 2 (by decide)) (digits_lt d k n hn)
  refine ⟨h1, ?_, h2⟩
  rw [List.length_zipWith, digits_length, digits_length, Nat.min_self]

theorem corner_index_lt (d n k i : Nat) (hn : 1 ≤ n) (hnM : n + 1 < UINT_RANGE) :
    horner (List.zipWith (fun a b => a + b) (digits d i 2) (digits d k n)) (n + 1)
      < (n + 1) ^ d := by
  obtain ⟨_, h2, h3⟩ := corner_tuple d n k i hn hnM
  have h := horner_lt_pow _ (n + 1) h3
  rwa [h2] at h

theorem corner_digits (d n k i : Nat) (hn : 1 ≤ n) (hnM : n + 1 < UINT_RANGE) :
    digits d (horner (List.zipWith (fun a b => a + b) (digits d i 2) (digits d k n)) (n + 1))
        (n + 1)
      = List.zipWith (fun a b => a + b) (digits d i 2) (digits d k n) := by
  obtain ⟨_, h2, h3⟩ := corner_tuple d n k i hn hnM
  have h := digits_horner _ (n + 1) h3
  rwa [h2] at h

theorem SubEntityIterator.vertexIndices_eq (d n k : Nat) (hn : 1 ≤ n)
    (hnM : n + 1 < UINT_RANGE) (hpow : (n + 1) ^ d ≤ 2 ^ 31) :
    SubEntityIterator.vertexIndices d ⟨k, n⟩
      = some ((List.range (2 ^ d)).map (fun i =>
          horner (List.zipWith (fun a b => a + b) (digits d i 2) (digits d k n)) (n + 1))) := by
  have hvec : (List.range (1 <<< d)).map (fun i =>
        weightedSum
          (List.zipWith (fun a b => (a + b) % UINT_RANGE)
            (SubEntityIterator.idx2multiidx d i) (digits d k n))
          ((n + 1) % UINT_RANGE) 0)
      = (List.range (2 ^ d)).map (fun i =>
          horner (List.zipWith (fun a b => a + b) (digits d i 2) (digits d k n)) (n + 1)) := by
    rw [Nat.one_shiftLeft]
    apply List.map_congr_left
    intro i _
    rw [(corner_tuple d n k i hn hnM).1, Nat.mod_eq_of_lt hnM, weightedSum_eq, pow_zero,
      Nat.one_mul]
  have hall : ∀ x ∈ (List.range (2 ^ d)).map (fun i =>
      horner (List.zipWith (fun a b => a + b) (digits d i 2) (digits d k n)) (n + 1)),
      x < 2147483648 := by
    intro x hx
    rw [List.mem_map] at hx
    obtain ⟨i, _, rfl⟩ := hx
    have h := corner_index_lt d n k i hn hnM
    have h31 : (2 : Nat) ^ 31 = 2147483648 := by decide
    omega
  simp only [SubEntityIterator.vertexIndices, SubEntityIterator.cellCoord,
    SubEntityIterator.idx2coord_eq_digits d k n hn, hvec]
  rw [if_pos hall]

theorem corner_index_injective (d n k i j : Nat) (hn : 1 ≤ n) (hnM : n + 1 < UINT_RANGE)
    (hi : i < 2 ^ d) (hj : j < 2 ^ d)
    (h : horner (List.zipWith (fun a b => a + b) (digits d i 2) (digits d k n)) (n + 1)
      = horner (List.zipWith (fun a b => a + b) (digits d j 2) (digits d k n)) (n + 1)) :
    i = j := by
  have hc : List.zipWith (fun a b => a + b) (digits d i 2) (digits d k n)
      = List.zipWith (fun a b => a + b) (digits d j 2) (digits d k n) := by
    rw [← corner_digits d n k i hn hnM, ← corner_digits d n k j hn hnM, h]
  have ha := zipWith_add_cancel (digits d k n) (digits d i 2) (digits d j 2)
    (by rw [digits_length, digits_length]) (by rw [digits_length, digits_length]) hc
  exact digits_injective d 2 i j hi hj ha

end HCubeArbitraryRefinement

/-! ### Builder instance, `double` reading -/

set_option maxRecDepth 100000 in
theorem SimplexQuadratureRule2.case2_double_aux :
    SimplexQuadratureRule2.case2_double
      = ⟨GeometryTypes.triangle, 2,
          [⟨[6004799503160661 / 2 ^ 53, 6004799503160661 / 2 ^ 55], 6004799503160661 / 2 ^ 55⟩,
           ⟨[6004799503160661 / 2 ^ 55, 6004799503160661 / 2 ^ 53], 6004799503160661 / 2 ^ 55⟩,
           ⟨[6004799503160661 / 2 ^ 55, 6004799503160661 / 2 ^ 55],
             6004799503160661 / 2 ^ 55⟩]⟩ := by
  decide!

set_option maxRecDepth 100000 in
theorem SimplexQuadratureRule2.case2_literal_aux :
    holdsOn (SimplexQuadratureRule2 2) (fun r => decide (r =
      ⟨GeometryTypes.triangle, 2,
        [⟨[4.0 / 6.0, 1.0 / 6.0], 0.5 / 3.0⟩, ⟨[1.0 / 6.0, 4.0 / 6.0], 0.5 / 3.0⟩,
         ⟨[1.0 / 6.0, 1.0 / 6.0], 0.5 / 3.0⟩]⟩ ∧
      SimplexQuadratureRule2.case2_double
        = ⟨r.type_, r.order_, r.points.map (fun q =>
            ⟨q.local_.map Double.round, Double.round q.weight_⟩)⟩)) = true := by
  decide!

set_option maxRecDepth 100000 in
theorem SimplexQuadratureRule2.case5_double_aux :
    SimplexQuadratureRule2.case5_double
      = ⟨GeometryTypes.triangle, 5, [
          ⟨[6004799503160661 / 2 ^ 54, 6004799503160661 / 2 ^ 54], 8106479329266893 / 2 ^ 56⟩,
          ⟨[1795645937045671 / 2 ^ 51, 456153876639577 / 2 ^ 52], 4537437172584233 / 2 ^ 56⟩,
          ⟨[456153876639577 / 2 ^ 52, 1795645937045671 / 2 ^ 51], 4537437172584233 / 2 ^ 56⟩,
          ⟨[456153876639577 / 2 ^ 52, 456153876639577 / 2 ^ 52], 4537437172584233 / 2 ^ 56⟩,
          ⟨[4302982047048187 / 2 ^ 56, 8469326498859969 / 2 ^ 54], 596250257164349 / 2 ^ 53⟩,
          ⟨[8469326498859969 / 2 ^ 54, 4302982047048187 / 2 ^ 56], 596250257164349 / 2 ^ 53⟩,
          ⟨[8469326498859969 / 2 ^ 54, 8469326498859969 / 2 ^ 54], 596250257164349 / 2 ^ 53⟩]⟩ := by
  decide!

set_option maxRecDepth 100000 in
theorem SimplexQuadratureRule2.case5_rounded_aux :
    holdsOn (SimplexQuadratureRule2 5) (fun r => decide (
      (⟨r.type_, r.order_, r.points.map (fun q =>
          ⟨q.local_.map Double.round, Double.round q.weight_⟩)⟩ : QuadratureRule)
        = ⟨GeometryTypes.triangle, 5, [
          ⟨[6004799503160661 / 2 ^ 54, 6004799503160661 / 2 ^ 54], 8106479329266893 / 2 ^ 56⟩,
          ⟨[1795645937045671 / 2 ^ 51, 456153876639577 / 2 ^ 52], 4537437172584233 / 2 ^ 56⟩,
          ⟨[456153876639577 / 2 ^ 52, 1795645937045671 / 2 ^ 51], 4537437172584233 / 2 ^ 56⟩,
          ⟨[456153876639577 / 2 ^ 52, 456153876639577 / 2 ^ 52], 4537437172584233 / 2 ^ 56⟩,
          ⟨[4302982047048187 / 2 ^ 56, 8469326498859969 / 2 ^ 54], 596250257164349 / 2 ^ 53⟩,
          ⟨[8469326498859969 / 2 ^ 54, 4302982047048187 / 2 ^ 56], 596250257164349 / 2 ^ 53⟩,
          ⟨[8469326498859969 / 2 ^ 54, 8469326498859969 / 2 ^ 54], 596250257164349 / 2 ^ 53⟩]⟩ ∧
      ((r.points.map QuadraturePoint.position).getD 2 []).getD 0 0
        - ((r.points.map QuadraturePoint.position).getD 1 []).getD 1 0 = 2 / 10 ^ 32)) = true := by
  decide!

set_option maxRecDepth 100000 in
theorem SimplexQuadratureRule2.case5_double_symmetric_aux :
    List.Perm
      ((⟨GeometryTypes.triangle, 5, [
          ⟨[6004799503160661 / 2 ^ 54, 6004799503160661 / 2 ^ 54], 8106479329266893 / 2 ^ 56⟩,
          ⟨[1795645937045671 / 2 ^ 51, 456153876639577 / 2 ^ 52], 4537437172584233 / 2 ^ 56⟩,
          ⟨[456153876639577 / 2 ^ 52, 1795645937045671 / 2 ^ 51], 4537437172584233 / 2 ^ 56⟩,
          ⟨[456153876639577 / 2 ^ 52, 456153876639577 / 2 ^ 52], 4537437172584233 / 2 ^ 56⟩,
          ⟨[4302982047048187 / 2 ^ 56, 8469326498859969 / 2 ^ 54], 596250257164349 / 2 ^ 53⟩,
          ⟨[8469326498859969 / 2 ^ 54, 4302982047048187 / 2 ^ 56], 596250257164349 / 2 ^ 53⟩,
          ⟨[8469326498859969 / 2 ^ 54, 8469326498859969 / 2 ^ 54], 596250257164349 / 2 ^ 53⟩]⟩ : QuadratureRule).points.map (QuadraturePoint.permute [1, 0]))
      (⟨GeometryTypes.triangle, 5, [
          ⟨[6004799503160661 / 2 ^ 54, 6004799503160661 / 2 ^ 54], 8106479329266893 / 2 ^ 56⟩,
          ⟨[1795645937045671 / 2 ^ 51, 456153876639577 / 2 ^ 52], 4537437172584233 / 2 ^ 56⟩,
          ⟨[456153876639577 / 2 ^ 52, 1795645937045671 / 2 ^ 51], 4537437172584233 / 2 ^ 56⟩,
          ⟨[456153876639577 / 2 ^ 52, 456153876639577 / 2 ^ 52], 4537437172584233 / 2 ^ 56⟩,
          ⟨[4302982047048187 / 2 ^ 56, 8469326498859969 / 2 ^ 54], 596250257164349 / 2 ^ 53⟩,
          ⟨[8469326498859969 / 2 ^ 54, 4302982047048187 / 2 ^ 56], 596250257164349 / 2 ^ 53⟩,
          ⟨[8469326498859969 / 2 ^ 54, 8469326498859969 / 2 ^ 54], 596250257164349 / 2 ^ 53⟩]⟩ : QuadratureRule).points := by
  decide!

/-! ## Dispatch (C1, C2) -/

/-- C1: the dimension-2 factory returns the triangle table for the requested
order whenever the shape is a simplex, the family is GaussLegendre or
GaussJacobi_n_0 and the order is at most 12; in every other case (a non-simplex
shape, another family, or an order above 12) it returns what the
tensor-product builder returns for the shape id, the order and the family. -/
theorem QuadratureRuleFactory2.rule_dispatch_dim2 (tp : TensorProductQuadratureRule)
    (t : GeometryType) (p : Int) (qt : QuadratureType) :
    ((t.isSimplex = true
        ∧ (qt = QuadratureType.GaussLegendre ∨ qt = QuadratureType.GaussJacobi_n_0)
        ∧ p ≤ 12) →
      QuadratureRuleFactory2.rule tp t p qt = SimplexQuadratureRule2 p) ∧
    ((t.isSimplex = false
        ∨ (qt ≠ QuadratureType.GaussLegendre ∧ qt ≠ QuadratureType.GaussJacobi_n_0)
        ∨ 12 < p) →
      QuadratureRuleFactory2.rule tp t p qt = tp.rule t.id p qt) := by
  constructor
  · intro h
    simp only [QuadratureRuleFactory2.rule, SimplexQuadratureRule2.highest_order]
    rw [if_pos h]
  · intro h
    simp only [QuadratureRuleFactory2.rule, SimplexQuadratureRule2.highest_order]
    rw [if_neg]
    rintro ⟨hs, hq, hp⟩
    rcases h with h | h | h
    · rw [hs] at h; exact Bool.noConfusion h
    · rcases hq with hq | hq
      · exact h.1 hq
      · exact h.2 hq
    · omega

/-- C1 at a concrete input: a triangle at order 12 with GaussLegendre is the
table rule, and at order 13 it is what the builder returns. -/
theorem QuadratureRuleFactory2.rule_dispatch_dim2_witness :
    QuadratureRuleFactory2.rule (TensorProductQuadratureRule.bounded 20 PointQuadratureRule)
        GeometryTypes.triangle 12 QuadratureType.GaussLegendre = SimplexQuadratureRule2 12 ∧
    QuadratureRuleFactory2.rule (TensorProductQuadratureRule.bounded 20 PointQuadratureRule)
        GeometryTypes.triangle 13 QuadratureType.GaussLegendre
      = (TensorProductQuadratureRule.bounded 20 PointQuadratureRule).rule
          GeometryTypes.triangle.id 13 QuadratureType.GaussLegendre :=
  ⟨(QuadratureRuleFactory2.rule_dispatch_dim2 _ GeometryTypes.triangle 12
      QuadratureType.GaussLegendre).1 ⟨rfl, Or.inl rfl, by decide⟩,
   (QuadratureRuleFactory2.rule_dispatch_dim2 _ GeometryTypes.triangle 13
      QuadratureType.GaussLegendre).2 (Or.inr (Or.inr (by decide)))⟩

/-- C2: the dimension-3 factory returns (1) the tetrahedron table when the shape
is a simplex, the family is GaussLegendre or GaussJacobi_n_0 and the order is
at most 5; else (2) the prism table when the shape is a prism, the family is
GaussLegendre and the order is at most 2; else (3) what the tensor-product
builder returns. In particular every order from 6 on goes to the builder, and
a prism (not a simplex) with a family other than GaussLegendre goes to the
builder. -/
theorem QuadratureRuleFactory3.rule_dispatch_dim3 (tp : TensorProductQuadratureRule)
    (t : GeometryType) (p : Int) (qt : QuadratureType) :
    ((t.isSimplex = true
        ∧ (qt = QuadratureType.GaussLegendre ∨ qt = QuadratureType.GaussJacobi_n_0)
        ∧ p ≤ 5) →
      QuadratureRuleFactory3.rule tp t p qt = SimplexQuadratureRule3 p) ∧
    (¬ (t.isSimplex = true
        ∧ (qt = QuadratureType.GaussLegendre ∨ qt = QuadratureType.GaussJacobi_n_0)
        ∧ p ≤ 5) →
      (t.isPrism = true ∧ qt = QuadratureType.GaussLegendre ∧ p ≤ 2) →
      QuadratureRuleFactory3.rule tp t p qt = .ok (PrismQuadratureRule p)) ∧
    (¬ (t.isSimplex = true
        ∧ (qt = QuadratureType.GaussLegendre ∨ qt = QuadratureType.GaussJacobi_n_0)
        ∧ p ≤ 5) →
      ¬ (t.isPrism = true ∧ qt = QuadratureType.GaussLegendre ∧ p ≤ 2) →
      QuadratureRuleFactory3.rule tp t p qt = tp.rule t.id p qt) ∧
    (6 ≤ p → QuadratureRuleFactory3.rule tp t p qt = tp.rule t.id p qt) ∧
    (t.isPrism = true → t.isSimplex = false → qt ≠ QuadratureType.GaussLegendre →
      QuadratureRuleFactory3.rule tp t p qt = tp.rule t.id p qt) := by
  simp only [QuadratureRuleFactory3.rule, SimplexQuadratureRule3.highest_order,
    PrismQuadratureRule.highest_order]
  refine ⟨?_, ?_, ?_, ?_, ?_⟩
  · intro h
    rw [if_pos h]
  · intro h1 h2
    rw [if_neg h1, if_pos h2]
  · intro h1 h2
    rw [if_neg h1, if_neg h2]
  · intro h
    rw [if_neg (fun c => by omega), if_neg (fun c => by omega)]
  · intro _ hs hq
    rw [if_neg (fun c => by rw [hs] at c; exact Bool.noConfusion c.1), if_neg (fun c => hq c.2.1)]

/-- C2 at concrete inputs: a tetrahedron at order 6 with GaussLegendre is built
by the builder, and a prism with GaussLobatto at order 2 as well. -/
theorem QuadratureRuleFactory3.rule_dispatch_dim3_witness :
    QuadratureRuleFactory3.rule (TensorProductQuadratureRule.bounded 20 PointQuadratureRule)
        GeometryTypes.tetrahedron 6 QuadratureType.GaussLegendre
      = (TensorProductQuadratureRule.bounded 20 PointQuadratureRule).rule
          GeometryTypes.tetrahedron.id 6 QuadratureType.GaussLegendre ∧
    QuadratureRuleFactory3.rule (TensorProductQuadratureRule.bounded 20 PointQuadratureRule)
        GeometryTypes.prism 2 QuadratureType.GaussLobatto
      = (TensorProductQuadratureRule.bounded 20 PointQuadratureRule).rule
          GeometryTypes.prism.id 2 QuadratureType.GaussLobatto ∧
    QuadratureRuleFactory3.rule (TensorProductQuadratureRule.bounded 20 PointQuadratureRule)
        GeometryTypes.prism 2 QuadratureType.GaussLegendre = .ok (PrismQuadratureRule 2) ∧
    QuadratureRuleFactory3.rule (TensorProductQuadratureRule.bounded 20 PointQuadratureRule)
        GeometryTypes.tetrahedron 5 QuadratureType.GaussJacobi_n_0 = SimplexQuadratureRule3 5 :=
  ⟨(QuadratureRuleFactory3.rule_dispatch_dim3 _ GeometryTypes.tetrahedron 6
      QuadratureType.GaussLegendre).2.2.2.1 (by decide),
   (QuadratureRuleFactory3.rule_dispatch_dim3 _ GeometryTypes.prism 2
      QuadratureType.GaussLobatto).2.2.2.2 rfl rfl (by decide),
   (QuadratureRuleFactory3.rule_dispatch_dim3 _ GeometryTypes.prism 2
      QuadratureType.GaussLegendre).2.1 (fun c => Bool.noConfusion c.1) ⟨rfl, rfl, by decide⟩,
   (QuadratureRuleFactory3.rule_dispatch_dim3 _ GeometryTypes.tetrahedron 5
      QuadratureType.GaussJacobi_n_0).1 ⟨rfl, Or.inr rfl, by decide⟩⟩

/-! ## Maximal order (C3, C4, C5, C6) -/

/-- C3: with the family GaussLegendre or GaussJacobi_n_0 the maximal order of a
triangle (a simplex in dimension 2) is the larger of the builder's maxOrder
and 12, and that of a tetrahedron (a simplex that is not a prism, dimension 3)
is the larger of the builder's maxOrder and 5; with GaussLegendre the maximal
order of a prism (not a simplex) is the larger of the builder's maxOrder and
2; for a shape that is neither simplex nor prism both factories return the
builder's maxOrder unchanged. -/
theorem QuadratureRuleFactory.maxOrder_table (tp2 tp3 : TensorProductQuadratureRule)
    (t : GeometryType) (qt : QuadratureType) :
    (t.isSimplex = true →
      (qt = QuadratureType.GaussLegendre ∨ qt = QuadratureType.GaussJacobi_n_0) →
      QuadratureRuleFactory2.maxOrder tp2 t qt = max (tp2.maxOrder t.id qt) 12) ∧
    (t.isSimplex = true → t.isPrism = false →
      (qt = QuadratureType.GaussLegendre ∨ qt = QuadratureType.GaussJacobi_n_0) →
      QuadratureRuleFactory3.maxOrder tp3 t qt = max (tp3.maxOrder t.id qt) 5) ∧
    (t.isPrism = true → t.isSimplex = false → qt = QuadratureType.GaussLegendre →
      QuadratureRuleFactory3.maxOrder tp3 t qt = max (tp3.maxOrder t.id qt) 2) ∧
    (t.isSimplex = false → t.isPrism = false →
      QuadratureRuleFactory2.maxOrder tp2 t qt = tp2.maxOrder t.id qt ∧
      QuadratureRuleFactory3.maxOrder tp3 t qt = tp3.maxOrder t.id qt) := by
  refine ⟨?_, ?_, ?_, ?_⟩
  · intro hs _
    simp [QuadratureRuleFactory2.maxOrder, SimplexQuadratureRule2.highest_order, hs]
  · intro hs hp _
    simp [QuadratureRuleFactory3.maxOrder, SimplexQuadratureRule3.highest_order, hs, hp]
  · intro hp hs _
    simp [QuadratureRuleFactory3.maxOrder, PrismQuadratureRule.highest_order, hs, hp]
  · intro hs hp
    simp [QuadratureRuleFactory2.maxOrder, QuadratureRuleFactory3.maxOrder, hs, hp]

/-- C3 at concrete inputs: triangle, tetrahedron and prism with GaussLegendre,
quadrilateral and hexahedron with GaussLobatto, over a builder of maximal
order 7. -/
theorem QuadratureRuleFactory.maxOrder_table_witness :
    QuadratureRuleFactory2.maxOrder (TensorProductQuadratureRule.bounded 7 PointQuadratureRule)
        GeometryTypes.triangle QuadratureType.GaussLegendre = max 7 12 ∧
    QuadratureRuleFactory3.maxOrder (TensorProductQuadratureRule.bounded 7 PointQuadratureRule)
        GeometryTypes.tetrahedron QuadratureType.GaussLegendre = max 7 5 ∧
    QuadratureRuleFactory3.maxOrder (TensorProductQuadratureRule.bounded 7 PointQuadratureRule)
        GeometryTypes.prism QuadratureType.GaussLegendre = max 7 2 ∧
    QuadratureRuleFactory2.maxOrder (TensorProductQuadratureRule.bounded 7 PointQuadratureRule)
        GeometryTypes.quadrilateral QuadratureType.GaussLobatto = 7 ∧
    QuadratureRuleFactory3.maxOrder (TensorProductQuadratureRule.bounded 7 PointQuadratureRule)
        GeometryTypes.hexahedron QuadratureType.GaussLobatto = 7 :=
  ⟨(QuadratureRuleFactory.maxOrder_table (TensorProductQuadratureRule.bounded 7 PointQuadratureRule)
      (TensorProductQuadratureRule.bounded 7 PointQuadratureRule) GeometryTypes.triangle
      QuadratureType.GaussLegendre).1 rfl (Or.inl rfl),
   (QuadratureRuleFactory.maxOrder_table (TensorProductQuadratureRule.bounded 7 PointQuadratureRule)
      (TensorProductQuadratureRule.bounded 7 PointQuadratureRule) GeometryTypes.tetrahedron
      QuadratureType.GaussLegendre).2.1 rfl rfl (Or.inl rfl),
   (QuadratureRuleFactory.maxOrder_table (TensorProductQuadratureRule.bounded 7 PointQuadratureRule)
      (TensorProductQuadratureRule.bounded 7 PointQuadratureRule) GeometryTypes.prism
      QuadratureType.GaussLegendre).2.2.1 rfl rfl rfl,
   ((QuadratureRuleFactory.maxOrder_table (TensorProductQuadratureRule.bounded 7 PointQuadratureRule)
      (TensorProductQuadratureRule.bounded 7 PointQuadratureRule) GeometryTypes.quadrilateral
      QuadratureType.GaussLobatto).2.2.2 rfl rfl).1,
   ((QuadratureRuleFactory.maxOrder_table (TensorProductQuadratureRule.bounded 7 PointQuadratureRule)
      (TensorProductQuadratureRule.bounded 7 PointQuadratureRule) GeometryTypes.hexahedron
      QuadratureType.GaussLobatto).2.2.2 rfl rfl).2⟩

/-- C5: maxOrder never under-reports. Over builders whose constructor succeeds
only for orders not exceeding their own maxOrder, whenever the dimension-2 or
the dimension-3 factory returns a rule for an order p ≥ 0, p is at most the
maximal order the same factory reports for that shape and family. -/
theorem QuadratureRuleFactory.rule_ok_le_maxOrder (tp2 tp3 : TensorProductQuadratureRule)
    (H2 : ∀ (id : Nat) (p : Int) (qt : QuadratureType) (r : QuadratureRule),
      tp2.rule id p qt = .ok r → p ≤ (tp2.maxOrder id qt : Int))
    (H3 : ∀ (id : Nat) (p : Int) (qt : QuadratureType) (r : QuadratureRule),
      tp3.rule id p qt = .ok r → p ≤ (tp3.maxOrder id qt : Int))
    (t : GeometryType) (p : Int) (qt : QuadratureType) (hp : 0 ≤ p) :
    (∀ r, QuadratureRuleFactory2.rule tp2 t p qt = .ok r →
      p ≤ (QuadratureRuleFactory2.maxOrder tp2 t qt : Int)) ∧
    (∀ r, QuadratureRuleFactory3.rule tp3 t p qt = .ok r →
      p ≤ (QuadratureRuleFactory3.maxOrder tp3 t qt : Int)) := by
  constructor
  · intro r hr
    simp only [QuadratureRuleFactory2.rule, SimplexQuadratureRule2.highest_order] at hr
    simp only [QuadratureRuleFactory2.maxOrder, SimplexQuadratureRule2.highest_order]
    split at hr
    · rename_i c
      rw [if_pos c.1]
      have h12 : ((12 : Int).toNat : Int) = 12 := by decide
      have := le_max_right (tp2.maxOrder t.id qt) (12 : Int).toNat
      omega
    · have h := H2 _ _ _ _ hr
      split
      · have := le_max_left (tp2.maxOrder t.id qt) (12 : Int).toNat
        omega
      · exact h
  · intro r hr
    simp only [QuadratureRuleFactory3.rule, SimplexQuadratureRule3.highest_order,
      PrismQuadratureRule.highest_order] at hr
    simp only [QuadratureRuleFactory3.maxOrder, SimplexQuadratureRule3.highest_order,
      PrismQuadratureRule.highest_order]
    have h5 : ((5 : Int).toNat : Int) = 5 := by decide
    have h2 : ((2 : Int).toNat : Int) = 2 := by decide
    split at hr
    · rename_i c
      rw [if_pos c.1]
      have a1 := le_max_right (tp3.maxOrder t.id qt) (5 : Int).toNat
      split
      · have a2 := le_max_left (max (tp3.maxOrder t.id qt) (5 : Int).toNat) (2 : Int).toNat
        omega
      · omega
    · split at hr
      · rename_i c
        rw [if_pos c.1]
        have a2 := le_max_right
          (if t.isSimplex = true then max (tp3.maxOrder t.id qt) (5 : Int).toNat
            else tp3.maxOrder t.id qt) (2 : Int).toNat
        omega
      · have h := H3 _ _ _ _ hr
        have a1 : tp3.maxOrder t.id qt ≤
            (if t.isSimplex = true then max (tp3.maxOrder t.id qt) (5 : Int).toNat
              else tp3.maxOrder t.id qt) := by
          split
          · exact le_max_left _ _
          · exact le_refl _
        split
        · have a2 := le_max_left
            (if t.isSimplex = true then max (tp3.maxOrder t.id qt) (5 : Int).toNat
              else tp3.maxOrder t.id qt) (2 : Int).toNat
          omega
        · omega

/-- C5 at a concrete input: over builders of maximal order 7 (which succeed
only up to order 7) the triangle request at order 9 with GaussLegendre returns
a rule, and 9 is at most the reported maximal order. -/
theorem QuadratureRuleFactory.rule_ok_le_maxOrder_witness :
    (∃ r, QuadratureRuleFactory2.rule (TensorProductQuadratureRule.bounded 7 PointQuadratureRule)
        GeometryTypes.triangle 9 QuadratureType.GaussLegendre = .ok r) ∧
    (9 : Int) ≤ (QuadratureRuleFactory2.maxOrder
        (TensorProductQuadratureRule.bounded 7 PointQuadratureRule)
        GeometryTypes.triangle QuadratureType.GaussLegendre : Int) :=
  ⟨⟨_, rfl⟩,
   (QuadratureRuleFactory.rule_ok_le_maxOrder
      (TensorProductQuadratureRule.bounded 7 PointQuadratureRule)
      (TensorProductQuadratureRule.bounded 7 PointQuadratureRule)
      (TensorProductQuadratureRule.bounded_ok_le 7 PointQuadratureRule)
      (TensorProductQuadratureRule.bounded_ok_le 7 PointQuadratureRule)
      GeometryTypes.triangle 9 QuadratureType.GaussLegendre (by decide)).1 _ rfl⟩

/-- C7: on every closed-form path the declared order is at least the
requested order. For p in 0..12 the triangle table returns a rule of order
max(p,1); for p in 0..5 the tetrahedron table returns a rule of order
1,1,2,3,5,5; for p in 0..2 the prism table has order 2; the vertex rule has
order at least p for every p of type int (p ≤ INT_MAX). -/
theorem closedForm_order_ge_request (p : Int) :
    (0 ≤ p → p ≤ 12 →
      ∃ r, SimplexQuadratureRule2 p = .ok r ∧ r.order = max p 1 ∧ p ≤ r.order) ∧
    (0 ≤ p → p ≤ 5 →
      ∃ r, SimplexQuadratureRule3 p = .ok r ∧
        r.order = ([1, 1, 2, 3, 5, 5] : List Int).getD p.toNat 0 ∧ p ≤ r.order) ∧
    (0 ≤ p → p ≤ 2 →
      (PrismQuadratureRule p).order = 2 ∧ p ≤ (PrismQuadratureRule p).order) ∧
    (p ≤ INT_MAX → p ≤ PointQuadratureRule.order) := by
  refine ⟨?_, ?_, ?_, ?_⟩
  · intro h0 h1
    interval_cases p <;> exact ⟨_, rfl, by decide, by decide⟩
  · intro h0 h1
    interval_cases p <;> exact ⟨_, rfl, by decide, by decide⟩
  · intro h0 h1
    interval_cases p <;> exact ⟨by decide, by decide⟩
  · intro h
    exact h

/-- C7 at concrete inputs: triangle request 7, tetrahedron request 4, prism
request 1 and the vertex rule at request 5. -/
theorem closedForm_order_ge_request_witness :
    (∃ r, SimplexQuadratureRule2 7 = .ok r ∧ r.order = max 7 1 ∧ 7 ≤ r.order) ∧
    (∃ r, SimplexQuadratureRule3 4 = .ok r ∧
        r.order = ([1, 1, 2, 3, 5, 5] : List Int).getD (4 : Int).toNat 0 ∧ 4 ≤ r.order) ∧
    ((PrismQuadratureRule 1).order = 2 ∧ 1 ≤ (PrismQuadratureRule 1).order) ∧
    5 ≤ PointQuadratureRule.order :=
  ⟨(closedForm_order_ge_request 7).1 (by decide) (by decide),
   (closedForm_order_ge_request 4).2.1 (by decide) (by decide),
   (closedForm_order_ge_request 1).2.2.1 (by decide) (by decide),
   (closedForm_order_ge_request 5).2.2.2 (by decide)⟩

/-! ## Closed-form tables: exactness and weights (C8, C9, C10) -/

/-- C8: reading the literals as exact rationals, the triangle rules of order 2
and 3 integrate every monomial x^a y^b of total degree at most their order
exactly, to a! b! / (a+b+2)!, and the tetrahedron rules of order 1 (requests 0
and 1) and of order 3 integrate every monomial x^a y^b z^c of total degree at
most their order exactly, to a! b! c! / (a+b+c+3)!. -/
theorem closedForm_exact_on_fractions :
    (∀ a b : ℕ, a + b ≤ 2 →
      ∃ r, SimplexQuadratureRule2 2 = .ok r ∧ r.order = 2 ∧
        r.integrate [a, b] = (a.factorial * b.factorial : ℚ) / (a + b + 2).factorial) ∧
    (∀ a b : ℕ, a + b ≤ 3 →
      ∃ r, SimplexQuadratureRule2 3 = .ok r ∧ r.order = 3 ∧
        r.integrate [a, b] = (a.factorial * b.factorial : ℚ) / (a + b + 2).factorial) ∧
    (∀ p : Int, 0 ≤ p → p ≤ 1 → ∀ a b c : ℕ, a + b + c ≤ 1 →
      ∃ r, SimplexQuadratureRule3 p = .ok r ∧ r.order = 1 ∧
        r.integrate [a, b, c]
          = (a.factorial * b.factorial * c.factorial : ℚ) / (a + b + c + 3).factorial) ∧
    (∀ a b c : ℕ, a + b + c ≤ 3 →
      ∃ r, SimplexQuadratureRule3 3 = .ok r ∧ r.order = 3 ∧
        r.integrate [a, b, c]
          = (a.factorial * b.factorial * c.factorial : ℚ) / (a + b + c + 3).factorial) := by
  refine ⟨?_, ?_, ?_, ?_⟩
  · intro a b h
    exact holdsOn_dec
      (SimplexQuadratureRule2.triangle_exact_aux ⟨0, by decide⟩ ⟨a, by omega⟩ ⟨b, by omega⟩ h)
  · intro a b h
    exact holdsOn_dec
      (SimplexQuadratureRule2.triangle_exact_aux ⟨1, by decide⟩ ⟨a, by omega⟩ ⟨b, by omega⟩ h)
  · intro p h0 h1 a b c h
    obtain ⟨n, rfl⟩ := Int.eq_ofNat_of_zero_le h0
    exact holdsOn_dec
      (SimplexQuadratureRule3.tetrahedron_exact_aux1 ⟨n, by omega⟩ ⟨a, by omega⟩ ⟨b, by omega⟩
        ⟨c, by omega⟩ h)
  · intro a b c h
    exact holdsOn_dec
      (SimplexQuadratureRule3.tetrahedron_exact_aux3 ⟨a, by omega⟩ ⟨b, by omega⟩ ⟨c, by omega⟩ h)

/-- C8 at concrete monomials: xy on the order-2 triangle rule, x^2 y on the
order-3 triangle rule, z on the tetrahedron rule of request 0 and xyz on the
order-3 tetrahedron rule. -/
theorem closedForm_exact_on_fractions_witness :
    (∃ r, SimplexQuadratureRule2 2 = .ok r ∧ r.order = 2 ∧
        r.integrate [1, 1] = (Nat.factorial 1 * Nat.factorial 1 : ℚ) / (Nat.factorial (1 + 1 + 2))) ∧
    (∃ r, SimplexQuadratureRule2 3 = .ok r ∧ r.order = 3 ∧
        r.integrate [2, 1] = (Nat.factorial 2 * Nat.factorial 1 : ℚ) / (Nat.factorial (2 + 1 + 2))) ∧
    (∃ r, SimplexQuadratureRule3 0 = .ok r ∧ r.order = 1 ∧
        r.integrate [0, 0, 1]
          = (Nat.factorial 0 * Nat.factorial 0 * Nat.factorial 1 : ℚ)
              / (Nat.factorial (0 + 0 + 1 + 3))) ∧
    (∃ r, SimplexQuadratureRule3 3 = .ok r ∧ r.order = 3 ∧
        r.integrate [1, 1, 1]
          = (Nat.factorial 1 * Nat.factorial 1 * Nat.factorial 1 : ℚ)
              / (Nat.factorial (1 + 1 + 1 + 3))) :=
  ⟨closedForm_exact_on_fractions.1 1 1 (by decide),
   closedForm_exact_on_fractions.2.1 2 1 (by decide),
   closedForm_exact_on_fractions.2.2.1 0 (by decide) (by decide) 0 0 1 (by decide),
   closedForm_exact_on_fractions.2.2.2 1 1 1 (by decide)⟩

/-- C9: reading the literals as exact decimals, every closed-form rule
integrates every monomial of total degree at most its declared order to within
10^-10 of the exact integral over the reference element: the triangle rules
for requests 0..12 (exact value a! b! / (a+b+2)!), the tetrahedron rules for
requests 0..5 (exact value a! b! c! / (a+b+c+3)!) and the prism rule for
requests 0..2 (exact value a! b! / ((a+b+2)! (c+1))). -/
theorem closedForm_exact_within_tolerance (p : Int) (h0 : 0 ≤ p) :
    (p ≤ 12 → ∃ r, SimplexQuadratureRule2 p = .ok r ∧
      ∀ a b : ℕ, ((a + b : ℕ) : Int) ≤ r.order →
        |r.integrate [a, b] - (a.factorial * b.factorial : ℚ) / (a + b + 2).factorial|
          < 1 / 10 ^ 10) ∧
    (p ≤ 5 → ∃ r, SimplexQuadratureRule3 p = .ok r ∧
      ∀ a b c : ℕ, ((a + b + c : ℕ) : Int) ≤ r.order →
        |r.integrate [a, b, c]
            - (a.factorial * b.factorial * c.factorial : ℚ) / (a + b + c + 3).factorial|
          < 1 / 10 ^ 10) ∧
    (p ≤ 2 → ∀ a b c : ℕ, ((a + b + c : ℕ) : Int) ≤ (PrismQuadratureRule p).order →
        |(PrismQuadratureRule p).integrate [a, b, c]
            - (a.factorial * b.factorial : ℚ) / ((a + b + 2).factorial * (c + 1))|
          < 1 / 10 ^ 10) := by
  obtain ⟨n, rfl⟩ := Int.eq_ofNat_of_zero_le h0
  refine ⟨?_, ?_, ?_⟩
  · intro h1
    have hn : n < 13 := by omega
    obtain ⟨r, hr, hP⟩ := holdsOn_dec (SimplexQuadratureRule2.triangle_approx_aux ⟨n, hn⟩ 0 0)
    refine ⟨r, hr, fun a b hab => ?_⟩
    have hord : r.order ≤ 12 := hP.1
    have ha : a < 13 := by omega
    have hb : b < 13 := by omega
    obtain ⟨r', hr', hP'⟩ :=
      holdsOn_dec (SimplexQuadratureRule2.triangle_approx_aux ⟨n, hn⟩ ⟨a, ha⟩ ⟨b, hb⟩)
    have e : r' = r := Except.ok.inj (hr'.symm.trans hr)
    subst e
    exact hP'.2 hab
  · intro h1
    have hn : n < 6 := by omega
    obtain ⟨r, hr, hP⟩ := holdsOn_dec (SimplexQuadratureRule3.tetrahedron_approx_aux ⟨n, hn⟩ 0 0 0)
    refine ⟨r, hr, fun a b c hab => ?_⟩
    have hord : r.order ≤ 5 := hP.1
    have ha : a < 6 := by omega
    have hb : b < 6 := by omega
    have hc : c < 6 := by omega
    obtain ⟨r', hr', hP'⟩ :=
      holdsOn_dec (SimplexQuadratureRule3.tetrahedron_approx_aux ⟨n, hn⟩ ⟨a, ha⟩ ⟨b, hb⟩ ⟨c, hc⟩)
    have e : r' = r := Except.ok.inj (hr'.symm.trans hr)
    subst e
    exact hP'.2 hab
  · intro h1 a b c hab
    have hn : n < 3 := by omega
    have hord : (PrismQuadratureRule (n : Int)).order ≤ 2 :=
      (PrismQuadratureRule.prism_approx_aux ⟨n, hn⟩ 0 0 0).1
    have ha : a < 3 := by omega
    have hb : b < 3 := by omega
    have hc : c < 3 := by omega
    exact (PrismQuadratureRule.prism_approx_aux ⟨n, hn⟩ ⟨a, ha⟩ ⟨b, hb⟩ ⟨c, hc⟩).2 hab

/-- C9 at concrete inputs: the monomial x^7 y^5 on the triangle rule of request
12, x^2 y z^2 on the tetrahedron rule of request 4 and x z on the prism rule of
request 0. -/
theorem closedForm_exact_within_tolerance_witness :
    (∃ r, SimplexQuadratureRule2 12 = .ok r ∧
      |r.integrate [7, 5] - (Nat.factorial 7 * Nat.factorial 5 : ℚ) / (Nat.factorial (7 + 5 + 2))|
        < 1 / 10 ^ 10) ∧
    (∃ r, SimplexQuadratureRule3 4 = .ok r ∧
      |r.integrate [2, 1, 2]
          - (Nat.factorial 2 * Nat.factorial 1 * Nat.factorial 2 : ℚ)
              / (Nat.factorial (2 + 1 + 2 + 3))|
        < 1 / 10 ^ 10) ∧
    |(PrismQuadratureRule 0).integrate [1, 0, 1]
        - (Nat.factorial 1 * Nat.factorial 0 : ℚ) / (Nat.factorial (1 + 0 + 2) * ((1 : ℕ) + 1))|
      < 1 / 10 ^ 10 :=
  ⟨(((closedForm_exact_within_tolerance 12 (by decide)).1 (by decide)).imp
      fun r h => ⟨h.1, h.2 7 5 (by rw [h.1.symm.trans rfl |> Except.ok.inj]; decide)⟩),
   (((closedForm_exact_within_tolerance 4 (by decide)).2.1 (by decide)).imp
      fun r h => ⟨h.1, h.2 2 1 2 (by rw [h.1.symm.trans rfl |> Except.ok.inj]; decide)⟩),
   (closedForm_exact_within_tolerance 0 (by decide)).2.2 (by decide) 1 0 1 (by decide)⟩

/-- C10: reading the literals as exact decimals, the weights of every
closed-form rule sum to the volume of the reference element within 10^-12: to
1/2 for the triangle rules of requests 0..12, to 1/6 for the tetrahedron rules
of requests 0..5, to 1/2 for the prism rule of requests 0..2; and the vertex
rule has the single weight 1. -/
theorem closedForm_weightSum (p : Int) (h0 : 0 ≤ p) :
    (p ≤ 12 → ∃ r, SimplexQuadratureRule2 p = .ok r ∧ |r.weightSum - 1 / 2| < 1 / 10 ^ 12) ∧
    (p ≤ 5 → ∃ r, SimplexQuadratureRule3 p = .ok r ∧ |r.weightSum - 1 / 6| < 1 / 10 ^ 12) ∧
    (p ≤ 2 → |(PrismQuadratureRule p).weightSum - 1 / 2| < 1 / 10 ^ 12) ∧
    PointQuadratureRule.points.map QuadraturePoint.weight = [1] := by
  obtain ⟨n, rfl⟩ := Int.eq_ofNat_of_zero_le h0
  refine ⟨?_, ?_, ?_, rfl⟩
  · intro h1
    exact holdsOn_dec (SimplexQuadratureRule2.triangle_weightSum_aux ⟨n, by omega⟩)
  · intro h1
    exact holdsOn_dec (SimplexQuadratureRule3.tetrahedron_weightSum_aux ⟨n, by omega⟩)
  · intro h1
    exact PrismQuadratureRule.prism_weightSum_aux ⟨n, by omega⟩

/-- C10 at concrete inputs: the triangle rule of request 12, the tetrahedron
rule of request 5 and the prism rule of request 2. -/
theorem closedForm_weightSum_witness :
    (∃ r, SimplexQuadratureRule2 12 = .ok r ∧ |r.weightSum - 1 / 2| < 1 / 10 ^ 12) ∧
    (∃ r, SimplexQuadratureRule3 5 = .ok r ∧ |r.weightSum - 1 / 6| < 1 / 10 ^ 12) ∧
    |(PrismQuadratureRule 2).weightSum - 1 / 2| < 1 / 10 ^ 12 :=
  ⟨(closedForm_weightSum 12 (by decide)).1 (by decide),
   (closedForm_weightSum 5 (by decide)).2.1 (by decide),
   (closedForm_weightSum 2 (by decide)).2.2.1 (by decide)⟩

/-! ## Dimension 0 and 1 (C11, C12, C13, C14) -/

/-- C11: for a vertex shape, every order p and every family qt the dimension-0
factory returns the rule with exactly one point, at the origin (the position
with no component), with weight 1, of type vertex and declared order
INT_MAX; maxOrder returns that same value, so every p of type int (p ≤ INT_MAX)
is at most maxOrder and at most the declared order. -/
theorem QuadratureRuleFactory0.vertex_rule (t : GeometryType) (p : Int) (qt : QuadratureType)
    (hv : t.isVertex = true) :
    ∃ r, QuadratureRuleFactory0.rule t p qt = .ok r ∧
      r.points = [⟨[], 1⟩] ∧ r.size = 1 ∧ r.type = GeometryTypes.vertex ∧
      r.order = 2147483647 ∧
      QuadratureRuleFactory0.maxOrder t qt = .ok 2147483647 ∧
      (p ≤ INT_MAX → p ≤ 2147483647 ∧ p ≤ r.order) := by
  refine ⟨PointQuadratureRule, ?_, rfl, rfl, rfl, rfl, ?_, ?_⟩
  · simp only [QuadratureRuleFactory0.rule]
    rw [if_pos hv]
  · simp only [QuadratureRuleFactory0.maxOrder]
    rw [if_pos hv]
    rfl
  · intro h
    exact ⟨h, h⟩

/-- C11 at its witness `rule(vertex, 5)`. -/
theorem QuadratureRuleFactory0.vertex_rule_witness :
    ∃ r, QuadratureRuleFactory0.rule GeometryTypes.vertex 5 QuadratureType.GaussLegendre = .ok r ∧
      r.points = [⟨[], 1⟩] ∧ r.size = 1 ∧ r.type = GeometryTypes.vertex ∧
      r.order = 2147483647 ∧
      QuadratureRuleFactory0.maxOrder GeometryTypes.vertex QuadratureType.GaussLegendre
        = .ok 2147483647 ∧
      ((5 : Int) ≤ INT_MAX → (5 : Int) ≤ 2147483647 ∧ 5 ≤ r.order) :=
  QuadratureRuleFactory0.vertex_rule GeometryTypes.vertex 5 QuadratureType.GaussLegendre rfl

/-- C12: in dimension 0, for a shape that is not a vertex both rule and
maxOrder raise the exception "Unknown GeometryType" for every order and
family; and each of them raises if and only if the shape is not a vertex. -/
theorem QuadratureRuleFactory0.not_vertex_raises (t : GeometryType) (p : Int)
    (qt : QuadratureType) :
    (t.isVertex = false →
      QuadratureRuleFactory0.rule t p qt = .error (DuneError.Exception "Unknown GeometryType") ∧
      QuadratureRuleFactory0.maxOrder t qt
        = .error (DuneError.Exception "Unknown GeometryType")) ∧
    ((∃ e, QuadratureRuleFactory0.rule t p qt = .error e) ↔ t.isVertex = false) ∧
    ((∃ e, QuadratureRuleFactory0.maxOrder t qt = .error e) ↔ t.isVertex = false) := by
  cases hv : t.isVertex <;>
    simp [QuadratureRuleFactory0.rule, QuadratureRuleFactory0.maxOrder, hv]

/-- C12 at a concrete input: the line handed to the dimension-0 factory. -/
theorem QuadratureRuleFactory0.not_vertex_raises_witness :
    QuadratureRuleFactory0.rule GeometryTypes.line 3 QuadratureType.GaussLegendre
      = .error (DuneError.Exception "Unknown GeometryType") ∧
    QuadratureRuleFactory0.maxOrder GeometryTypes.line QuadratureType.GaussLegendre
      = .error (DuneError.Exception "Unknown GeometryType") :=
  (QuadratureRuleFactory0.not_vertex_raises GeometryTypes.line 3 QuadratureType.GaussLegendre).1 rfl

/-- C13: for a line and each of the seven families, the dimension-1 factory's
rule is the rule of that family's own one-dimensional class constructed with
the same p, and maxOrder is the maximal order of that same class. -/
theorem QuadratureRuleFactory1.line_dispatch (g : OneDimensionalRules) (t : GeometryType)
    (p : Int) (hl : t.isLine = true) :
    (QuadratureRuleFactory1.rule g t p .GaussLegendre = g.GaussQuadratureRule p ∧
      QuadratureRuleFactory1.maxOrder g t .GaussLegendre
        = .ok g.GaussQuadratureRule_highest_order) ∧
    (QuadratureRuleFactory1.rule g t p .GaussJacobi_1_0 = g.Jacobi1QuadratureRule p ∧
      QuadratureRuleFactory1.maxOrder g t .GaussJacobi_1_0
        = .ok g.Jacobi1QuadratureRule_highest_order) ∧
    (QuadratureRuleFactory1.rule g t p .GaussJacobi_2_0 = g.Jacobi2QuadratureRule p ∧
      QuadratureRuleFactory1.maxOrder g t .GaussJacobi_2_0
        = .ok g.Jacobi2QuadratureRule_highest_order) ∧
    (QuadratureRuleFactory1.rule g t p .GaussJacobi_n_0 = g.JacobiNQuadratureRule1D p ∧
      QuadratureRuleFactory1.maxOrder g t .GaussJacobi_n_0
        = .ok g.JacobiNQuadratureRule1D_maxOrder) ∧
    (QuadratureRuleFactory1.rule g t p .GaussLobatto = g.GaussLobattoQuadratureRule1D p ∧
      QuadratureRuleFactory1.maxOrder g t .GaussLobatto
        = .ok g.GaussLobattoQuadratureRule1D_highest_order) ∧
    (QuadratureRuleFactory1.rule g t p .GaussRadauLeft = g.GaussRadauLeftQuadratureRule1D p ∧
      QuadratureRuleFactory1.maxOrder g t .GaussRadauLeft
        = .ok g.GaussRadauLeftQuadratureRule1D_highest_order) ∧
    (QuadratureRuleFactory1.rule g t p .GaussRadauRight = g.GaussRadauRightQuadratureRule1D p ∧
      QuadratureRuleFactory1.maxOrder g t .GaussRadauRight
        = .ok g.GaussRadauRightQuadratureRule1D_highest_order) := by
  simp [QuadratureRuleFactory1.rule, QuadratureRuleFactory1.maxOrder, hl]

/-- C13 at concrete inputs: over the numbered classes the line at order 3 gets,
for GaussLobatto, the rule and the maximal order of class number 3 and, for
GaussJacobi_n_0, those of class number 4. -/
theorem QuadratureRuleFactory1.line_dispatch_witness :
    (QuadratureRuleFactory1.rule OneDimensionalRules.numbered GeometryTypes.line 3 .GaussLobatto
        = .ok ⟨GeometryTypes.line, 3, [⟨[3], 1⟩]⟩ ∧
      QuadratureRuleFactory1.maxOrder OneDimensionalRules.numbered GeometryTypes.line
        .GaussLobatto = .ok 40) ∧
    (QuadratureRuleFactory1.rule OneDimensionalRules.numbered GeometryTypes.line 3
        .GaussJacobi_n_0 = .ok ⟨GeometryTypes.line, 3, [⟨[4], 1⟩]⟩ ∧
      QuadratureRuleFactory1.maxOrder OneDimensionalRules.numbered GeometryTypes.line
        .GaussJacobi_n_0 = .ok 50) :=
  ⟨(QuadratureRuleFactory1.line_dispatch OneDimensionalRules.numbered GeometryTypes.line 3
      rfl).2.2.2.2.1,
   (QuadratureRuleFactory1.line_dispatch OneDimensionalRules.numbered GeometryTypes.line 3
      rfl).2.2.2.1⟩

/-- C14: in dimension 1, rule and maxOrder raise "Unknown GeometryType" for
every shape that is not a line, whatever the family (the shape is checked
first, also for the value `size`); for a line with the family value `size`, the
only value of the enumeration besides the seven families, they raise "Unknown
QuadratureType"; for a line with one of the seven families maxOrder returns a
value and rule returns or raises exactly what the family's class does. -/
theorem QuadratureRuleFactory1.errors (g : OneDimensionalRules) (t : GeometryType)
    (p : Int) (qt : QuadratureType) :
    (t.isLine = false →
      QuadratureRuleFactory1.rule g t p qt = .error (DuneError.Exception "Unknown GeometryType") ∧
      QuadratureRuleFactory1.maxOrder g t qt
        = .error (DuneError.Exception "Unknown GeometryType")) ∧
    (t.isLine = true → qt = QuadratureType.size →
      QuadratureRuleFactory1.rule g t p qt = .error (DuneError.Exception "Unknown QuadratureType") ∧
      QuadratureRuleFactory1.maxOrder g t qt
        = .error (DuneError.Exception "Unknown QuadratureType")) ∧
    (t.isLine = true → qt ≠ QuadratureType.size →
      (∃ m, QuadratureRuleFactory1.maxOrder g t qt = .ok m) ∧
      QuadratureRuleFactory1.rule g t p qt ∈
        [g.GaussQuadratureRule p, g.Jacobi1QuadratureRule p, g.Jacobi2QuadratureRule p,
         g.JacobiNQuadratureRule1D p, g.GaussLobattoQuadratureRule1D p,
         g.GaussRadauLeftQuadratureRule1D p, g.GaussRadauRightQuadratureRule1D p]) := by
  refine ⟨?_, ?_, ?_⟩
  · intro hl
    simp [QuadratureRuleFactory1.rule, QuadratureRuleFactory1.maxOrder, hl]
  · intro hl hq
    subst hq
    simp [QuadratureRuleFactory1.rule, QuadratureRuleFactory1.maxOrder, hl]
  · intro hl hq
    cases qt <;> simp [QuadratureRuleFactory1.rule, QuadratureRuleFactory1.maxOrder, hl] at hq ⊢

/-- C14 at concrete inputs: a triangle with `size` raises for its shape, the
line with `size` raises for its family, the line with GaussRadauRight raises
nothing. -/
theorem QuadratureRuleFactory1.errors_witness :
    (QuadratureRuleFactory1.rule OneDimensionalRules.numbered GeometryTypes.triangle 2 .size
        = .error (DuneError.Exception "Unknown GeometryType") ∧
      QuadratureRuleFactory1.maxOrder OneDimensionalRules.numbered GeometryTypes.triangle .size
        = .error (DuneError.Exception "Unknown GeometryType")) ∧
    (QuadratureRuleFactory1.rule OneDimensionalRules.numbered GeometryTypes.line 2 .size
        = .error (DuneError.Exception "Unknown QuadratureType") ∧
      QuadratureRuleFactory1.maxOrder OneDimensionalRules.numbered GeometryTypes.line .size
        = .error (DuneError.Exception "Unknown QuadratureType")) ∧
    (∃ m, QuadratureRuleFactory1.maxOrder OneDimensionalRules.numbered GeometryTypes.line
        .GaussRadauRight = .ok m) :=
  ⟨(QuadratureRuleFactory1.errors OneDimensionalRules.numbered GeometryTypes.triangle 2
      .size).1 rfl,
   (QuadratureRuleFactory1.errors OneDimensionalRules.numbered GeometryTypes.line 2
      .size).2.1 rfl rfl,
   ((QuadratureRuleFactory1.errors OneDimensionalRules.numbered GeometryTypes.line 2
      .GaussRadauRight).2.2 rfl (by decide)).1⟩

/-! ## The order-2 triangle rule and the range of the tables (C15, C16) -/

/-- C15 refuted as stated: case 2 of the triangle table, which the dimension-2
factory returns for the triangle at order 2 with GaussLegendre, evaluates its
entries in `double`: the weight 0.5/3.0 is 6004799503160661 / 2^55 and the
coordinates 4.0/6.0 and 1.0/6.0 are 6004799503160661 / 2^53 and
6004799503160661 / 2^55; no weight is 1/6 and no point is at (2/3, 1/6),
(1/6, 2/3) or (1/6, 1/6). -/
theorem SimplexQuadratureRule2.order2_double_weight :
    (∀ tp : TensorProductQuadratureRule,
      QuadratureRuleFactory2.rule tp GeometryTypes.triangle 2 .GaussLegendre
        = SimplexQuadratureRule2 2) ∧
    Double.div 0.5 3.0 = 6004799503160661 / 2 ^ 55 ∧
    Double.div 4.0 6.0 = 6004799503160661 / 2 ^ 53 ∧
    Double.div 1.0 6.0 = 6004799503160661 / 2 ^ 55 ∧
    SimplexQuadratureRule2.case2_double.points.map QuadraturePoint.weight
      = [6004799503160661 / 2 ^ 55, 6004799503160661 / 2 ^ 55, 6004799503160661 / 2 ^ 55] ∧
    (∀ q ∈ SimplexQuadratureRule2.case2_double.points, q.weight ≠ 1 / 6) ∧
    (∀ q ∈ SimplexQuadratureRule2.case2_double.points,
      q.position ≠ [2 / 3, 1 / 6] ∧ q.position ≠ [1 / 6, 2 / 3] ∧ q.position ≠ [1 / 6, 1 / 6]) := by
  refine ⟨?_, ?_⟩
  · intro tp
    unfold QuadratureRuleFactory2.rule
    rw [if_pos ⟨rfl, Or.inl rfl, by decide⟩]
  · rw [SimplexQuadratureRule2.case2_double_aux]
    decide!

/-- C15 as amended: the dimension-2 factory's rule for the triangle at order 2
with GaussLegendre is case 2 of the triangle table, with exactly 3 points, at
(4.0/6.0, 1.0/6.0), (1.0/6.0, 4.0/6.0), (1.0/6.0, 1.0/6.0) in that order, each
with weight 0.5/3.0, declared order 2 and type triangle; the same rule is
returned for GaussJacobi_n_0. Read over the exact rationals these entries are
(2/3,1/6), (1/6,2/3), (1/6,1/6) and the weight 1/6. Evaluated in `double` they
are the exact entries rounded: 6004799503160661 / 2^53 for 2/3 and
6004799503160661 / 2^55 for 1/6, which fall short of 2/3 and 1/6 by
1/(3 * 2^53) and 1/(3 * 2^55). -/
theorem QuadratureRuleFactory2.triangle_order2 (tp : TensorProductQuadratureRule) :
    QuadratureRuleFactory2.rule tp GeometryTypes.triangle 2 .GaussLegendre
      = .ok ⟨GeometryTypes.triangle, 2,
          [⟨[4.0 / 6.0, 1.0 / 6.0], 0.5 / 3.0⟩, ⟨[1.0 / 6.0, 4.0 / 6.0], 0.5 / 3.0⟩,
           ⟨[1.0 / 6.0, 1.0 / 6.0], 0.5 / 3.0⟩]⟩ ∧
    QuadratureRuleFactory2.rule tp GeometryTypes.triangle 2 .GaussLegendre
      = .ok ⟨GeometryTypes.triangle, 2,
          [⟨[2 / 3, 1 / 6], 1 / 6⟩, ⟨[1 / 6, 2 / 3], 1 / 6⟩, ⟨[1 / 6, 1 / 6], 1 / 6⟩]⟩ ∧
    QuadratureRuleFactory2.rule tp GeometryTypes.triangle 2 .GaussJacobi_n_0
      = QuadratureRuleFactory2.rule tp GeometryTypes.triangle 2 .GaussLegendre ∧
    (∃ r, QuadratureRuleFactory2.rule tp GeometryTypes.triangle 2 .GaussLegendre = .ok r ∧
      SimplexQuadratureRule2.case2_double
        = ⟨r.type_, r.order_, r.points.map (fun q =>
            ⟨q.local_.map Double.round, Double.round q.weight_⟩)⟩) ∧
    SimplexQuadratureRule2.case2_double
      = ⟨GeometryTypes.triangle, 2,
          [⟨[6004799503160661 / 2 ^ 53, 6004799503160661 / 2 ^ 55], 6004799503160661 / 2 ^ 55⟩,
           ⟨[6004799503160661 / 2 ^ 55, 6004799503160661 / 2 ^ 53], 6004799503160661 / 2 ^ 55⟩,
           ⟨[6004799503160661 / 2 ^ 55, 6004799503160661 / 2 ^ 55],
             6004799503160661 / 2 ^ 55⟩]⟩ ∧
    (2 / 3 - 6004799503160661 / 2 ^ 53 : ℚ) = 1 / (3 * 2 ^ 53) ∧
    (1 / 6 - 6004799503160661 / 2 ^ 55 : ℚ) = 1 / (3 * 2 ^ 55) := by
  obtain ⟨r, hr, he⟩ := holdsOn_dec SimplexQuadratureRule2.order2_points_aux
  obtain ⟨r', hr', hl, hd⟩ := holdsOn_dec SimplexQuadratureRule2.case2_literal_aux
  have h1 : QuadratureRuleFactory2.rule tp GeometryTypes.triangle 2 .GaussLegendre
      = SimplexQuadratureRule2 2 := by
    unfold QuadratureRuleFactory2.rule
    rw [if_pos ⟨rfl, Or.inl rfl, by decide⟩]
  have h2 : QuadratureRuleFactory2.rule tp GeometryTypes.triangle 2 .GaussJacobi_n_0
      = SimplexQuadratureRule2 2 := by
    unfold QuadratureRuleFactory2.rule
    rw [if_pos ⟨rfl, Or.inr rfl, by decide⟩]
  refine ⟨?_, ?_, ?_, ⟨r', ?_, hd⟩, SimplexQuadratureRule2.case2_double_aux, by norm_num,
    by norm_num⟩
  · rw [h1, hr', hl]
  · rw [h1, hr, he]
  · rw [h1, h2]
  · rw [h1, hr']

/-- C16: the triangle table raises QuadratureOrderOutOfRange exactly for p < 0
or p > 12 and returns a rule exactly for 0 ≤ p ≤ 12; the tetrahedron table
raises it exactly for p < 0 or p > 5 and returns a rule exactly for 0 ≤ p ≤ 5.
Hence the factories raise it for a simplex requested with GaussLegendre at a
negative order. -/
theorem SimplexQuadratureRule.raises_iff_outside (p : Int) :
    (SimplexQuadratureRule2 p = .error (.QuadratureOrderOutOfRange p) ↔ (p < 0 ∨ 12 < p)) ∧
    ((∃ r, SimplexQuadratureRule2 p = .ok r) ↔ (0 ≤ p ∧ p ≤ 12)) ∧
    (SimplexQuadratureRule3 p = .error (.QuadratureOrderOutOfRange p) ↔ (p < 0 ∨ 5 < p)) ∧
    ((∃ r, SimplexQuadratureRule3 p = .ok r) ↔ (0 ≤ p ∧ p ≤ 5)) ∧
    (p < 0 → ∀ (tp : TensorProductQuadratureRule) (t : GeometryType), t.isSimplex = true →
      QuadratureRuleFactory2.rule tp t p .GaussLegendre
        = .error (.QuadratureOrderOutOfRange p) ∧
      QuadratureRuleFactory3.rule tp t p .GaussLegendre
        = .error (.QuadratureOrderOutOfRange p)) := by
  have k2 : (∃ r, SimplexQuadratureRule2 p = .ok r) ↔ (0 ≤ p ∧ p ≤ 12) := by
    constructor
    · rintro ⟨r, hr⟩
      by_contra hc
      rw [SimplexQuadratureRule2.error_of_outside p (by omega)] at hr
      exact Except.noConfusion hr
    · rintro ⟨h0, h1⟩
      exact SimplexQuadratureRule2.ok_of_inside p h0 h1
  have k3 : (∃ r, SimplexQuadratureRule3 p = .ok r) ↔ (0 ≤ p ∧ p ≤ 5) := by
    constructor
    · rintro ⟨r, hr⟩
      by_contra hc
      rw [SimplexQuadratureRule3.error_of_outside3 p (by omega)] at hr
      exact Except.noConfusion hr
    · rintro ⟨h0, h1⟩
      exact SimplexQuadratureRule3.ok_of_inside3 p h0 h1
  refine ⟨⟨?_, SimplexQuadratureRule2.error_of_outside p⟩, k2,
    ⟨?_, SimplexQuadratureRule3.error_of_outside3 p⟩, k3, ?_⟩
  · intro he
    by_contra hc
    obtain ⟨r, hr⟩ := k2.2 (by omega)
    rw [hr] at he
    exact Except.noConfusion he
  · intro he
    by_contra hc
    obtain ⟨r, hr⟩ := k3.2 (by omega)
    rw [hr] at he
    exact Except.noConfusion he
  · intro hneg tp t hs
    constructor
    · unfold QuadratureRuleFactory2.rule
      rw [if_pos ⟨hs, Or.inl rfl, (by show p ≤ (12 : Int); omega)⟩]
      exact SimplexQuadratureRule2.error_of_outside p (Or.inl hneg)
    · unfold QuadratureRuleFactory3.rule
      rw [if_pos ⟨hs, Or.inl rfl, (by show p ≤ (5 : Int); omega)⟩]
      exact SimplexQuadratureRule3.error_of_outside3 p (Or.inl hneg)

/-- C16 at concrete inputs: the triangle table raises at 13, builds at its
highest order 12, the tetrahedron table builds at its highest order 5, and the
dimension-2 factory raises for the triangle at order -1. -/
theorem SimplexQuadratureRule.raises_iff_outside_witness :
    SimplexQuadratureRule2 13 = .error (.QuadratureOrderOutOfRange 13) ∧
    (∃ r, SimplexQuadratureRule2 12 = .ok r) ∧
    (∃ r, SimplexQuadratureRule3 5 = .ok r) ∧
    QuadratureRuleFactory2.rule (TensorProductQuadratureRule.bounded 20 PointQuadratureRule)
      GeometryTypes.triangle (-1) .GaussLegendre = .error (.QuadratureOrderOutOfRange (-1)) :=
  ⟨(SimplexQuadratureRule.raises_iff_outside 13).1.2 (Or.inr (by decide)),
   (SimplexQuadratureRule.raises_iff_outside 12).2.1.2 ⟨by decide, by decide⟩,
   (SimplexQuadratureRule.raises_iff_outside 5).2.2.2.1.2 ⟨by decide, by decide⟩,
   ((SimplexQuadratureRule.raises_iff_outside (-1)).2.2.2.2 (by decide) _
      GeometryTypes.triangle rfl).1⟩

/-! ## The cache key (C17) -/

/-- C17: `operator<` of QuadratureKey is the lexicographic strict total order
on (id, p, qt): a < b iff id_a < id_b, or the ids are equal and p_a < p_b, or
ids and orders are equal and qt_a < qt_b. It is irreflexive and transitive, any
two different keys are ordered one way or the other, and two keys are
equivalent (neither is less than the other) iff all three fields are equal,
so the keys of distinct triples are never equivalent. -/
theorem QuadratureKey.lt_strict_total (a b c : QuadratureKey) :
    (a.lt b = true ↔
      (a.id < b.id ∨ (a.id = b.id ∧ a.p < b.p) ∨
        (a.id = b.id ∧ a.p = b.p ∧ a.qt.toNat < b.qt.toNat))) ∧
    a.lt a = false ∧
    (a.lt b = true → b.lt c = true → a.lt c = true) ∧
    (a ≠ b → a.lt b = true ∨ b.lt a = true) ∧
    ((a.lt b = false ∧ b.lt a = false) ↔ (a.id = b.id ∧ a.p = b.p ∧ a.qt = b.qt)) ∧
    ((a.id, a.p, a.qt) ≠ (b.id, b.p, b.qt) → a.equiv b = false) := by
  have hab := QuadratureKey.lt_iff a b
  have hbc := QuadratureKey.lt_iff b c
  have hac := QuadratureKey.lt_iff a c
  have hba := QuadratureKey.lt_iff b a
  have haa := QuadratureKey.lt_iff a a
  have heq := QuadratureKey.equiv_iff_eq a b
  have hfields : a = b ↔ (a.id = b.id ∧ a.p = b.p ∧ a.qt = b.qt) := by
    constructor
    · rintro rfl
      exact ⟨rfl, rfl, rfl⟩
    · rintro ⟨e1, e2, e3⟩
      cases a
      cases b
      simp only at e1 e2 e3
      subst e1 e2 e3
      rfl
  have hequiv : (a.lt b = false ∧ b.lt a = false) ↔ a.equiv b = true := by
    simp [QuadratureKey.equiv]
  refine ⟨hab, ?_, ?_, ?_, ?_, ?_⟩
  · have n : ¬ a.lt a = true := by
      rw [haa]
      omega
    simpa using n
  · intro h1 h2
    rw [hab] at h1
    rw [hbc] at h2
    rw [hac]
    omega
  · intro hne
    by_contra hc
    push_neg at hc
    apply hne
    rw [← heq, ← hequiv]
    exact ⟨by simpa using hc.1, by simpa using hc.2⟩
  · rw [hequiv, heq, hfields]
  · intro hne
    cases hq : a.equiv b
    · rfl
    · exfalso
      apply hne
      rw [heq] at hq
      rw [hq]

/-- C17 at concrete keys: (0, 2, GaussLegendre) is less than (0, 2, GaussLobatto)
and less than (3, 1, GaussLegendre), hence less-than chains, and keys that
differ in the family only are not equivalent. -/
theorem QuadratureKey.lt_strict_total_witness :
    QuadratureKey.lt ⟨0, 2, .GaussLegendre⟩ ⟨3, 1, .GaussLegendre⟩ = true ∧
    (QuadratureKey.lt ⟨0, 2, .GaussLegendre⟩ ⟨0, 2, .GaussLobatto⟩ = true ∨
      QuadratureKey.lt ⟨0, 2, .GaussLobatto⟩ ⟨0, 2, .GaussLegendre⟩ = true) ∧
    QuadratureKey.equiv ⟨0, 2, .GaussLegendre⟩ ⟨0, 2, .GaussLobatto⟩ = false :=
  ⟨(QuadratureKey.lt_strict_total ⟨0, 2, .GaussLegendre⟩ ⟨0, 2, .GaussLobatto⟩
      ⟨3, 1, .GaussLegendre⟩).2.2.1 (by decide) (by decide),
   (QuadratureKey.lt_strict_total ⟨0, 2, .GaussLegendre⟩ ⟨0, 2, .GaussLobatto⟩
      ⟨3, 1, .GaussLegendre⟩).2.2.2.1 (by decide),
   (QuadratureKey.lt_strict_total ⟨0, 2, .GaussLegendre⟩ ⟨0, 2, .GaussLobatto⟩
      ⟨3, 1, .GaussLegendre⟩).2.2.2.2.2 (by decide)⟩

/-! ## The cache (C18, C19, C20) -/

/-- C18 evaluated on the code: the factories consult the classification of the
shape, which the cache key (id, p, qt) does not carry. Two shapes with equal id
get the same rule from the dimension-2 factory when they agree on isSimplex
(dimension 3: on isSimplex and isPrism). The triangle and the unclassified
dimension-2 shape share the id 0 and the dimension, yet for order 2 with
GaussLegendre the factory returns the table rule for the first and hands the
second to the builder (which, with maximal order 0, throws). After the
triangle request the cache answers the second shape with the triangle's table
rule. -/
theorem QuadratureRuleFactory.rule_not_function_of_key :
    (∀ (tp : TensorProductQuadratureRule) (t₁ t₂ : GeometryType) (p : Int) (qt : QuadratureType),
      t₁.id = t₂.id → t₁.isSimplex = t₂.isSimplex →
      QuadratureRuleFactory2.rule tp t₁ p qt = QuadratureRuleFactory2.rule tp t₂ p qt) ∧
    (∀ (tp : TensorProductQuadratureRule) (t₁ t₂ : GeometryType) (p : Int) (qt : QuadratureType),
      t₁.id = t₂.id → t₁.isSimplex = t₂.isSimplex → t₁.isPrism = t₂.isPrism →
      QuadratureRuleFactory3.rule tp t₁ p qt = QuadratureRuleFactory3.rule tp t₂ p qt) ∧
    (GeometryTypes.none2.id = GeometryTypes.triangle.id ∧
      GeometryTypes.none2.dim = GeometryTypes.triangle.dim) ∧
    (∃ r, QuadratureRuleFactory2.rule (TensorProductQuadratureRule.bounded 0 PointQuadratureRule)
        GeometryTypes.triangle 2 .GaussLegendre = .ok r ∧
      QuadratureRuleFactory2.rule (TensorProductQuadratureRule.bounded 0 PointQuadratureRule)
        GeometryTypes.none2 2 .GaussLegendre = .error (.QuadratureOrderOutOfRange 2) ∧
      (QuadratureRules.rule
        (QuadratureRuleFactory2.rule (TensorProductQuadratureRule.bounded 0 PointQuadratureRule))
        (QuadratureRules.rule
          (QuadratureRuleFactory2.rule (TensorProductQuadratureRule.bounded 0 PointQuadratureRule))
          [] GeometryTypes.triangle 2 .GaussLegendre).2
        GeometryTypes.none2 2 .GaussLegendre).1 = .ok r) ∧
    (∃ r, QuadratureRuleFactory3.rule (TensorProductQuadratureRule.bounded 0 PointQuadratureRule)
        GeometryTypes.tetrahedron 2 .GaussLegendre = .ok r ∧
      QuadratureRuleFactory3.rule (TensorProductQuadratureRule.bounded 0 PointQuadratureRule)
        GeometryTypes.none3 2 .GaussLegendre = .error (.QuadratureOrderOutOfRange 2)) := by
  refine ⟨?_, ?_, ⟨rfl, rfl⟩, ?_, ?_⟩
  · intro tp t₁ t₂ p qt hid hs
    simp only [QuadratureRuleFactory2.rule, hid, hs]
  · intro tp t₁ t₂ p qt hid hs hp
    simp only [QuadratureRuleFactory3.rule, hid, hs, hp]
  · obtain ⟨r, hr⟩ := SimplexQuadratureRule2.ok_of_inside 2 (by decide) (by decide)
    have h1 : QuadratureRuleFactory2.rule (TensorProductQuadratureRule.bounded 0 PointQuadratureRule)
        GeometryTypes.triangle 2 .GaussLegendre = .ok r := by
      unfold QuadratureRuleFactory2.rule
      rw [if_pos ⟨rfl, Or.inl rfl, by decide⟩]
      exact hr
    refine ⟨r, h1, rfl, ?_⟩
    have hfirst : QuadratureRules.rule
        (QuadratureRuleFactory2.rule (TensorProductQuadratureRule.bounded 0 PointQuadratureRule))
        [] GeometryTypes.triangle 2 .GaussLegendre
        = (.ok r, [(⟨0, 2, .GaussLegendre⟩, r)]) :=
      QuadratureRuleCache.get_miss_ok [] _ _ r rfl h1
    rw [hfirst]
    exact congrArg Prod.fst
      (QuadratureRuleCache.get_hit _ ⟨0, 2, .GaussLegendre⟩ _ r
        (QuadratureRuleCache.find_cons_self [] _ r))
  · obtain ⟨r, hr⟩ := SimplexQuadratureRule3.ok_of_inside3 2 (by decide) (by decide)
    refine ⟨r, ?_, rfl⟩
    unfold QuadratureRuleFactory3.rule
    rw [if_pos ⟨rfl, Or.inl rfl, by decide⟩]
    exact hr

/-- C19: `QuadratureRules::rule` goes through the cache with the key
(t.id(), p, qt). On a miss the factory's rule is returned and stored under that
key; on a hit the stored rule is returned and the cache stays as it is,
whatever the factory would do; so a second call with the same arguments
returns the same stored rule and leaves the cache as it is, without the
factory; and no call changes what is stored under another key. -/
theorem QuadratureRules.rule_through_cache
    (factory : GeometryType → Int → QuadratureType → Except DuneError QuadratureRule)
    (c : QuadratureRuleCache) (t : GeometryType) (p : Int) (qt : QuadratureType) :
    (∀ r, c.find ⟨t.id, p, qt⟩ = none → factory t p qt = .ok r →
      QuadratureRules.rule factory c t p qt = (.ok r, (⟨t.id, p, qt⟩, r) :: c)) ∧
    (∀ r, c.find ⟨t.id, p, qt⟩ = some r →
      QuadratureRules.rule factory c t p qt = (.ok r, c)) ∧
    (∀ r, (QuadratureRules.rule factory c t p qt).1 = .ok r →
      (QuadratureRules.rule factory c t p qt).2.find ⟨t.id, p, qt⟩ = some r ∧
      ∀ factory', QuadratureRules.rule factory' (QuadratureRules.rule factory c t p qt).2 t p qt
        = (.ok r, (QuadratureRules.rule factory c t p qt).2)) ∧
    (∀ k', k' ≠ ⟨t.id, p, qt⟩ →
      (QuadratureRules.rule factory c t p qt).2.find k' = c.find k') := by
  refine ⟨?_, ?_, ?_, ?_⟩
  · intro r hmiss hf
    exact QuadratureRuleCache.get_miss_ok c _ _ r hmiss hf
  · intro r hhit
    exact QuadratureRuleCache.get_hit c _ _ r hhit
  · intro r hres
    have hstored : (QuadratureRules.rule factory c t p qt).2.find ⟨t.id, p, qt⟩ = some r := by
      cases hfind : c.find ⟨t.id, p, qt⟩ with
      | some r' =>
        have e := QuadratureRuleCache.get_hit c ⟨t.id, p, qt⟩ (fun _ => factory t p qt) r' hfind
        have e' : QuadratureRules.rule factory c t p qt = (.ok r', c) := e
        rw [e'] at hres ⊢
        have : r' = r := Except.ok.inj hres
        rw [← this]
        exact hfind
      | none =>
        cases hf : factory t p qt with
        | ok r' =>
          have e' : QuadratureRules.rule factory c t p qt
              = (.ok r', (⟨t.id, p, qt⟩, r') :: c) :=
            QuadratureRuleCache.get_miss_ok c ⟨t.id, p, qt⟩ (fun _ => factory t p qt) r' hfind hf
          rw [e'] at hres ⊢
          have : r' = r := Except.ok.inj hres
          rw [← this]
          exact QuadratureRuleCache.find_cons_self c _ r'
        | error e =>
          have e' : QuadratureRules.rule factory c t p qt = (.error e, c) :=
            QuadratureRuleCache.get_miss_error c ⟨t.id, p, qt⟩ (fun _ => factory t p qt) e hfind hf
          rw [e'] at hres
          exact Except.noConfusion hres
    exact ⟨hstored, fun factory' => QuadratureRuleCache.get_hit _ _ _ r hstored⟩
  · intro k' hne
    cases hfind : c.find ⟨t.id, p, qt⟩ with
    | some r' =>
      have e' : QuadratureRules.rule factory c t p qt = (.ok r', c) :=
        QuadratureRuleCache.get_hit c ⟨t.id, p, qt⟩ (fun _ => factory t p qt) r' hfind
      rw [e']
    | none =>
      cases hf : factory t p qt with
      | ok r' =>
        have e' : QuadratureRules.rule factory c t p qt
            = (.ok r', (⟨t.id, p, qt⟩, r') :: c) :=
          QuadratureRuleCache.get_miss_ok c ⟨t.id, p, qt⟩ (fun _ => factory t p qt) r' hfind hf
        rw [e']
        exact QuadratureRuleCache.find_cons_ne c _ k' r' hne
      | error e =>
        have e' : QuadratureRules.rule factory c t p qt = (.error e, c) :=
          QuadratureRuleCache.get_miss_error c ⟨t.id, p, qt⟩ (fun _ => factory t p qt) e hfind hf
        rw [e']

/-- C19 at a concrete input: on the empty cache the prism request at order 2
with GaussLegendre stores the prism table rule under (5, 2, GaussLegendre), and
the repeated request returns it even over a factory that always throws. -/
theorem QuadratureRules.rule_through_cache_witness :
    QuadratureRules.rule
        (QuadratureRuleFactory3.rule (TensorProductQuadratureRule.bounded 0 PointQuadratureRule))
        [] GeometryTypes.prism 2 .GaussLegendre
      = (.ok (PrismQuadratureRule 2), [(⟨5, 2, .GaussLegendre⟩, PrismQuadratureRule 2)]) ∧
    QuadratureRules.rule (fun _ _ _ => .error (DuneError.Exception "never called"))
        [(⟨5, 2, .GaussLegendre⟩, PrismQuadratureRule 2)] GeometryTypes.prism 2 .GaussLegendre
      = (.ok (PrismQuadratureRule 2), [(⟨5, 2, .GaussLegendre⟩, PrismQuadratureRule 2)]) :=
  ⟨(QuadratureRules.rule_through_cache
      (QuadratureRuleFactory3.rule (TensorProductQuadratureRule.bounded 0 PointQuadratureRule))
      [] GeometryTypes.prism 2 .GaussLegendre).1 (PrismQuadratureRule 2) rfl rfl,
   (QuadratureRules.rule_through_cache (fun _ _ _ => .error (DuneError.Exception "never called"))
      [(⟨5, 2, .GaussLegendre⟩, PrismQuadratureRule 2)] GeometryTypes.prism 2
      .GaussLegendre).2.1 (PrismQuadratureRule 2)
      (QuadratureRuleCache.find_cons_self [] ⟨5, 2, .GaussLegendre⟩ (PrismQuadratureRule 2))⟩

/-- C20: a failed build leaves the cache unchanged. If the factory raises e for
the request, the cache after `QuadratureRules::rule` is the cache before it;
when the key is not stored yet (so that the factory is called at all) the call
raises that same e and the key is still not stored; hence every later request
behaves as on the cache before the failed call. -/
theorem QuadratureRules.rule_failed_build
    (factory : GeometryType → Int → QuadratureType → Except DuneError QuadratureRule)
    (c : QuadratureRuleCache) (t : GeometryType) (p : Int) (qt : QuadratureType)
    (e : DuneError) (hf : factory t p qt = .error e) :
    (QuadratureRules.rule factory c t p qt).2 = c ∧
    (c.find ⟨t.id, p, qt⟩ = none →
      QuadratureRules.rule factory c t p qt = (.error e, c) ∧
      (QuadratureRules.rule factory c t p qt).2.find ⟨t.id, p, qt⟩ = none) ∧
    (∀ factory' t' p' qt',
      QuadratureRules.rule factory' (QuadratureRules.rule factory c t p qt).2 t' p' qt'
        = QuadratureRules.rule factory' c t' p' qt') := by
  have hc : (QuadratureRules.rule factory c t p qt).2 = c := by
    cases hfind : c.find ⟨t.id, p, qt⟩ with
    | some r' =>
      have e' : QuadratureRules.rule factory c t p qt = (.ok r', c) :=
        QuadratureRuleCache.get_hit c ⟨t.id, p, qt⟩ (fun _ => factory t p qt) r' hfind
      rw [e']
    | none =>
      have e' : QuadratureRules.rule factory c t p qt = (.error e, c) :=
        QuadratureRuleCache.get_miss_error c ⟨t.id, p, qt⟩ (fun _ => factory t p qt) e hfind hf
      rw [e']
  refine ⟨hc, ?_, ?_⟩
  · intro hfind
    have e' : QuadratureRules.rule factory c t p qt = (.error e, c) :=
      QuadratureRuleCache.get_miss_error c ⟨t.id, p, qt⟩ (fun _ => factory t p qt) e hfind hf
    rw [e']
    exact ⟨rfl, hfind⟩
  · intro factory' t' p' qt'
    rw [hc]

/-- C20 at a concrete input: on a cache holding the prism rule, the triangle
request at order 13 over a builder of maximal order 0 raises
QuadratureOrderOutOfRange and leaves the cache as it was. -/
theorem QuadratureRules.rule_failed_build_witness :
    QuadratureRules.rule
        (QuadratureRuleFactory2.rule (TensorProductQuadratureRule.bounded 0 PointQuadratureRule))
        [(⟨5, 2, .GaussLegendre⟩, PrismQuadratureRule 2)] GeometryTypes.triangle 13 .GaussLegendre
      = (.error (.QuadratureOrderOutOfRange 13),
          [(⟨5, 2, .GaussLegendre⟩, PrismQuadratureRule 2)]) :=
  ((QuadratureRules.rule_failed_build
      (QuadratureRuleFactory2.rule (TensorProductQuadratureRule.bounded 0 PointQuadratureRule))
      [(⟨5, 2, .GaussLegendre⟩, PrismQuadratureRule 2)] GeometryTypes.triangle 13 .GaussLegendre
      (.QuadratureOrderOutOfRange 13) rfl).2.1
    (QuadratureRuleCache.find_cons_ne [] ⟨5, 2, .GaussLegendre⟩ ⟨0, 13, .GaussLegendre⟩
      (PrismQuadratureRule 2) (by decide))).1

/-! ## Maximality of the declared order (C22) -/

/-- C22: reading the literals as exact rationals, each of the triangle rules of
order 2 and 3 and of the tetrahedron rules of order 1 (requests 0 and 1) and 3
has a monomial of total degree order()+1 that it does not integrate exactly:
x^3 for the triangle rule of order 2, x^4 for the one of order 3, x^2 for the
tetrahedron rule of order 1 and x^4 for the one of order 3. -/
theorem closedForm_order_is_maximal :
    (∃ r, SimplexQuadratureRule2 2 = .ok r ∧ r.order = 2 ∧
      ∃ a b : ℕ, ((a + b : ℕ) : Int) = r.order + 1 ∧
        r.integrate [a, b] ≠ (a.factorial * b.factorial : ℚ) / (a + b + 2).factorial) ∧
    (∃ r, SimplexQuadratureRule2 3 = .ok r ∧ r.order = 3 ∧
      ∃ a b : ℕ, ((a + b : ℕ) : Int) = r.order + 1 ∧
        r.integrate [a, b] ≠ (a.factorial * b.factorial : ℚ) / (a + b + 2).factorial) ∧
    (∀ p : Fin 2, ∃ r, SimplexQuadratureRule3 ((p : ℕ) : Int) = .ok r ∧ r.order = 1 ∧
      ∃ a b c : ℕ, ((a + b + c : ℕ) : Int) = r.order + 1 ∧
        r.integrate [a, b, c]
          ≠ (a.factorial * b.factorial * c.factorial : ℚ) / (a + b + c + 3).factorial) ∧
    (∃ r, SimplexQuadratureRule3 3 = .ok r ∧ r.order = 3 ∧
      ∃ a b c : ℕ, ((a + b + c : ℕ) : Int) = r.order + 1 ∧
        r.integrate [a, b, c]
          ≠ (a.factorial * b.factorial * c.factorial : ℚ) / (a + b + c + 3).factorial) := by
  refine ⟨?_, ?_, ?_, ?_⟩
  · obtain ⟨r, hr, ho, hd⟩ := holdsOn_dec SimplexQuadratureRule2.triangle_inexact_aux.1
    refine ⟨r, hr, ho, 3, 0, by rw [ho]; rfl, fun h => ?_⟩
    have hd' : r.integrate [3, 0]
        - (Nat.factorial 3 * Nat.factorial 0 : ℚ) / (Nat.factorial (3 + 0 + 2)) = 1 / 1080 := hd
    rw [h, sub_self] at hd'
    norm_num at hd'
  · obtain ⟨r, hr, ho, hd⟩ := holdsOn_dec SimplexQuadratureRule2.triangle_inexact_aux.2
    refine ⟨r, hr, ho, 4, 0, by rw [ho]; rfl, fun h => ?_⟩
    have hd' : r.integrate [4, 0]
        - (Nat.factorial 4 * Nat.factorial 0 : ℚ) / (Nat.factorial (4 + 0 + 2)) = -1 / 450 := hd
    rw [h, sub_self] at hd'
    norm_num at hd'
  · intro p
    obtain ⟨r, hr, ho, hd⟩ := holdsOn_dec (SimplexQuadratureRule3.tetrahedron_inexact_aux.1 p)
    refine ⟨r, hr, ho, 2, 0, 0, by rw [ho]; rfl, fun h => ?_⟩
    have hd' : r.integrate [2, 0, 0]
        - (Nat.factorial 2 * Nat.factorial 0 * Nat.factorial 0 : ℚ)
            / (Nat.factorial (2 + 0 + 0 + 3)) = -1 / 160 := hd
    rw [h, sub_self] at hd'
    norm_num at hd'
  · obtain ⟨r, hr, ho, hd⟩ := holdsOn_dec SimplexQuadratureRule3.tetrahedron_inexact_aux.2
    refine ⟨r, hr, ho, 4, 0, 0, by rw [ho]; rfl, fun h => ?_⟩
    have hd' : r.integrate [4, 0, 0]
        - (Nat.factorial 4 * Nat.factorial 0 * Nat.factorial 0 : ℚ)
            / (Nat.factorial (4 + 0 + 0 + 3)) = 1 / 1260 := hd
    rw [h, sub_self] at hd'
    norm_num at hd'

/-! ## Default rule, empty prism rule, table shape (C23, C24, C25) -/

/-- C23: a default-constructed QuadratureRule has no points and order() = -1,
and no rule that a closed-form path returns declares order -1: not the vertex
rule, not a rule returned by the triangle or the tetrahedron table, not the
prism rule. -/
theorem closedForm_order_not_invalid (t0 : GeometryType) (p : Int) :
    (QuadratureRule.defaultConstructed t0).points = [] ∧
    (QuadratureRule.defaultConstructed t0).order = -1 ∧
    PointQuadratureRule.order ≠ -1 ∧
    (∀ r, SimplexQuadratureRule2 p = .ok r → r.order ≠ -1) ∧
    (∀ r, SimplexQuadratureRule3 p = .ok r → r.order ≠ -1) ∧
    (PrismQuadratureRule p).order ≠ -1 := by
  refine ⟨rfl, rfl, by decide, ?_, ?_, ?_⟩
  · intro r hr
    have hin : 0 ≤ p ∧ p ≤ 12 := by
      by_contra hc
      rw [SimplexQuadratureRule2.error_of_outside p (by omega)] at hr
      exact Except.noConfusion hr
    obtain ⟨n, rfl⟩ := Int.eq_ofNat_of_zero_le hin.1
    have hn : n < 13 := by omega
    obtain ⟨r', hr', ho⟩ :=
      holdsOn_dec (SimplexQuadratureRule2.triangle_order_pos_aux ⟨n, hn⟩)
    have e : r' = r := Except.ok.inj (hr'.symm.trans hr)
    subst e
    omega
  · intro r hr
    have hin : 0 ≤ p ∧ p ≤ 5 := by
      by_contra hc
      rw [SimplexQuadratureRule3.error_of_outside3 p (by omega)] at hr
      exact Except.noConfusion hr
    obtain ⟨n, rfl⟩ := Int.eq_ofNat_of_zero_le hin.1
    have hn : n < 6 := by omega
    obtain ⟨r', hr', ho⟩ :=
      holdsOn_dec (SimplexQuadratureRule3.tetrahedron_order_pos_aux ⟨n, hn⟩)
    have e : r' = r := Except.ok.inj (hr'.symm.trans hr)
    subst e
    omega
  · unfold PrismQuadratureRule
    split <;> decide

/-- C23 at concrete inputs: the rules of the triangle request 0 and of the
tetrahedron request 4 are returned with an order other than -1. -/
theorem closedForm_order_not_invalid_witness :
    (∃ r, SimplexQuadratureRule2 0 = .ok r ∧ r.order ≠ -1) ∧
    (∃ r, SimplexQuadratureRule3 4 = .ok r ∧ r.order ≠ -1) :=
  ⟨⟨_, rfl, (closedForm_order_not_invalid GeometryTypes.vertex 0).2.2.2.1 _ rfl⟩,
   ⟨_, rfl, (closedForm_order_not_invalid GeometryTypes.vertex 4).2.2.2.2.1 _ rfl⟩⟩

/-- C24 evaluated on the code: for a prism with GaussLegendre and a negative
order the dimension-3 factory returns the prism rule with no point at all
(type prism, order 2), for every builder: the test p ≤ 2 passes, and the
prism constructor's `switch` has no label for the order and no `default`. For
the orders 0, 1, 2 the returned rule has 6 points. -/
theorem QuadratureRuleFactory3.prism_negative_order_empty :
    (∀ (tp : TensorProductQuadratureRule) (p : Int), p < 0 →
      QuadratureRuleFactory3.rule tp GeometryTypes.prism p .GaussLegendre
        = .ok ⟨GeometryTypes.prism, 2, []⟩) ∧
    (∀ tp : TensorProductQuadratureRule, ∃ r,
      QuadratureRuleFactory3.rule tp GeometryTypes.prism (-1) .GaussLegendre = .ok r ∧
        r.size = 0) ∧
    (∀ (tp : TensorProductQuadratureRule) (p : Fin 3), ∃ r,
      QuadratureRuleFactory3.rule tp GeometryTypes.prism ((p : ℕ) : Int) .GaussLegendre = .ok r ∧
        r.size = 6) := by
  have key : ∀ (tp : TensorProductQuadratureRule) (p : Int), p ≤ 2 →
      QuadratureRuleFactory3.rule tp GeometryTypes.prism p .GaussLegendre
        = .ok (PrismQuadratureRule p) := by
    intro tp p hp
    unfold QuadratureRuleFactory3.rule
    rw [if_neg (fun c => Bool.noConfusion c.1), if_pos ⟨rfl, rfl, hp⟩]
  refine ⟨?_, ?_, ?_⟩
  · intro tp p hp
    rw [key tp p (by omega), PrismQuadratureRule.empty_of_outside p (Or.inl hp)]
  · intro tp
    exact ⟨_, key tp (-1) (by decide), rfl⟩
  · intro tp p
    refine ⟨_, key tp _ (by omega), (PrismQuadratureRule.prism_shape_aux p).1⟩

/-- C25: for the requests 0..12 the triangle table has 1, 1, 3, 4, 6, 7, 12,
12, 16, 19, 25, 28, 33 points with declared orders 1, 1, 2, ..., 12; for 0..5
the tetrahedron table has 1, 1, 4, 8, 15, 15 points with orders 1, 1, 2, 3, 5,
5; for 0..2 the prism table has 6 points with order 2. In each case the vector
is resized to that number of points, every index written is below the resized
length, no index is written twice and every index below the length is
written. -/
theorem closedForm_table_shape (p : Int) (h0 : 0 ≤ p) :
    (p ≤ 12 → ∃ r, SimplexQuadratureRule2 p = .ok r ∧
      r.size = ([1, 1, 3, 4, 6, 7, 12, 12, 16, 19, 25, 28, 33] : List ℕ).getD p.toNat 0 ∧
      r.order = ([1, 1, 2, 3, 4, 5, 6, 7, 8, 9, 10, 11, 12] : List Int).getD p.toNat 0 ∧
      SimplexQuadratureRule2.resized p = r.size ∧
      (∀ i ∈ SimplexQuadratureRule2.written p, i < SimplexQuadratureRule2.resized p) ∧
      (SimplexQuadratureRule2.written p).Nodup ∧
      (∀ i, i < SimplexQuadratureRule2.resized p → i ∈ SimplexQuadratureRule2.written p)) ∧
    (p ≤ 5 → ∃ r, SimplexQuadratureRule3 p = .ok r ∧
      r.size = ([1, 1, 4, 8, 15, 15] : List ℕ).getD p.toNat 0 ∧
      r.order = ([1, 1, 2, 3, 5, 5] : List Int).getD p.toNat 0 ∧
      SimplexQuadratureRule3.resized p = r.size ∧
      (∀ i ∈ SimplexQuadratureRule3.written p, i < SimplexQuadratureRule3.resized p) ∧
      (SimplexQuadratureRule3.written p).Nodup ∧
      (∀ i, i < SimplexQuadratureRule3.resized p → i ∈ SimplexQuadratureRule3.written p)) ∧
    (p ≤ 2 →
      (PrismQuadratureRule p).size = 6 ∧ (PrismQuadratureRule p).order = 2 ∧
      PrismQuadratureRule.resized p = (PrismQuadratureRule p).size ∧
      (∀ i ∈ PrismQuadratureRule.written p, i < PrismQuadratureRule.resized p) ∧
      (PrismQuadratureRule.written p).Nodup ∧
      (∀ i, i < PrismQuadratureRule.resized p → i ∈ PrismQuadratureRule.written p)) := by
  obtain ⟨n, rfl⟩ := Int.eq_ofNat_of_zero_le h0
  refine ⟨?_, ?_, ?_⟩
  · intro h1
    obtain ⟨r, hr, hs, ho, hz, hw⟩ :=
      holdsOn_dec (SimplexQuadratureRule2.triangle_shape_aux ⟨n, by omega⟩)
    refine ⟨r, hr, hs, ho, hz, ?_, ?_, ?_⟩
    · intro i hi
      rw [hw] at hi
      rw [hz]
      exact List.mem_range.1 hi
    · rw [hw]
      exact List.nodup_range _
    · intro i hi
      rw [hw]
      rw [hz] at hi
      exact List.mem_range.2 hi
  · intro h1
    obtain ⟨r, hr, hs, ho, hz, hw⟩ :=
      holdsOn_dec (SimplexQuadratureRule3.tetrahedron_shape_aux ⟨n, by omega⟩)
    refine ⟨r, hr, hs, ho, hz, ?_, ?_, ?_⟩
    · intro i hi
      rw [hw] at hi
      rw [hz]
      exact List.mem_range.1 hi
    · rw [hw]
      exact List.nodup_range _
    · intro i hi
      rw [hw]
      rw [hz] at hi
      exact List.mem_range.2 hi
  · intro h1
    obtain ⟨hs, ho, hz, hw⟩ := PrismQuadratureRule.prism_shape_aux ⟨n, by omega⟩
    have hz' : PrismQuadratureRule.resized (n : Int) = 6 := hz
    have hw' : PrismQuadratureRule.written (n : Int) = List.range 6 := hw
    refine ⟨hs, ho, hz'.trans hs.symm, ?_, ?_, ?_⟩
    · intro i hi
      rw [hw'] at hi
      rw [hz']
      exact List.mem_range.1 hi
    · rw [hw']
      exact List.nodup_range _
    · intro i hi
      rw [hw']
      rw [hz'] at hi
      exact List.mem_range.2 hi

/-- C25 at concrete inputs: the triangle request 12 gives 33 points of order 12,
the tetrahedron request 4 gives 15 points of order 5, the prism request 1 gives
6 points of order 2. -/
theorem closedForm_table_shape_witness :
    (∃ r, SimplexQuadratureRule2 12 = .ok r ∧ r.size = 33 ∧ r.order = 12) ∧
    (∃ r, SimplexQuadratureRule3 4 = .ok r ∧ r.size = 15 ∧ r.order = 5) ∧
    ((PrismQuadratureRule 1).size = 6 ∧ (PrismQuadratureRule 1).order = 2) :=
  ⟨((closedForm_table_shape 12 (by decide)).1 (by decide)).imp
      fun _ h => ⟨h.1, h.2.1, h.2.2.1⟩,
   ((closedForm_table_shape 4 (by decide)).2.1 (by decide)).imp
      fun _ h => ⟨h.1, h.2.1, h.2.2.1⟩,
   ⟨((closedForm_table_shape 1 (by decide)).2.2 (by decide)).1,
    ((closedForm_table_shape 1 (by decide)).2.2 (by decide)).2.1⟩⟩

/-! ## Location of the points and sign of the weights (C26, C27, C28) -/

/-- C26: reading the literals as exact decimals, every point of every
closed-form rule lies in the closed reference element: x ≥ 0, y ≥ 0, x + y ≤ 1
for the triangle requests 0..12; x, y, z ≥ 0 and x + y + z ≤ 1 for the
tetrahedron requests 0..5; x, y ≥ 0, x + y ≤ 1 and 0 ≤ z ≤ 1 for the prism
requests 0..2. -/
theorem closedForm_points_in_reference_element (p : Int) (h0 : 0 ≤ p) :
    (p ≤ 12 → ∃ r, SimplexQuadratureRule2 p = .ok r ∧
      ∀ q ∈ r.points, q.position.length = 2 ∧
        0 ≤ q.coord 0 ∧ 0 ≤ q.coord 1 ∧ q.coord 0 + q.coord 1 ≤ 1) ∧
    (p ≤ 5 → ∃ r, SimplexQuadratureRule3 p = .ok r ∧
      ∀ q ∈ r.points, q.position.length = 3 ∧
        0 ≤ q.coord 0 ∧ 0 ≤ q.coord 1 ∧ 0 ≤ q.coord 2 ∧
        q.coord 0 + q.coord 1 + q.coord 2 ≤ 1) ∧
    (p ≤ 2 → ∀ q ∈ (PrismQuadratureRule p).points, q.position.length = 3 ∧
        0 ≤ q.coord 0 ∧ 0 ≤ q.coord 1 ∧ q.coord 0 + q.coord 1 ≤ 1 ∧
        0 ≤ q.coord 2 ∧ q.coord 2 ≤ 1) := by
  obtain ⟨n, rfl⟩ := Int.eq_ofNat_of_zero_le h0
  refine ⟨?_, ?_, ?_⟩
  · intro h1
    exact holdsOn_dec (SimplexQuadratureRule2.triangle_closed_aux ⟨n, by omega⟩)
  · intro h1
    exact holdsOn_dec (SimplexQuadratureRule3.tetrahedron_closed_aux ⟨n, by omega⟩)
  · intro h1
    exact PrismQuadratureRule.prism_closed_aux ⟨n, by omega⟩

/-- C26 at concrete inputs: the triangle request 11, the tetrahedron request 3
and the prism request 2. -/
theorem closedForm_points_in_reference_element_witness :
    (∃ r, SimplexQuadratureRule2 11 = .ok r ∧
      ∀ q ∈ r.points, q.position.length = 2 ∧
        0 ≤ q.coord 0 ∧ 0 ≤ q.coord 1 ∧ q.coord 0 + q.coord 1 ≤ 1) ∧
    (∃ r, SimplexQuadratureRule3 3 = .ok r ∧
      ∀ q ∈ r.points, q.position.length = 3 ∧
        0 ≤ q.coord 0 ∧ 0 ≤ q.coord 1 ∧ 0 ≤ q.coord 2 ∧
        q.coord 0 + q.coord 1 + q.coord 2 ≤ 1) ∧
    (∀ q ∈ (PrismQuadratureRule 2).points, q.position.length = 3 ∧
        0 ≤ q.coord 0 ∧ 0 ≤ q.coord 1 ∧ q.coord 0 + q.coord 1 ≤ 1 ∧
        0 ≤ q.coord 2 ∧ q.coord 2 ≤ 1) :=
  ⟨(closedForm_points_in_reference_element 11 (by decide)).1 (by decide),
   (closedForm_points_in_reference_element 3 (by decide)).2.1 (by decide),
   (closedForm_points_in_reference_element 2 (by decide)).2.2 (by decide)⟩

/-- C27 evaluated on the code: the triangle rules of order 6, 7, 8, 9, 10 and
12 have inner points only (x > 0, y > 0, x + y < 1), but the rule of order 11
has four points with a coordinate equal to 0, on the boundary of the
reference triangle: (0.8588..., 0), (0.1411..., 0), (0, 0.8588...) and
(0, 0.1411...). -/
theorem SimplexQuadratureRule2.order11_boundary_points :
    (∀ p : Int, 6 ≤ p → p ≤ 12 → p ≠ 11 →
      ∃ r, SimplexQuadratureRule2 p = .ok r ∧ r.order = p ∧
        ∀ q ∈ r.points, 0 < q.coord 0 ∧ 0 < q.coord 1 ∧ q.coord 0 + q.coord 1 < 1) ∧
    (∃ r, SimplexQuadratureRule2 11 = .ok r ∧ r.order = 11 ∧
      (r.points.filter (fun q => decide (q.coord 0 = 0 ∨ q.coord 1 = 0))).map
          QuadraturePoint.position
        = [[0.858870281282636704039173938058347, 0], [0.141129718717363295960826061941652, 0],
           [0, 0.858870281282636704039173938058347],
           [0, 0.141129718717363295960826061941652]]) := by
  refine ⟨?_, holdsOn_dec SimplexQuadratureRule2.triangle_boundary_aux⟩
  intro p h6 h12 h11
  obtain ⟨n, rfl⟩ : ∃ n : ℕ, p = (n : Int) + 6 := ⟨(p - 6).toNat, by omega⟩
  exact holdsOn_dec
    (SimplexQuadratureRule2.triangle_inner_aux ⟨n, by omega⟩ (by simp only []; omega))

/-- C28: every weight of the triangle rules of order 6 through 12 is strictly
positive; the rule of order 3 carries the negative weight 0.5 * -27/48 =
-9/32. -/
theorem SimplexQuadratureRule2.weights_positive (p : Int) (h6 : 6 ≤ p) (h12 : p ≤ 12) :
    (∃ r, SimplexQuadratureRule2 p = .ok r ∧ r.order = p ∧ ∀ q ∈ r.points, 0 < q.weight) ∧
    (∃ r, SimplexQuadratureRule2 3 = .ok r ∧ r.order = 3 ∧
      (r.points.map QuadraturePoint.weight).head? = some (-9 / 32)) := by
  obtain ⟨n, rfl⟩ : ∃ n : ℕ, p = (n : Int) + 6 := ⟨(p - 6).toNat, by omega⟩
  exact ⟨holdsOn_dec (SimplexQuadratureRule2.triangle_weights_aux.1 ⟨n, by omega⟩),
    holdsOn_dec SimplexQuadratureRule2.triangle_weights_aux.2⟩

/-- C28 at a concrete input: the triangle rule of order 11. -/
theorem SimplexQuadratureRule2.weights_positive_witness :
    ∃ r, SimplexQuadratureRule2 11 = .ok r ∧ r.order = 11 ∧ ∀ q ∈ r.points, 0 < q.weight :=
  (SimplexQuadratureRule2.weights_positive 11 (by decide) (by decide)).1

/-! ## Symmetry of the tables (C29, C30) -/

/-- C29 refuted as stated: reading the literals as exact decimals, the
triangle rule of order 5 changes as a multiset of (position, weight) pairs when
x and y are exchanged. Its point 1 is
(0.79742698535308732239802527616975, 0.1012865073234563388009873619151), with
a y that is one digit shorter than the x of its mirror point 2,
(0.10128650732345633880098736191512, 0.79742698535308732239802527616975), so
the mirror image of point 1 is no point of the rule. -/
theorem SimplexQuadratureRule2.order5_not_symmetric :
    ∃ r, SimplexQuadratureRule2 5 = .ok r ∧ r.order = 5 ∧
      ¬ List.Perm (r.points.map (QuadraturePoint.permute [1, 0])) r.points ∧
      (r.points.map QuadraturePoint.position).getD 1 []
        = [0.79742698535308732239802527616975, 0.1012865073234563388009873619151] ∧
      (r.points.map QuadraturePoint.position).getD 2 []
        = [0.10128650732345633880098736191512, 0.79742698535308732239802527616975] ∧
      [0.1012865073234563388009873619151, 0.79742698535308732239802527616975]
        ∉ r.points.map QuadraturePoint.position :=
  holdsOn_dec SimplexQuadratureRule2.triangle_asymmetric_aux

/-- C29 as amended: reading the literals as exact decimals, the triangle rules
of order 2, 3 and 4 are unchanged as multisets of (position, weight) pairs
when x and y are exchanged. The rule of order 5 is unchanged under the
exchange in the values the code stores, each literal rounded to `double` and
each weight the `double` product of 0.5 and a literal: these are the entries
of the table rounded to `double`, and the y of point 1 and the x of point 2,
which differ by 2 * 10^-32 as exact decimals, are the same `double`. -/
theorem SimplexQuadratureRule2.symmetric_orders :
    (∀ p : Fin 3, ∃ r, SimplexQuadratureRule2 (((p : ℕ) : Int) + 2) = .ok r ∧
      r.order = ((p : ℕ) : Int) + 2 ∧
      List.Perm (r.points.map (QuadraturePoint.permute [1, 0])) r.points) ∧
    SimplexQuadratureRule2.case5_double.order = 5 ∧
    List.Perm (SimplexQuadratureRule2.case5_double.points.map (QuadraturePoint.permute [1, 0]))
      SimplexQuadratureRule2.case5_double.points ∧
    (∃ r, SimplexQuadratureRule2 5 = .ok r ∧
      SimplexQuadratureRule2.case5_double
        = ⟨r.type_, r.order_, r.points.map (fun q =>
            ⟨q.local_.map Double.round, Double.round q.weight_⟩)⟩ ∧
      ((r.points.map QuadraturePoint.position).getD 2 []).getD 0 0
        - ((r.points.map QuadraturePoint.position).getD 1 []).getD 1 0 = 2 / 10 ^ 32) ∧
    Double.lit 0.1012865073234563388009873619151
      = Double.lit 0.10128650732345633880098736191512 := by
  obtain ⟨r, hr, he, hdiff⟩ := holdsOn_dec SimplexQuadratureRule2.case5_rounded_aux
  refine ⟨fun p => holdsOn_dec (SimplexQuadratureRule2.triangle_symmetric_aux p), ?_, ?_,
    ⟨r, hr, ?_, hdiff⟩, ?_⟩
  · rw [SimplexQuadratureRule2.case5_double_aux]
    rfl
  · rw [SimplexQuadratureRule2.case5_double_aux]
    exact SimplexQuadratureRule2.case5_double_symmetric_aux
  · rw [SimplexQuadratureRule2.case5_double_aux, he]
  · have h := SimplexQuadratureRule2.case5_double_aux
    have h1 := congrArg (fun r : QuadratureRule =>
      ((r.points.map QuadraturePoint.position).getD 1 []).getD 1 0) h
    have h2 := congrArg (fun r : QuadratureRule =>
      ((r.points.map QuadraturePoint.position).getD 2 []).getD 0 0) h
    exact h1.trans h2.symm

/-- C30: the tetrahedron rules of order 2, 3 and 5 (requests 2, 3, 4, 5) are
unchanged as multisets of (position, weight) pairs under each of the six
permutations of the three coordinates. -/
theorem SimplexQuadratureRule3.symmetric (p : Int) (h2 : 2 ≤ p) (h5 : p ≤ 5) :
    ∃ r, SimplexQuadratureRule3 p = .ok r ∧
      r.order = ([2, 3, 5, 5] : List Int).getD (p - 2).toNat 0 ∧
      ∀ σ ∈ ([[0, 1, 2], [0, 2, 1], [1, 0, 2], [1, 2, 0], [2, 0, 1], [2, 1, 0]] : List (List ℕ)),
        List.Perm (r.points.map (QuadraturePoint.permute σ)) r.points := by
  obtain ⟨n, rfl⟩ : ∃ n : ℕ, p = (n : Int) + 2 := ⟨(p - 2).toNat, by omega⟩
  have hn : n < 4 := by omega
  have e : ((n : Int) + 2 - 2).toNat = n := by omega
  rw [e]
  exact holdsOn_dec (SimplexQuadratureRule3.tetrahedron_symmetric_aux ⟨n, hn⟩)

/-- C30 at a concrete input: the order-5 rule (request 4) under the exchange
of x and z. -/
theorem SimplexQuadratureRule3.symmetric_witness :
    ∃ r, SimplexQuadratureRule3 4 = .ok r ∧
      List.Perm (r.points.map (QuadraturePoint.permute [2, 1, 0])) r.points :=
  (SimplexQuadratureRule3.symmetric 4 (by decide) (by decide)).imp
    fun _ h => ⟨h.1, h.2.2 [2, 1, 0] (by decide)⟩

/-! ## Re-request at the declared order (C31) -/

/-- C31: re-requesting a closed-form rule at its own declared order is
idempotent. For a simplex with GaussLegendre or GaussJacobi_n_0 and p in 0..12
(dimension 2) or p in 0..5 (dimension 3), and for a prism with GaussLegendre
and p in 0..2, the factory returns a rule r; the request at the order q =
r.order is again answered by the same table, and the rule it returns is r
itself: the same points, the same weights and the same declared order q. -/
theorem closedForm_rerequest_idempotent (tp : TensorProductQuadratureRule) (t : GeometryType)
    (p : Int) (qt : QuadratureType) (h0 : 0 ≤ p) :
    (t.isSimplex = true →
      (qt = QuadratureType.GaussLegendre ∨ qt = QuadratureType.GaussJacobi_n_0) → p ≤ 12 →
      ∃ r, QuadratureRuleFactory2.rule tp t p qt = .ok r ∧
        QuadratureRuleFactory2.rule tp t r.order qt = SimplexQuadratureRule2 r.order ∧
        QuadratureRuleFactory2.rule tp t r.order qt = .ok r) ∧
    (t.isSimplex = true →
      (qt = QuadratureType.GaussLegendre ∨ qt = QuadratureType.GaussJacobi_n_0) → p ≤ 5 →
      ∃ r, QuadratureRuleFactory3.rule tp t p qt = .ok r ∧
        QuadratureRuleFactory3.rule tp t r.order qt = SimplexQuadratureRule3 r.order ∧
        QuadratureRuleFactory3.rule tp t r.order qt = .ok r) ∧
    (t.isSimplex = false → t.isPrism = true → qt = QuadratureType.GaussLegendre → p ≤ 2 →
      ∃ r, QuadratureRuleFactory3.rule tp t p qt = .ok r ∧
        QuadratureRuleFactory3.rule tp t r.order qt = .ok (PrismQuadratureRule r.order) ∧
        QuadratureRuleFactory3.rule tp t r.order qt = .ok r) := by
  refine ⟨?_, ?_, ?_⟩
  · intro hs hq hp
    have key : ∀ q : Int, q ≤ 12 →
        QuadratureRuleFactory2.rule tp t q qt = SimplexQuadratureRule2 q := by
      intro q hq12
      unfold QuadratureRuleFactory2.rule
      rw [if_pos ⟨hs, hq, hq12⟩]
    interval_cases p <;>
      exact ⟨_, (key _ (by decide)).trans rfl, key _ (by decide), (key _ (by decide)).trans rfl⟩
  · intro hs hq hp
    have key : ∀ q : Int, q ≤ 5 →
        QuadratureRuleFactory3.rule tp t q qt = SimplexQuadratureRule3 q := by
      intro q hq5
      unfold QuadratureRuleFactory3.rule
      rw [if_pos ⟨hs, hq, hq5⟩]
    interval_cases p <;>
      exact ⟨_, (key _ (by decide)).trans rfl, key _ (by decide), (key _ (by decide)).trans rfl⟩
  · intro hs hpr hq hp
    have key : ∀ q : Int, q ≤ 2 →
        QuadratureRuleFactory3.rule tp t q qt = .ok (PrismQuadratureRule q) := by
      intro q hq2
      unfold QuadratureRuleFactory3.rule
      rw [if_neg (fun c => by rw [hs] at c; exact Bool.noConfusion c.1), if_pos ⟨hpr, hq, hq2⟩]
    interval_cases p <;>
      exact ⟨_, key _ (by decide), key _ (by decide), (key _ (by decide)).trans rfl⟩

/-- C31 at concrete inputs: the triangle request 0 returns the rule of order 1,
which the request 1 returns again; the tetrahedron request 4 returns the rule
of order 5, which the request 5 returns again; the prism request 1 returns the
rule of order 2, which the request 2 returns again. -/
theorem closedForm_rerequest_idempotent_witness :
    (∃ r, QuadratureRuleFactory2.rule (TensorProductQuadratureRule.bounded 0 PointQuadratureRule)
          GeometryTypes.triangle 0 .GaussLegendre = .ok r ∧
        QuadratureRuleFactory2.rule (TensorProductQuadratureRule.bounded 0 PointQuadratureRule)
          GeometryTypes.triangle r.order .GaussLegendre = SimplexQuadratureRule2 r.order ∧
        QuadratureRuleFactory2.rule (TensorProductQuadratureRule.bounded 0 PointQuadratureRule)
          GeometryTypes.triangle r.order .GaussLegendre = .ok r) ∧
    (∃ r, QuadratureRuleFactory3.rule (TensorProductQuadratureRule.bounded 0 PointQuadratureRule)
          GeometryTypes.tetrahedron 4 .GaussJacobi_n_0 = .ok r ∧
        QuadratureRuleFactory3.rule (TensorProductQuadratureRule.bounded 0 PointQuadratureRule)
          GeometryTypes.tetrahedron r.order .GaussJacobi_n_0 = SimplexQuadratureRule3 r.order ∧
        QuadratureRuleFactory3.rule (TensorProductQuadratureRule.bounded 0 PointQuadratureRule)
          GeometryTypes.tetrahedron r.order .GaussJacobi_n_0 = .ok r) ∧
    (∃ r, QuadratureRuleFactory3.rule (TensorProductQuadratureRule.bounded 0 PointQuadratureRule)
          GeometryTypes.prism 1 .GaussLegendre = .ok r ∧
        QuadratureRuleFactory3.rule (TensorProductQuadratureRule.bounded 0 PointQuadratureRule)
          GeometryTypes.prism r.order .GaussLegendre = .ok (PrismQuadratureRule r.order) ∧
        QuadratureRuleFactory3.rule (TensorProductQuadratureRule.bounded 0 PointQuadratureRule)
          GeometryTypes.prism r.order .GaussLegendre = .ok r) :=
  ⟨(closedForm_rerequest_idempotent _ GeometryTypes.triangle 0 .GaussLegendre (by decide)).1
      rfl (Or.inl rfl) (by decide),
   (closedForm_rerequest_idempotent _ GeometryTypes.tetrahedron 4 .GaussJacobi_n_0
      (by decide)).2.1 rfl (Or.inr rfl) (by decide),
   (closedForm_rerequest_idempotent _ GeometryTypes.prism 1 .GaussLegendre (by decide)).2.2
      rfl rfl rfl (by decide)⟩

namespace HCubeArbitraryRefinement

/-! ## Hypercube refinement: counts and index round trip (C32, C33) -/

/-- C32: in every dimension d and for every n, nVertices(n) is (n+1)^d and
nElements(n) is n^d as unsigned values, that is modulo 2^32; vBegin and eBegin
carry the index 0, vEnd and eEnd carry nVertices(n) and nElements(n); the
begin iterator incremented exactly that many times equals the end iterator,
and incremented fewer times it does not. -/
theorem RefinementImp.counts (d n : Nat) :
    RefinementImp.nVertices d n = (n + 1) ^ d % 2 ^ 32 ∧
    RefinementImp.nElements d n = n ^ d % 2 ^ 32 ∧
    (RefinementImp.vBegin n)._index = 0 ∧ (RefinementImp.eBegin n)._index = 0 ∧
    (RefinementImp.vEnd d n)._index = RefinementImp.nVertices d n ∧
    (RefinementImp.eEnd d n)._index = RefinementImp.nElements d n ∧
    (SubEntityIterator.increment^[RefinementImp.nVertices d n] (RefinementImp.vBegin n)).equals
      (RefinementImp.vEnd d n) = true ∧
    (∀ k, k < RefinementImp.nVertices d n →
      (SubEntityIterator.increment^[k] (RefinementImp.vBegin n)).equals
        (RefinementImp.vEnd d n) = false) ∧
    (SubEntityIterator.increment^[RefinementImp.nElements d n] (RefinementImp.eBegin n)).equals
      (RefinementImp.eEnd d n) = true ∧
    (∀ k, k < RefinementImp.nElements d n →
      (SubEntityIterator.increment^[k] (RefinementImp.eBegin n)).equals
        (RefinementImp.eEnd d n) = false) := by
  have hM : UINT_RANGE = 2 ^ 32 := by decide
  have hv : RefinementImp.nVertices d n = (n + 1) ^ d % 2 ^ 32 := by
    unfold RefinementImp.nVertices
    rw [Power.eval_eq, hM, ← Nat.pow_mod]
  have he : RefinementImp.nElements d n = n ^ d % 2 ^ 32 := by
    unfold RefinementImp.nElements
    rw [Power.eval_eq, hM]
  have hvlt : RefinementImp.nVertices d n < UINT_RANGE := by
    rw [hv, hM]
    exact Nat.mod_lt _ (by decide)
  have helt : RefinementImp.nElements d n < UINT_RANGE := by
    rw [he, hM]
    exact Nat.mod_lt _ (by decide)
  refine ⟨hv, he, rfl, rfl, rfl, rfl, ?_, ?_, ?_, ?_⟩
  · unfold RefinementImp.vBegin RefinementImp.vEnd
    rw [SubEntityIterator.iterate_increment_begin _ _ hvlt]
    simp [SubEntityIterator.equals]
  · intro k hk
    unfold RefinementImp.vBegin RefinementImp.vEnd
    rw [SubEntityIterator.iterate_increment_begin _ _ (by omega)]
    simp only [SubEntityIterator.equals, beq_self_eq_true, Bool.and_true, beq_eq_false_iff_ne]
    omega
  · unfold RefinementImp.eBegin RefinementImp.eEnd
    rw [SubEntityIterator.iterate_increment_begin _ _ helt]
    simp [SubEntityIterator.equals]
  · intro k hk
    unfold RefinementImp.eBegin RefinementImp.eEnd
    rw [SubEntityIterator.iterate_increment_begin _ _ (by omega)]
    simp only [SubEntityIterator.equals, beq_self_eq_true, Bool.and_true, beq_eq_false_iff_ne]
    omega

/-- C32 at a concrete input: dimension 2, n = 3: 16 vertices and 9 elements;
after 5 increments the vertex iterator is not at the end. -/
theorem RefinementImp.counts_witness :
    RefinementImp.nVertices 2 3 = 16 ∧ RefinementImp.nElements 2 3 = 9 ∧
    (SubEntityIterator.increment^[5] (RefinementImp.vBegin 3)).equals
      (RefinementImp.vEnd 2 3) = false :=
  ⟨(RefinementImp.counts 2 3).1, (RefinementImp.counts 2 3).2.1,
   (RefinementImp.counts 2 3).2.2.2.2.2.2.2.1 5 (by decide)⟩

/-- C33 refuted as stated: in dimension 2 with the width w = 65537 the tuple
(0, 65536) has both components below w, but coord2idx wraps around (65536 *
65537 = 2^32 + 65536) and returns 65536, whose coordinates are (65536, 0). -/
theorem SubEntityIterator.coord2idx_wraps :
    (∀ x ∈ [0, 65536], x < 65537) ∧
    SubEntityIterator.coord2idx [0, 65536] 65537 = 65536 ∧
    SubEntityIterator.idx2coord 2 (SubEntityIterator.coord2idx [0, 65536] 65537) 65537
      = some [65536, 0] ∧
    SubEntityIterator.idx2coord 2 (SubEntityIterator.coord2idx [0, 65536] 65537) 65537
      ≠ some [0, 65536] := by
  decide

/-- C33 as amended: in every dimension d and for every width w ≥ 1, idx2coord
divides by nothing but w and returns; for every unsigned idx < w^d its result
has d components, each below w, and coord2idx maps it back to idx; conversely,
when w^d does not exceed 2^32, every tuple c of d components below w satisfies
idx2coord(coord2idx(c, w), w) = c. -/
theorem SubEntityIterator.idx_coord_round_trip (d w : Nat) (hw : 1 ≤ w) :
    (∀ idx, ∃ c, SubEntityIterator.idx2coord d idx w = some c) ∧
    (∀ idx, idx < w ^ d → idx < 2 ^ 32 →
      ∃ c, SubEntityIterator.idx2coord d idx w = some c ∧ c.length = d ∧
        (∀ x ∈ c, x < w) ∧ SubEntityIterator.coord2idx c w = idx) ∧
    (∀ c : List Nat, c.length = d → (∀ x ∈ c, x < w) → w ^ d ≤ 2 ^ 32 →
      SubEntityIterator.idx2coord d (SubEntityIterator.coord2idx c w) w = some c) := by
  have hM : UINT_RANGE = 2 ^ 32 := by decide
  refine ⟨?_, ?_, ?_⟩
  · intro idx
    exact ⟨_, SubEntityIterator.idx2coord_eq_digits d idx w hw⟩
  · intro idx h1 h2
    refine ⟨digits d idx w, SubEntityIterator.idx2coord_eq_digits d idx w hw,
      digits_length d idx w, digits_lt d idx w hw, ?_⟩
    rw [SubEntityIterator.coord2idx_eq_horner_mod, horner_digits, Nat.mod_eq_of_lt h1, hM,
      Nat.mod_eq_of_lt h2]
  · intro c hlen hc hpow
    have hlt : horner c w < w ^ d := by
      rw [← hlen]
      exact horner_lt_pow c w hc
    rw [SubEntityIterator.coord2idx_eq_horner_mod, hM, Nat.mod_eq_of_lt (by omega),
      SubEntityIterator.idx2coord_eq_digits d _ w hw, ← hlen, digits_horner c w hc]

/-- C33 as amended, at a concrete input: dimension 2, width 3, index 7 has the
coordinates (1, 2), and the tuple (2, 1) has the index 5. -/
theorem SubEntityIterator.idx_coord_round_trip_witness :
    (∃ c, SubEntityIterator.idx2coord 2 7 3 = some c ∧ c.length = 2 ∧
      (∀ x ∈ c, x < 3) ∧ SubEntityIterator.coord2idx c 3 = 7) ∧
    SubEntityIterator.idx2coord 2 (SubEntityIterator.coord2idx [2, 1] 3) 3 = some [2, 1] :=
  ⟨(SubEntityIterator.idx_coord_round_trip 2 3 (by decide)).2.1 7 (by decide) (by decide),
   (SubEntityIterator.idx_coord_round_trip 2 3 (by decide)).2.2 [2, 1] rfl (by decide)
     (by decide)⟩

/-! ## Hypercube refinement: corner indices of an element (C34) -/

/-- C34 refuted as stated: in dimension 2 with n = 65535 the element 0 has the
corner indices 0, 1, 65536 and 65537, while nVertices(65535) = 65536^2 wraps
around to 0 as an unsigned value, so no entry is below nVertices(n). -/
theorem SubEntityIterator.vertexIndices_exceed_nVertices :
    0 < 65535 ^ 2 ∧
    SubEntityIterator.vertexIndices 2 ⟨0, 65535⟩ = some [0, 1, 65536, 65537] ∧
    RefinementImp.nVertices 2 65535 = 0 ∧
    ¬ (∀ x ∈ [0, 1, 65536, 65537], x < RefinementImp.nVertices 2 65535) := by
  decide

/-- C34 as amended: in every dimension d, for n ≥ 1 with n + 1 below 2^32 and
(n+1)^d at most 2^31, and every element index k < n^d, vertexIndices() returns
2^d pairwise distinct entries; entry i equals vertexIdx(cellCoord(k) +
idx2multiidx(i)), which is the sum of (alpha_i[j] + e[j]) * (n+1)^j, and is
below nVertices(n); the vertex with that index has vertexCoord() = cellCoord(k)
+ alpha_i and coords() = (cellCoord(k) + alpha_i) / n; the coords() of entry 0
are the lower corner and those of entry 2^d - 1 the upper corner given by
geometry(). -/
theorem SubEntityIterator.vertexIndices_corners (d n k : Nat) (hn : 1 ≤ n)
    (hnM : n + 1 < 2 ^ 32) (hpow : (n + 1) ^ d ≤ 2 ^ 31) (_hk : k < n ^ d) :
    ∃ e vec, SubEntityIterator.cellCoord d ⟨k, n⟩ = some e ∧
      SubEntityIterator.vertexIndices d ⟨k, n⟩ = some vec ∧
      vec.length = 2 ^ d ∧ vec.Nodup ∧
      (∀ i, i < 2 ^ d →
        vec.getD i 0 = SubEntityIterator.vertexIdx ⟨k, n⟩
          (List.zipWith (fun a b => a + b) (SubEntityIterator.idx2multiidx d i) e) ∧
        vec.getD i 0 = weightedSum
          (List.zipWith (fun a b => a + b) (SubEntityIterator.idx2multiidx d i) e) (n + 1) 0 ∧
        vec.getD i 0 < RefinementImp.nVertices d n ∧
        SubEntityIterator.vertexCoord d ⟨vec.getD i 0, n⟩
          = some (List.zipWith (fun a b => a + b) (SubEntityIterator.idx2multiidx d i) e) ∧
        SubEntityIterator.vertexCoords d ⟨vec.getD i 0, n⟩
          = some ((List.zipWith (fun a b => a + b) (SubEntityIterator.idx2multiidx d i) e).map
              (fun x : ℕ => (x : ℚ) / (n : ℚ)))) ∧
      ∃ lower upper, SubEntityIterator.geometry d 0 ⟨k, n⟩ = some (lower, upper) ∧
        SubEntityIterator.vertexCoords d ⟨vec.getD 0 0, n⟩ = some lower ∧
        SubEntityIterator.vertexCoords d ⟨vec.getD (2 ^ d - 1) 0, n⟩ = some upper := by
  have hM : UINT_RANGE = 2 ^ 32 := by decide
  have hnM' : n + 1 < UINT_RANGE := by omega
  have h31 : (2 : Nat) ^ 31 < 2 ^ 32 := by decide
  have hp : 0 < 2 ^ d := Nat.two_pow_pos d
  have hcoords : ∀ i, SubEntityIterator.vertexCoords d
      ⟨horner (List.zipWith (fun a b => a + b) (digits d i 2) (digits d k n)) (n + 1), n⟩
      = some ((List.zipWith (fun a b => a + b) (digits d i 2) (digits d k n)).map
          (fun x : ℕ => (x : ℚ) / (n : ℚ))) := by
    intro i
    rw [SubEntityIterator.vertexCoords_eq d n _ hn hnM', corner_digits d n k i hn hnM']
  refine ⟨digits d k n, _, SubEntityIterator.idx2coord_eq_digits d k n hn,
    SubEntityIterator.vertexIndices_eq d n k hn hnM' hpow, ?_, ?_, ?_, ?_⟩
  · rw [List.length_map, List.length_range]
  · apply (List.nodup_range _).map_on
    intro i hi j hj h
    exact corner_index_injective d n k i j hn hnM' (List.mem_range.1 hi) (List.mem_range.1 hj) h
  · intro i hi
    have hlt := corner_index_lt d n k i hn hnM'
    rw [getD_map_range _ _ _ hi, SubEntityIterator.idx2multiidx_eq_digits]
    refine ⟨?_, ?_, ?_, ?_, hcoords i⟩
    · unfold SubEntityIterator.vertexIdx
      simp only [Nat.mod_eq_of_lt hnM']
      rw [SubEntityIterator.coord2idx_eq_horner_mod, Nat.mod_eq_of_lt (by omega)]
    · rw [weightedSum_eq, pow_zero, Nat.one_mul]
    · unfold RefinementImp.nVertices
      rw [Nat.mod_eq_of_lt hnM', Power.eval_eq, Nat.mod_eq_of_lt (by omega)]
      exact hlt
    · unfold SubEntityIterator.vertexCoord
      simp only [Nat.mod_eq_of_lt hnM']
      rw [SubEntityIterator.idx2coord_eq_digits d _ (n + 1) (Nat.succ_pos n),
        corner_digits d n k i hn hnM']
  · refine ⟨_, _, SubEntityIterator.geometry_element d n k hn (by omega), ?_, ?_⟩
    · rw [getD_map_range _ _ _ hp, hcoords 0, digits_zero]
      have h := zipWith_zeros (digits d k n)
      rw [digits_length] at h
      rw [h]
    · rw [getD_map_range _ _ _ (by omega), hcoords (2 ^ d - 1), digits_all_ones]
      have h := zipWith_ones (digits d k n)
      rw [digits_length] at h
      rw [h, List.map_map]
      congr 1
      apply List.map_congr_left
      intro x _
      simp only [Function.comp, Nat.cast_add, Nat.cast_one]

/-- C34 as amended, at a concrete input: dimension 2, n = 2, element 3 (cell
(1, 1)): the corner indices are 4, 5, 7, 8, all below the 9 vertices. -/
theorem SubEntityIterator.vertexIndices_corners_witness :
    ∃ e vec, SubEntityIterator.cellCoord 2 ⟨3, 2⟩ = some e ∧
      SubEntityIterator.vertexIndices 2 ⟨3, 2⟩ = some vec ∧
      vec.length = 2 ^ 2 ∧ vec.Nodup ∧
      (∀ i, i < 2 ^ 2 →
        vec.getD i 0 = SubEntityIterator.vertexIdx ⟨3, 2⟩
          (List.zipWith (fun a b => a + b) (SubEntityIterator.idx2multiidx 2 i) e) ∧
        vec.getD i 0 = weightedSum
          (List.zipWith (fun a b => a + b) (SubEntityIterator.idx2multiidx 2 i) e) (2 + 1) 0 ∧
        vec.getD i 0 < RefinementImp.nVertices 2 2 ∧
        SubEntityIterator.vertexCoord 2 ⟨vec.getD i 0, 2⟩
          = some (List.zipWith (fun a b => a + b) (SubEntityIterator.idx2multiidx 2 i) e) ∧
        SubEntityIterator.vertexCoords 2 ⟨vec.getD i 0, 2⟩
          = some ((List.zipWith (fun a b => a + b) (SubEntityIterator.idx2multiidx 2 i) e).map
              (fun x : ℕ => (x : ℚ) / ((2 : ℕ) : ℚ)))) ∧
      ∃ lower upper, SubEntityIterator.geometry 2 0 ⟨3, 2⟩ = some (lower, upper) ∧
        SubEntityIterator.vertexCoords 2 ⟨vec.getD 0 0, 2⟩ = some lower ∧
        SubEntityIterator.vertexCoords 2 ⟨vec.getD (2 ^ 2 - 1) 0, 2⟩ = some upper :=
  SubEntityIterator.vertexIndices_corners 2 2 3 (by decide) (by decide) (by decide) (by decide)

/-! ## Hypercube refinement: placement of the sub-entities (C35) -/

/-- C35 evaluated on the code. For an element index k < n^d with cell
coordinates v, geometry() has the lower corner v/n and the upper corner
(v+1)/n, with 0 ≤ lower < upper ≤ 1, coords() = (v + 1/2)/n is their midpoint,
and distinct element indices give distinct cells; the coords() of a vertex
index k < (n+1)^d lie in [0,1]. But geometry() of a vertex decomposes the
vertex index with the cell width n instead of the vertex width n + 1: in
dimension 2 with n = 2 the vertex 2 has coords() = (1, 0), while geometry()
is the degenerate box at (0, 1/2). -/
theorem SubEntityIterator.vertex_geometry_wrong_width :
    (∀ d n k : Nat, 1 ≤ n → n < 2 ^ 32 → k < n ^ d →
      ∃ v, SubEntityIterator.cellCoord d ⟨k, n⟩ = some v ∧ v.length = d ∧
        SubEntityIterator.geometry d 0 ⟨k, n⟩
          = some (v.map (fun x : ℕ => (x : ℚ) / (n : ℚ)),
              v.map (fun x : ℕ => ((x : ℚ) + 1) / (n : ℚ))) ∧
        SubEntityIterator.elementCoords d ⟨k, n⟩
          = some (v.map (fun x : ℕ => ((x : ℚ) + 1 / 2) / (n : ℚ))) ∧
        ∀ x ∈ v, 0 ≤ (x : ℚ) / (n : ℚ) ∧ (x : ℚ) / (n : ℚ) < ((x : ℚ) + 1) / (n : ℚ) ∧
          ((x : ℚ) + 1) / (n : ℚ) ≤ 1 ∧
          ((x : ℚ) + 1 / 2) / (n : ℚ)
            = ((x : ℚ) / (n : ℚ) + ((x : ℚ) + 1) / (n : ℚ)) / 2) ∧
    (∀ d n k₁ k₂ : Nat, 1 ≤ n → n < 2 ^ 32 → k₁ < n ^ d → k₂ < n ^ d → k₁ ≠ k₂ →
      SubEntityIterator.geometry d 0 ⟨k₁, n⟩ ≠ SubEntityIterator.geometry d 0 ⟨k₂, n⟩) ∧
    (∀ d n k : Nat, 1 ≤ n → n + 1 < 2 ^ 32 → k < (n + 1) ^ d →
      ∃ c, SubEntityIterator.vertexCoords d ⟨k, n⟩ = some c ∧ ∀ x ∈ c, 0 ≤ x ∧ x ≤ 1) ∧
    SubEntityIterator.vertexCoords 2 ⟨2, 2⟩ = some [1, 0] ∧
    SubEntityIterator.geometry 2 2 ⟨2, 2⟩ = some ([0, 1 / 2], [0, 1 / 2]) := by
  have hM : UINT_RANGE = 2 ^ 32 := by decide
  refine ⟨?_, ?_, ?_, by decide!, by decide!⟩
  · intro d n k hn hnM hk
    have hnq : (0 : ℚ) < (n : ℚ) := by exact_mod_cast hn
    refine ⟨digits d k n, SubEntityIterator.idx2coord_eq_digits d k n hn, digits_length d k n,
      SubEntityIterator.geometry_element d n k hn (by omega),
      SubEntityIterator.elementCoords_eq d n k hn, ?_⟩
    intro x hx
    have hx' : x < n := digits_lt d k n hn x hx
    have hxq : (x : ℚ) + 1 ≤ (n : ℚ) := by exact_mod_cast hx'
    have hx0 : (0 : ℚ) ≤ (x : ℚ) := by exact_mod_cast Nat.zero_le x
    refine ⟨div_nonneg hx0 hnq.le, ?_, ?_, ?_⟩
    · exact div_lt_div_of_pos_right (by linarith) hnq
    · rw [div_le_one hnq]
      exact hxq
    · field_simp
      ring
  · intro d n k₁ k₂ hn hnM h1 h2 hne heq
    rw [SubEntityIterator.geometry_element d n k₁ hn (by omega),
      SubEntityIterator.geometry_element d n k₂ hn (by omega)] at heq
    have hlow := congrArg Prod.fst (Option.some.inj heq)
    have hnq : (n : ℚ) ≠ 0 := by
      have : (0 : ℚ) < (n : ℚ) := by exact_mod_cast hn
      exact this.ne'
    have hinj : Function.Injective (fun x : ℕ => (x : ℚ) / (n : ℚ)) := by
      intro a b hab
      have hab' : (a : ℚ) / (n : ℚ) = (b : ℚ) / (n : ℚ) := hab
      rw [div_left_inj' hnq] at hab'
      exact_mod_cast hab'
    exact hne (digits_injective d n k₁ k₂ h1 h2 (List.map_injective_iff.2 hinj hlow))
  · intro d n k hn hnM hk
    have hnq : (0 : ℚ) < (n : ℚ) := by exact_mod_cast hn
    refine ⟨_, SubEntityIterator.vertexCoords_eq d n k hn (by omega), ?_⟩
    intro x hx
    rw [List.mem_map] at hx
    obtain ⟨y, hy, rfl⟩ := hx
    have hy' : y < n + 1 := digits_lt d k (n + 1) (Nat.succ_pos n) y hy
    have hyq : (y : ℚ) ≤ (n : ℚ) := by exact_mod_cast Nat.lt_succ_iff.1 hy'
    have hy0 : (0 : ℚ) ≤ (y : ℚ) := by exact_mod_cast Nat.zero_le y
    exact ⟨div_nonneg hy0 hnq.le, (div_le_one hnq).2 hyq⟩

end HCubeArbitraryRefinement

/-! ## Helper constants of the tetrahedron table (C36) -/

set_option maxRecDepth 100000 in
/-- C36: the helper constants of the tetrahedron table agree with the closed
forms of their comments, with vol = 6 and the literals read as exact decimals:
A is 16/135/6 and C is 20/378/6 within 10^-15; u + v is exactly 1/2 and
(40u - 10)^2 is 60 within 10^-15; (34 s_1 - 7)^2 and (34 s_2 - 7)^2 are 15,
(34 t_1 - 13)^2 and (34 t_2 - 13)^2 are 135, and B_1 + B_2 is 2*2665/37800/6,
each within 10^-15; w_4 is exactly 1/24 and m_4_a + 3 m_4_b is exactly 1. -/
theorem SimplexQuadratureRule3.helper_constants_closed_forms :
    |SimplexQuadratureRule3.A - 16 / 135 / 6| < 1 / 10 ^ 15 ∧
    |SimplexQuadratureRule3.C - 20 / 378 / 6| < 1 / 10 ^ 15 ∧
    SimplexQuadratureRule3.u + SimplexQuadratureRule3.v = 1 / 2 ∧
    |(40 * SimplexQuadratureRule3.u - 10) ^ 2 - 60| < 1 / 10 ^ 15 ∧
    |(34 * SimplexQuadratureRule3.s_1 - 7) ^ 2 - 15| < 1 / 10 ^ 15 ∧
    |(34 * SimplexQuadratureRule3.s_2 - 7) ^ 2 - 15| < 1 / 10 ^ 15 ∧
    |(34 * SimplexQuadratureRule3.t_1 - 13) ^ 2 - 135| < 1 / 10 ^ 15 ∧
    |(34 * SimplexQuadratureRule3.t_2 - 13) ^ 2 - 135| < 1 / 10 ^ 15 ∧
    |SimplexQuadratureRule3.B_1 + SimplexQuadratureRule3.B_2 - 2 * 2665 / 37800 / 6|
      < 1 / 10 ^ 15 ∧
    SimplexQuadratureRule3.w_4 = 1 / 24 ∧
    SimplexQuadratureRule3.m_4_a + 3 * SimplexQuadratureRule3.m_4_b = 1 := by
  decide!

end Dune
